import Mathlib

/-!
# MoverExamples: the ziplining movement mode and the input producers

A shallow embedding of `ZipliningMode.cpp`, `ZipliningTransitions.cpp`,
`NavMoverComponent.cpp` and the input production of `MoverExamplesCharacter.cpp`.

Conventions of the embedding:

* `float`/`double` values are exact rationals (`ℚ`); rounding is not modelled.
  Lengths are square roots: the closed form of the step is stated over the
  reals, with the vector operations and the clamped step taken over an ordered
  field; under the embedding of the rationals they are the rational ones.
* An actor is identified by a natural number; a (possibly null) actor pointer
  is an `Option AActor`.
* `FName` is a string, `NAME_None` is the name `"None"`.
* A function that can hit a failed `check` or dereference a null pointer
  returns an `Option`; `none` is the fatal fault.
* Engine services that the repository only calls (overlap query, zipline
  interface, collision sweep, inverse square root, object references on the
  wire) are fields of an environment structure, so every theorem holds for
  all of their behaviours unless a hypothesis says otherwise.
-/

namespace MoverExamples

/-! ## Engine value types -/

/-- Engine vector `FVector`, with exact rational components. -/
structure FVector where
  X : ℚ
  Y : ℚ
  Z : ℚ
deriving DecidableEq

namespace FVector

/-- `FVector::ZeroVector`. -/
def ZeroVector : FVector := ⟨0, 0, 0⟩

/-- `operator+` on vectors. -/
def add (a b : FVector) : FVector := ⟨a.X + b.X, a.Y + b.Y, a.Z + b.Z⟩

/-- `operator-` on vectors. -/
def sub (a b : FVector) : FVector := ⟨a.X - b.X, a.Y - b.Y, a.Z - b.Z⟩

/-- `operator*` of a vector with a scalar. -/
def scale (a : FVector) (k : ℚ) : FVector := ⟨a.X * k, a.Y * k, a.Z * k⟩

/-- `operator|`, the dot product. -/
def dot (a b : FVector) : ℚ := a.X * b.X + a.Y * b.Y + a.Z * b.Z

instance : Add FVector := ⟨add⟩
instance : Sub FVector := ⟨sub⟩

/-- `FVector::DistSquared(V1, V2)`: the sum of the squared component differences. -/
def DistSquared (V1 V2 : FVector) : ℚ :=
  (V2.X - V1.X) * (V2.X - V1.X) + (V2.Y - V1.Y) * (V2.Y - V1.Y) + (V2.Z - V1.Z) * (V2.Z - V1.Z)

/-- `UE_KINDA_SMALL_NUMBER`, the default tolerance of `IsNearlyZero`. -/
def KINDA_SMALL_NUMBER : ℚ := 1 / 10000

/-- `UE_SMALL_NUMBER`, the default tolerance of `GetSafeNormal`. -/
def SMALL_NUMBER : ℚ := 1 / 100000000

/-- Modelled from the spec: `FVector::IsNearlyZero` is engine code that is not
part of the sources; the spec calls it an "epsilon comparison" against zero. It
holds when every component is within `KINDA_SMALL_NUMBER` of zero. -/
def IsNearlyZero (v : FVector) : Bool :=
  decide (|v.X| ≤ KINDA_SMALL_NUMBER) && decide (|v.Y| ≤ KINDA_SMALL_NUMBER)
    && decide (|v.Z| ≤ KINDA_SMALL_NUMBER)

/-- Modelled from the spec: `FVector::GetSafeNormal` is engine code that is not
part of the sources; the spec calls its result the "normalized travel
direction". A vector of squared length one is returned as is, a vector of
squared length below `SMALL_NUMBER` gives the zero vector, every other vector
is scaled by the inverse square root of its squared length. The inverse square
root `InvSqrt` is a parameter. -/
def GetSafeNormal (InvSqrt : ℚ → ℚ) (v : FVector) : FVector :=
  let SquareSum := v.X * v.X + v.Y * v.Y + v.Z * v.Z
  if SquareSum = 1 then v
  else if SquareSum < SMALL_NUMBER then ZeroVector
  else v.scale (InvSqrt SquareSum)

/-- Modelled from the spec: `FVector::VectorPlaneProject` is engine code that
is not part of the sources; the spec says the direction is projected "onto the
plane perpendicular to the up axis": the component along the plane normal is
removed. -/
def VectorPlaneProject (V PlaneNormal : FVector) : FVector :=
  V - PlaneNormal.scale (V.dot PlaneNormal)

/-- Modelled from the spec: `FMath::ClosestPointOnSegment` is engine code that
is not part of the sources; the spec says the desired end is clamped "to the
closed segment `[start, end]` (closest point on segment)". The point is
projected on the line through the two ends; a projection before the start gives
the start, one beyond the end gives the end. -/
def ClosestPointOnSegment (Point StartPoint EndPoint : FVector) : FVector :=
  let Segment := EndPoint - StartPoint
  let VectToPoint := Point - StartPoint
  let Dot1 := VectToPoint.dot Segment
  if Dot1 ≤ 0 then StartPoint
  else
    let Dot2 := Segment.dot Segment
    if Dot2 ≤ Dot1 then EndPoint
    else StartPoint + Segment.scale (Dot1 / Dot2)

/-- A point lies on the closed segment between `a` and `b`. -/
def OnSegment (p a b : FVector) : Prop :=
  ∃ t : ℚ, 0 ≤ t ∧ t ≤ 1 ∧ p = a + (b - a).scale t

end FVector

/-- An orientation (`FRotator`/`FQuat`), represented by the direction it faces:
the value of `ToOrientationRotator`/`ToOrientationQuat` on that direction. -/
structure FRotator where
  Facing : FVector
deriving DecidableEq

/-- `FVector::ToOrientationRotator` and `FVector::ToOrientationQuat`. -/
def FVector.ToOrientationRotator (v : FVector) : FRotator := ⟨v⟩

/-- Actors are identified by a number. -/
abbrev AActor := Nat

/-- Engine names. -/
abbrev FName := String

/-- `NAME_None`, the value of a default constructed `FName`. -/
def NAME_None : FName := "None"

/-- `DefaultModeNames::Falling`. -/
def DefaultModeNames.Falling : FName := "Falling"

/-- `ExtendedModeNames::Ziplining` (ZipliningMode.h). -/
def ExtendedModeNames.Ziplining : FName := "Ziplining"

/-! ## FZipliningState -/

/-- The data block `FZipliningState` (ZipliningMode.h): the line being
traversed and the direction flag. -/
structure FZipliningState where
  ZiplineActor : Option AActor
  bIsMovingAtoB : Bool
deriving DecidableEq

/-- The constructor `FZipliningState()`: a null actor and `bIsMovingAtoB(true)`. -/
def FZipliningState.Default : FZipliningState := ⟨none, true⟩

/-- `FZipliningState::ShouldReconcile`. -/
def FZipliningState.ShouldReconcile (self AuthorityState : FZipliningState) : Bool :=
  (self.ZiplineActor != AuthorityState.ZiplineActor) ||
    (self.bIsMovingAtoB != AuthorityState.bIsMovingAtoB)

/-- `FZipliningState::Interpolate`: both fields are taken from `To`. -/
def FZipliningState.Interpolate (_self _From To : FZipliningState) (_Pct : ℚ) :
    FZipliningState :=
  ⟨To.ZiplineActor, To.bIsMovingAtoB⟩

/-! ## Network serialization -/

/-- A bit archive (`FArchive` as used for replication). When saving, `Bits` are
the bits written so far; when loading, `Bits` are the bits not yet read. -/
structure FArchive where
  bIsLoading : Bool
  Bits : List Bool
  bIsError : Bool
deriving DecidableEq

/-- The package map (`UPackageMap`), the shared object-id table. How an object
reference is laid out in bits is engine code, so both directions are fields:
`WriteObject` gives the bits of a reference, `ReadObject` consumes bits and
gives the pointer they resolve to (null when they resolve to nothing) and the
bits left. -/
structure UPackageMap where
  WriteObject : Option AActor → List Bool
  ReadObject : List Bool → Option AActor × List Bool

/-- `Ar << ZiplineActor`: the object reference goes through the package map. -/
def FArchive.SerializeObject (Ar : FArchive) (Map : UPackageMap) (Obj : Option AActor) :
    FArchive × Option AActor :=
  if Ar.bIsLoading then
    let r := Map.ReadObject Ar.Bits
    ({ Ar with Bits := r.2 }, r.1)
  else
    ({ Ar with Bits := Ar.Bits ++ Map.WriteObject Obj }, Obj)

/-- `Ar.SerializeBits(&b, 1)` on a `bool`: one bit is written or read. Reading
past the end of the archive sets the error flag and gives a zero bit. -/
def FArchive.SerializeBits1 (Ar : FArchive) (b : Bool) : FArchive × Bool :=
  if Ar.bIsLoading then
    if Ar.bIsError then (Ar, false)
    else
      match Ar.Bits with
      | [] => ({ Ar with bIsError := true }, false)
      | x :: rest => ({ Ar with Bits := rest }, x)
  else
    ({ Ar with Bits := Ar.Bits ++ [b] }, b)

/-- The result of `NetSerialize`: the archive and the state after the call, the
out-parameter `bOutSuccess` and the returned flag. -/
structure NetSerializeResult where
  Ar : FArchive
  State : FZipliningState
  bOutSuccess : Bool
  Returned : Bool
deriving DecidableEq

/-- `FZipliningState::NetSerialize`. The base class call serializes nothing. -/
def FZipliningState.NetSerialize (self : FZipliningState) (Ar : FArchive) (Map : UPackageMap) :
    NetSerializeResult :=
  let r1 := Ar.SerializeObject Map self.ZiplineActor
  let r2 := r1.1.SerializeBits1 self.bIsMovingAtoB
  { Ar := r2.1, State := ⟨r1.2, r2.2⟩, bOutSuccess := true, Returned := true }

/-- An archive that saves, with nothing written yet. -/
def FArchive.Writer : FArchive := ⟨false, [], false⟩

/-- An archive that loads the given bits. -/
def FArchive.Reader (bits : List Bool) : FArchive := ⟨true, bits, false⟩

/-! ## Simulation data -/

/-- The block `FMoverDefaultSyncState`: the transform and velocity of the mover. -/
structure FMoverDefaultSyncState where
  Location : FVector
  Orientation : FRotator
  Velocity : FVector
  AngularVelocity : FVector
  MoveDirectionIntent : FVector
  MovementBase : Option Nat
deriving DecidableEq

/-- A default constructed `FMoverDefaultSyncState`. -/
def FMoverDefaultSyncState.Default : FMoverDefaultSyncState :=
  ⟨FVector.ZeroVector, ⟨FVector.ZeroVector⟩, FVector.ZeroVector, FVector.ZeroVector,
    FVector.ZeroVector, none⟩

/-- `FMoverDefaultSyncState::SetTransforms_WorldSpace`. -/
def FMoverDefaultSyncState.SetTransforms_WorldSpace (self : FMoverDefaultSyncState)
    (WorldLocation : FVector) (WorldOrient : FRotator) (WorldVelocity : FVector)
    (WorldAngularVelocity : FVector) (Base : Option Nat) : FMoverDefaultSyncState :=
  { self with
    Location := WorldLocation, Orientation := WorldOrient, Velocity := WorldVelocity,
    AngularVelocity := WorldAngularVelocity, MovementBase := Base }

/-- `FMoverSyncState`: the active mode and the type-keyed collection of data
blocks; the collection holds at most one block of each type. -/
structure FMoverSyncState where
  MovementMode : FName
  DefaultSyncState : Option FMoverDefaultSyncState
  ZipliningState : Option FZipliningState
deriving DecidableEq

/-- The input block `FMoverExampleAbilityInputs` (AbilityInputs.h). -/
structure FMoverExampleAbilityInputs where
  bWantsToStartZiplining : Bool
deriving DecidableEq

/-- The jump flags of the input block `FCharacterDefaultInputs`. -/
structure FCharacterDefaultInputs where
  bIsJumpJustPressed : Bool
  bIsJumpPressed : Bool
deriving DecidableEq

/-- `FMoverInputCmdContext`: the type-keyed collection of input blocks. -/
structure FMoverInputCmdContext where
  AbilityInputs : Option FMoverExampleAbilityInputs
  DefaultInputs : Option FCharacterDefaultInputs
deriving DecidableEq

/-- `FMoverTickStartData`. -/
structure FMoverTickStartData where
  InputCmd : FMoverInputCmdContext
  SyncState : FMoverSyncState
deriving DecidableEq

/-- `FSimulationTickParams` without the moving components: the start state and
`TimeStep.StepMs`. -/
structure FSimulationTickParams where
  StartState : FMoverTickStartData
  StepMs : ℚ
deriving DecidableEq

/-- `FMovementModeTickEndState`: the mode-switch outcome of a tick. -/
structure FMovementModeTickEndState where
  RemainingMs : ℚ
  NextModeName : FName
deriving DecidableEq

/-- `FMoverTickEndData`. -/
structure FMoverTickEndData where
  SyncState : FMoverSyncState
  MovementEndState : FMovementModeTickEndState
deriving DecidableEq

/-- `UCommonLegacyMovementSettings`, as far as the mode reads it. -/
structure UCommonLegacyMovementSettings where
  AirMovementModeName : FName
deriving DecidableEq

/-- What a collision-aware move leaves behind: the transform of the updated
component and the velocity of the movement record. -/
structure FSafeMoveResult where
  Location : FVector
  Rotation : FRotator
  Velocity : FVector
deriving DecidableEq

/-- The mover component seen as a `UCharacterMoverComponent`: the value of its
`IsAirborne()`. -/
structure UCharacterMoverComponent where
  IsAirborne : Bool
deriving DecidableEq

/-- What the mode and its transitions read from the moving components during
one tick. `CharacterMoverComponent` is the result of casting the mover
component to `UCharacterMoverComponent`, `none` when the cast gives null.
`GetStartComponent`/`GetEndComponent` give the location of the component,
`none` for a null component. -/
structure FMovingComponentSet where
  CharacterMoverComponent : Option UCharacterMoverComponent
  GetOverlappingActors : List AActor
  DoesImplementInterface : AActor → Bool
  GetStartComponent : AActor → Option FVector
  GetEndComponent : AActor → Option FVector
  GetUpDirection : FVector
  BoxExtent : FVector
  FindSharedSettings : Option UCommonLegacyMovementSettings
  InvSqrt : ℚ → ℚ
  TrySafeMoveUpdatedComponent : FVector → FRotator → FVector → FRotator → ℚ → FSafeMoveResult

/-- A movement of the updated component caused by a tick. -/
inductive FMoveEvent where
  | TeleportTo (DestLocation : FVector) (DestRotation : FRotator)
  | SafeMove (MoveDelta : FVector) (NewRotation : FRotator)
deriving DecidableEq

/-- The updated component: its transform, its `ComponentVelocity`, and the
teleports and moves made so far. -/
structure USceneComponent where
  Location : FVector
  Rotation : FRotator
  ComponentVelocity : FVector
  Events : List FMoveEvent
deriving DecidableEq

/-- Modelled from the spec: `AActor::TeleportTo` is engine code that is not
part of the sources; the spec calls it a "discontinuous relocation, not a swept
move" of the mover to the given place, facing the given direction. -/
def USceneComponent.TeleportTo (self : USceneComponent) (DestLocation : FVector)
    (DestRotation : FRotator) : USceneComponent :=
  { self with
    Location := DestLocation, Rotation := DestRotation,
    Events := self.Events ++ [FMoveEvent.TeleportTo DestLocation DestRotation] }

/-! ## UZipliningMode -/

/-- The loop over the overlapping actors of both `SimulationTick` and
`UZiplineStartTransition::Evaluate`: the first actor that implements the
zipline interface ends the loop. -/
def FindZipline (DoesImplementInterface : AActor → Bool) : List AActor → Option AActor
  | [] => none
  | CandidateActor :: rest =>
    if DoesImplementInterface CandidateActor then some CandidateActor
    else FindZipline DoesImplementInterface rest

/-- `IZipline::Execute_GetStartComponent(Actor)->GetComponentLocation()`: the
call asserts that the actor implements the interface, and the component is
dereferenced. -/
def FMovingComponentSet.StartLocation (Env : FMovingComponentSet) (Actor : AActor) :
    Option FVector :=
  if Env.DoesImplementInterface Actor then Env.GetStartComponent Actor else none

/-- `IZipline::Execute_GetEndComponent(Actor)->GetComponentLocation()`. -/
def FMovingComponentSet.EndLocation (Env : FMovingComponentSet) (Actor : AActor) :
    Option FVector :=
  if Env.DoesImplementInterface Actor then Env.GetEndComponent Actor else none

/-- The local `DefaultAirMode` of `SimulationTick`: `AirMovementModeName` of the
shared settings, `Falling` when there are none. -/
def FMovingComponentSet.DefaultAirMode (Env : FMovingComponentSet) : FName :=
  match Env.FindSharedSettings with
  | some LegacySettings => LegacySettings.AirMovementModeName
  | none => DefaultModeNames.Falling

/-- The local `ActorToZiplineOffset` of `SimulationTick`. -/
def FMovingComponentSet.ActorToZiplineOffset (Env : FMovingComponentSet) : FVector :=
  Env.GetUpDirection.scale Env.BoxExtent.Z

/-- The movement mode `UZipliningMode` (ZipliningMode.h). -/
structure UZipliningMode where
  MaxSpeed : ℚ
deriving DecidableEq

/-- The default `MaxSpeed = 1000.0f`. -/
def UZipliningMode.Default : UZipliningMode := ⟨1000⟩

/-- The local `DesiredEndPos` of `SimulationTick`. -/
def UZipliningMode.DesiredEndPos (Mode : UZipliningMode) (StepStartPos ZipDirection : FVector)
    (DeltaSeconds : ℚ) : FVector :=
  StepStartPos + (ZipDirection.scale Mode.MaxSpeed).scale DeltaSeconds

/-- The local `ActualEndPos` of `SimulationTick`: the desired end clamped to
the segment from `StartPoint` to `EndPoint`. -/
def UZipliningMode.ActualEndPos (Mode : UZipliningMode) (StepStartPos ZipDirection : FVector)
    (DeltaSeconds : ℚ) (StartPoint EndPoint : FVector) : FVector :=
  FVector.ClosestPointOnSegment (Mode.DesiredEndPos StepStartPos ZipDirection DeltaSeconds)
    StartPoint EndPoint

/-- The local `bWillReachEndPosition` of `SimulationTick`. -/
def UZipliningMode.bWillReachEndPosition (Mode : UZipliningMode)
    (StepStartPos ZipDirection : FVector) (DeltaSeconds : ℚ) (StartPoint EndPoint : FVector) :
    Bool :=
  (Mode.ActualEndPos StepStartPos ZipDirection DeltaSeconds StartPoint EndPoint
    - EndPoint).IsNearlyZero

/-- The shared motion step of `SimulationTick` ("Now let's slide along the
zipline" to the end of the function), run once `StartPoint`, `EndPoint`,
`ZipDirection` and `FlatFacingDir` are known. -/
def UZipliningMode.SlideAlongZipline (Mode : UZipliningMode) (Env : FMovingComponentSet)
    (StepMs : ℚ) (StartPoint EndPoint ZipDirection FlatFacingDir : FVector)
    (UpdatedComponent : USceneComponent) (OutputState : FMoverTickEndData) :
    FMoverTickEndData × USceneComponent :=
  let DeltaSeconds := StepMs * (1 / 1000)
  let StepStartPos := UpdatedComponent.Location + Env.ActorToZiplineOffset
  let ActualEndPos := Mode.ActualEndPos StepStartPos ZipDirection DeltaSeconds StartPoint EndPoint
  let bWillReachEndPosition := (ActualEndPos - EndPoint).IsNearlyZero
  let MoveDelta := ActualEndPos - StepStartPos
  -- the component and the relevant velocity of the move record after the move
  let Moved : USceneComponent × FVector :=
    if !MoveDelta.IsNearlyZero then
      let r := Env.TrySafeMoveUpdatedComponent UpdatedComponent.Location UpdatedComponent.Rotation
        MoveDelta FlatFacingDir.ToOrientationRotator DeltaSeconds
      ({ UpdatedComponent with
          Location := r.Location, Rotation := r.Rotation,
          Events := UpdatedComponent.Events
            ++ [FMoveEvent.SafeMove MoveDelta FlatFacingDir.ToOrientationRotator] },
        r.Velocity)
    else (UpdatedComponent, FVector.ZeroVector)
  let FinalLocation := Moved.1.Location
  let FinalVelocity := Moved.2
  let OutputSyncState :=
    (OutputState.SyncState.DefaultSyncState.getD FMoverDefaultSyncState.Default).SetTransforms_WorldSpace
      FinalLocation Moved.1.Rotation FinalVelocity FVector.ZeroVector none
  let Written : FMoverTickEndData :=
    { OutputState with
      SyncState := { OutputState.SyncState with DefaultSyncState := some OutputSyncState } }
  let Component : USceneComponent := { Moved.1 with ComponentVelocity := FinalVelocity }
  if bWillReachEndPosition then
    ({ Written with
        MovementEndState := { Written.MovementEndState with NextModeName := Env.DefaultAirMode } },
      Component)
  else (Written, Component)

/-- The locals of `SimulationTick` once the line is known, before the shared
motion step: the two ends of the traversal, the two directions, the updated
component and the output state. -/
structure FZiplineTarget where
  StartPoint : FVector
  EndPoint : FVector
  ZipDirection : FVector
  FlatFacingDir : FVector
  UpdatedComponent : USceneComponent
  OutputState : FMoverTickEndData
deriving DecidableEq

/-- The first part of `SimulationTick_Implementation`, up to the shared motion
step: the two `FindOrAddMutableDataByType` calls and the branch on
`StartingZipState`. The result is `none` when a `check` fails or a null pointer
is dereferenced, `some (Sum.inl Output)` when the fresh-entry search leaves
`StartPoint` and `EndPoint` null, and `some (Sum.inr Target)` otherwise. -/
def UZipliningMode.ResolveZipline (Env : FMovingComponentSet)
    (Params : FSimulationTickParams) (UpdatedComponent : USceneComponent)
    (OutputState : FMoverTickEndData) : Option (FMoverTickEndData ⊕ FZiplineTarget) :=
  let StartingZipState := Params.StartState.SyncState.ZipliningState
  -- the two FindOrAddMutableDataByType calls
  let OutputSyncState := OutputState.SyncState.DefaultSyncState.getD FMoverDefaultSyncState.Default
  let OutZipState := OutputState.SyncState.ZipliningState.getD FZipliningState.Default
  let Output : FMoverTickEndData :=
    { OutputState with
      SyncState := { OutputState.SyncState with
        DefaultSyncState := some OutputSyncState, ZipliningState := some OutZipState } }
  match StartingZipState with
  | none =>
    match FindZipline Env.DoesImplementInterface Env.GetOverlappingActors with
    | none => some (Sum.inl Output)
    | some CandidateActor =>
      let MoverLoc := UpdatedComponent.Location
      match Env.GetStartComponent CandidateActor, Env.GetEndComponent CandidateActor with
      | some ZipPointA, some ZipPointB =>
        let bIsMovingAtoB : Bool :=
          decide (FVector.DistSquared ZipPointA MoverLoc < FVector.DistSquared ZipPointB MoverLoc)
        let StartPoint := if bIsMovingAtoB then ZipPointA else ZipPointB
        let EndPoint := if bIsMovingAtoB then ZipPointB else ZipPointA
        let ZipDirection := (EndPoint - StartPoint).GetSafeNormal Env.InvSqrt
        let WarpLocation := StartPoint - Env.ActorToZiplineOffset
        let FlatFacingDir :=
          (FVector.VectorPlaneProject ZipDirection Env.GetUpDirection).GetSafeNormal Env.InvSqrt
        let Stored : FMoverTickEndData :=
          { Output with
            SyncState := { Output.SyncState with
              ZipliningState := some ⟨some CandidateActor, bIsMovingAtoB⟩ } }
        let Teleported := UpdatedComponent.TeleportTo WarpLocation FlatFacingDir.ToOrientationRotator
        some (Sum.inr ⟨StartPoint, EndPoint, ZipDirection, FlatFacingDir, Teleported, Stored⟩)
      | _, _ => none
  | some StartingZip =>
    match StartingZip.ZiplineActor with
    | none => none
    | some ZiplineActor =>
      let Copied : FMoverTickEndData :=
        { Output with
          SyncState := { Output.SyncState with ZipliningState := some StartingZip } }
      match Env.StartLocation ZiplineActor, Env.EndLocation ZiplineActor with
      | some ZipPointA, some ZipPointB =>
        let StartPoint := if StartingZip.bIsMovingAtoB then ZipPointA else ZipPointB
        let EndPoint := if StartingZip.bIsMovingAtoB then ZipPointB else ZipPointA
        let ZipDirection := (EndPoint - StartPoint).GetSafeNormal Env.InvSqrt
        let FlatFacingDir :=
          (FVector.VectorPlaneProject ZipDirection Env.GetUpDirection).GetSafeNormal Env.InvSqrt
        some (Sum.inr ⟨StartPoint, EndPoint, ZipDirection, FlatFacingDir, UpdatedComponent, Copied⟩)
      | _, _ => none

/-- `UZipliningMode::SimulationTick_Implementation`. The result is the output
state and the updated component after the tick, or `none` when the tick hits a
failed `check` or a null pointer. -/
def UZipliningMode.SimulationTick (Mode : UZipliningMode) (Env : FMovingComponentSet)
    (Params : FSimulationTickParams) (UpdatedComponent : USceneComponent)
    (OutputState : FMoverTickEndData) : Option (FMoverTickEndData × USceneComponent) :=
  match UZipliningMode.ResolveZipline Env Params UpdatedComponent OutputState with
  | none => none
  | some (Sum.inl Output) =>
    -- unable to find a valid target zipline: refund all the time
    some ({ Output with
            MovementEndState :=
              { NextModeName := Env.DefaultAirMode, RemainingMs := Params.StepMs } },
          UpdatedComponent)
  | some (Sum.inr Target) =>
    some (Mode.SlideAlongZipline Env Params.StepMs Target.StartPoint Target.EndPoint
      Target.ZipDirection Target.FlatFacingDir Target.UpdatedComponent Target.OutputState)

/-! ## Transitions -/

/-- `FTransitionEvalResult`: the mode to switch to. -/
structure FTransitionEvalResult where
  NextMode : FName
deriving DecidableEq

/-- `FTransitionEvalResult::NoTransition`: the next mode is `NAME_None`. -/
def FTransitionEvalResult.NoTransition : FTransitionEvalResult := ⟨NAME_None⟩

/-- The transition `UZiplineStartTransition` (ZipliningTransitions.h). -/
structure UZiplineStartTransition where
  ZipliningModeName : FName
deriving DecidableEq

/-- The default `ZipliningModeName = ExtendedModeNames::Ziplining`. -/
def UZiplineStartTransition.Default : UZiplineStartTransition := ⟨ExtendedModeNames.Ziplining⟩

/-- `UZiplineStartTransition::Evaluate_Implementation`. -/
def UZiplineStartTransition.Evaluate (self : UZiplineStartTransition) (Env : FMovingComponentSet)
    (Params : FSimulationTickParams) : FTransitionEvalResult :=
  let EvalResult := FTransitionEvalResult.NoTransition
  let SyncState := Params.StartState.SyncState
  match Env.CharacterMoverComponent with
  | some MoverComp =>
    if MoverComp.IsAirborne && (SyncState.MovementMode != self.ZipliningModeName) then
      match Params.StartState.InputCmd.AbilityInputs with
      | some AbilityInputs =>
        if AbilityInputs.bWantsToStartZiplining then
          match FindZipline Env.DoesImplementInterface Env.GetOverlappingActors with
          | some _ => { EvalResult with NextMode := self.ZipliningModeName }
          | none => EvalResult
        else EvalResult
      | none => EvalResult
    else EvalResult
  | none => EvalResult

/-- The transition `UZiplineEndTransition` (ZipliningTransitions.h). -/
structure UZiplineEndTransition where
  AutoExitToMode : FName
deriving DecidableEq

/-- The default `AutoExitToMode = DefaultModeNames::Falling`. -/
def UZiplineEndTransition.Default : UZiplineEndTransition := ⟨DefaultModeNames.Falling⟩

/-- `UZiplineEndTransition::Evaluate_Implementation`. -/
def UZiplineEndTransition.Evaluate (self : UZiplineEndTransition)
    (Params : FSimulationTickParams) : FTransitionEvalResult :=
  let EvalResult := FTransitionEvalResult.NoTransition
  match Params.StartState.InputCmd.DefaultInputs with
  | some DefaultInputs =>
    if DefaultInputs.bIsJumpJustPressed then { EvalResult with NextMode := self.AutoExitToMode }
    else EvalResult
  | none => EvalResult

/-- The tick parameters with the `FZipliningState` block taken out of the
start state; everything else is kept. -/
def FSimulationTickParams.RemoveZipliningState (Params : FSimulationTickParams) :
    FSimulationTickParams :=
  { Params with
    StartState := { Params.StartState with
      SyncState := { Params.StartState.SyncState with ZipliningState := none } } }

/-! ## UZipliningMode::GenerateMove -/

/-- `FMoverTimeStep`: the frame number, the simulation time at the start of the
step and the length of the step. -/
structure FMoverTimeStep where
  ServerFrame : Int
  BaseSimTimeMs : ℚ
  StepMs : ℚ
deriving DecidableEq

/-- Modelled from the spec: `FProposedMove` is an engine type that is not part
of the sources; the spec calls its default value the "empty/no-op proposed
move". It holds a preferred mode, a direction intent with the flag that says
whether there is one, and a linear and an angular velocity. -/
structure FProposedMove where
  PreferredMode : FName
  bHasDirIntent : Bool
  DirectionIntent : FVector
  LinearVelocity : FVector
  AngularVelocity : FVector
deriving DecidableEq

/-- The default constructed `FProposedMove()`: no preferred mode, no direction
intent, no velocity. -/
def FProposedMove.Default : FProposedMove :=
  ⟨NAME_None, false, FVector.ZeroVector, FVector.ZeroVector, FVector.ZeroVector⟩

/-- `UZipliningMode::GenerateMove_Implementation`: a `const` method whose only
output is `OutProposedMove`; the result is the value of `OutProposedMove` after
the call. -/
def UZipliningMode.GenerateMove (_Mode : UZipliningMode) (_StartState : FMoverTickStartData)
    (_TimeStep : FMoverTimeStep) (_OutProposedMove : FProposedMove) : FProposedMove :=
  FProposedMove.Default

/-! ## UMyNavMoverComponent -/

/-- The component `UMyNavMoverComponent` (NavMoverComponent.h): the cached
navigation request. -/
structure UMyNavMoverComponent where
  CachedNavVelocity : FVector
  CachedNavIntent : FVector
  bHasNavInput : Bool
deriving DecidableEq

/-- The member initializers of `UMyNavMoverComponent`: zero vectors and no
pending input. -/
def UMyNavMoverComponent.Default : UMyNavMoverComponent :=
  ⟨FVector.ZeroVector, FVector.ZeroVector, false⟩

/-- `UMyNavMoverComponent::RequestDirectMove`. The inverse square root used by
`GetSafeNormal` is a parameter. -/
def UMyNavMoverComponent.RequestDirectMove (self : UMyNavMoverComponent) (InvSqrt : ℚ → ℚ)
    (MoveVelocity : FVector) (_bForceMaxSpeed : Bool) : UMyNavMoverComponent :=
  if MoveVelocity.IsNearlyZero then self
  else
    { CachedNavVelocity := MoveVelocity,
      CachedNavIntent := MoveVelocity.GetSafeNormal InvSqrt,
      bHasNavInput := true }

/-- What a call of `ConsumeNavMovementData` leaves behind: the returned flag,
the two reference arguments and the component. -/
structure FConsumeNavResult where
  Returned : Bool
  OutMoveIntent : FVector
  OutMoveVelocity : FVector
  Component : UMyNavMoverComponent
deriving DecidableEq

/-- `UMyNavMoverComponent::ConsumeNavMovementData`; `OutMoveIntent` and
`OutMoveVelocity` are the values of the reference arguments before the call. -/
def UMyNavMoverComponent.ConsumeNavMovementData (self : UMyNavMoverComponent)
    (OutMoveIntent OutMoveVelocity : FVector) : FConsumeNavResult :=
  if !self.bHasNavInput then ⟨false, OutMoveIntent, OutMoveVelocity, self⟩
  else
    ⟨true, self.CachedNavIntent, self.CachedNavVelocity,
      { CachedNavIntent := FVector.ZeroVector, CachedNavVelocity := FVector.ZeroVector,
        bHasNavInput := false }⟩

/-! ## AMoverExamplesCharacter -/

/-- `DefaultModeNames::Flying`. -/
def DefaultModeNames.Flying : FName := "Flying"

/-- `FRotator::ZeroRotator`: the orientation that faces along the X axis. -/
def FRotator.ZeroRotator : FRotator := ⟨⟨1, 0, 0⟩⟩

/-- `FVector::IsZero`: all components are exactly zero. -/
def FVector.IsZero (v : FVector) : Bool :=
  decide (v.X = 0) && decide (v.Y = 0) && decide (v.Z = 0)

/-- `EMoveInputType`. -/
inductive EMoveInputType where
  | Invalid
  | DirectionalIntent
  | Velocity
deriving DecidableEq

/-- The whole input block `FCharacterDefaultInputs` as `OnProduceInput` fills
it: the jump flags and the fields next to them. -/
structure FCharacterDefaultInputsBlock extends FCharacterDefaultInputs where
  MoveInputType : EMoveInputType
  MoveInput : FVector
  OrientationIntent : FVector
  ControlRotation : FRotator
  SuggestedMovementMode : FName
  bUsingMovementBase : Bool
  MovementBase : Option Nat
  MovementBaseBoneName : FName
deriving DecidableEq

/-- A default constructed `FCharacterDefaultInputs`, the `DoNothingInput` of
`OnProduceInput`: no move input, no jump, no suggested mode. -/
def FCharacterDefaultInputsBlock.Default : FCharacterDefaultInputsBlock :=
  { bIsJumpJustPressed := false, bIsJumpPressed := false,
    MoveInputType := EMoveInputType.Invalid, MoveInput := FVector.ZeroVector,
    OrientationIntent := FVector.ZeroVector, ControlRotation := FRotator.ZeroRotator,
    SuggestedMovementMode := NAME_None, bUsingMovementBase := false, MovementBase := none,
    MovementBaseBoneName := NAME_None }

/-- The movement base the character mover component stands on:
`GetMovementBase()`, `GetMovementBaseBoneName()` and
`UBasedMovementUtils::TransformWorldDirectionToBased` for this base. -/
structure FMovementBaseInfo where
  MovementBase : Nat
  MovementBaseBoneName : FName
  TransformWorldDirectionToBased : FVector → FVector

/-- What `OnProduceInput` reads from the engine in one call. `bHasController`
is `GetController() != nullptr`; `bIsUnpossessedOnAuthority` is the test on the
local and remote role; `PlayerControlRotation` is the control rotation of the
player controller, `none` when the controller is no player controller;
`ConsumeNavMovementData` is the call on the engine's nav mover component with
the two cached vectors as reference arguments, `none` when the character has no
such component; `RotateVector` is `FRotator::RotateVector`; `StoredMoveInput`
is the vector that `SetMoveInput` stores for a given input; `MovementBase` is
the base of the character mover component, `none` when there is no such
component or no base. -/
structure FProduceInputContext where
  bHasController : Bool
  bIsUnpossessedOnAuthority : Bool
  PlayerControlRotation : Option FRotator
  ConsumeNavMovementData : Option (FVector → FVector → Bool × FVector × FVector)
  RotateVector : FRotator → FVector → FVector
  StoredMoveInput : FVector → FVector
  InvSqrt : ℚ → ℚ
  MovementBase : Option FMovementBaseInfo

/-- The pawn `AMoverExamplesCharacter` (MoverExamplesCharacter.h): the three
movement options and the private input state. The cached camera input is left
out. -/
structure AMoverExamplesCharacter where
  bUseBaseRelativeMovement : Bool
  bOrientRotationToMovement : Bool
  bMaintainLastInputOrientation : Bool
  LastAffirmativeMoveInput : FVector
  CachedMoveInputIntent : FVector
  CachedMoveInputVelocity : FVector
  bIsJumpJustPressed : Bool
  bIsJumpPressed : Bool
  bIsFlyingActive : Bool
  bShouldToggleFlying : Bool
deriving DecidableEq

/-- The member initializers of `AMoverExamplesCharacter`. -/
def AMoverExamplesCharacter.Default : AMoverExamplesCharacter :=
  { bUseBaseRelativeMovement := true, bOrientRotationToMovement := true,
    bMaintainLastInputOrientation := false, LastAffirmativeMoveInput := FVector.ZeroVector,
    CachedMoveInputIntent := FVector.ZeroVector, CachedMoveInputVelocity := FVector.ZeroVector,
    bIsJumpJustPressed := false, bIsJumpPressed := false, bIsFlyingActive := false,
    bShouldToggleFlying := false }

/-- `AMoverExamplesCharacter::RequestMoveByIntent`. -/
def AMoverExamplesCharacter.RequestMoveByIntent (self : AMoverExamplesCharacter)
    (DesiredIntent : FVector) : AMoverExamplesCharacter :=
  { self with CachedMoveInputIntent := DesiredIntent }

/-- `AMoverExamplesCharacter::RequestMoveByVelocity`. -/
def AMoverExamplesCharacter.RequestMoveByVelocity (self : AMoverExamplesCharacter)
    (DesiredVelocity : FVector) : AMoverExamplesCharacter :=
  { self with CachedMoveInputVelocity := DesiredVelocity }

/-- `FMath::Clamp(x, -1.0f, 1.0f)`. -/
def ClampUnit (x : ℚ) : ℚ := if x < -1 then -1 else if x < 1 then x else 1

/-- `AMoverExamplesCharacter::OnMoveTriggered`. -/
def AMoverExamplesCharacter.OnMoveTriggered (self : AMoverExamplesCharacter)
    (MovementVector : FVector) : AMoverExamplesCharacter :=
  { self with
    CachedMoveInputIntent :=
      ⟨ClampUnit MovementVector.X, ClampUnit MovementVector.Y, ClampUnit MovementVector.Z⟩ }

/-- `AMoverExamplesCharacter::OnMoveCompleted`. -/
def AMoverExamplesCharacter.OnMoveCompleted (self : AMoverExamplesCharacter) :
    AMoverExamplesCharacter :=
  { self with CachedMoveInputIntent := FVector.ZeroVector }

/-- `AMoverExamplesCharacter::OnJumpStarted`. -/
def AMoverExamplesCharacter.OnJumpStarted (self : AMoverExamplesCharacter) :
    AMoverExamplesCharacter :=
  { self with bIsJumpJustPressed := !self.bIsJumpPressed, bIsJumpPressed := true }

/-- `AMoverExamplesCharacter::OnJumpReleased`. -/
def AMoverExamplesCharacter.OnJumpReleased (self : AMoverExamplesCharacter) :
    AMoverExamplesCharacter :=
  { self with bIsJumpPressed := false, bIsJumpJustPressed := false }

/-- `AMoverExamplesCharacter::OnFlyTriggered`. -/
def AMoverExamplesCharacter.OnFlyTriggered (self : AMoverExamplesCharacter) :
    AMoverExamplesCharacter :=
  { self with bShouldToggleFlying := true }

/-- `AMoverExamplesCharacter::OnProduceInput`. `OutInputCmd` is the block of
type `FCharacterDefaultInputs` found in the collection of the input command,
`none` when there is none yet; the result is the character after the call and
the block after the call. `Size() >= RotationMagMin` is tested on the squares.
The write to the spring arm component is left out. -/
def AMoverExamplesCharacter.OnProduceInput (self : AMoverExamplesCharacter)
    (Ctx : FProduceInputContext) (OutInputCmd : Option FCharacterDefaultInputsBlock) :
    AMoverExamplesCharacter × FCharacterDefaultInputsBlock :=
  -- FindOrAddMutableDataByType
  let CharacterInputs := OutInputCmd.getD FCharacterDefaultInputsBlock.Default
  if !Ctx.bHasController then
    if Ctx.bIsUnpossessedOnAuthority then (self, FCharacterDefaultInputsBlock.Default)
    else (self, CharacterInputs)
  else
    let ControlRotation : FRotator :=
      match Ctx.PlayerControlRotation with
      | some Rotation => Rotation
      | none => FRotator.ZeroRotator
    -- the nav mover component may overwrite the two cached vectors
    let Consumed : Bool × FVector × FVector :=
      match Ctx.ConsumeNavMovementData with
      | some Consume => Consume self.CachedMoveInputIntent self.CachedMoveInputVelocity
      | none => (false, self.CachedMoveInputIntent, self.CachedMoveInputVelocity)
    let bRequestedNavMovement := Consumed.1
    let CachedMoveInputIntent := Consumed.2.1
    let CachedMoveInputVelocity := Consumed.2.2
    let bUsingInputIntentForMove := CachedMoveInputVelocity.IsZero
    let MoveInputType :=
      if bUsingInputIntentForMove then EMoveInputType.DirectionalIntent
      else EMoveInputType.Velocity
    let MoveInput :=
      if bUsingInputIntentForMove then
        Ctx.StoredMoveInput (Ctx.RotateVector ControlRotation CachedMoveInputIntent)
      else Ctx.StoredMoveInput CachedMoveInputVelocity
    let RotationMagMin : ℚ := 1 / 1000
    let bHasAffirmativeMoveInput : Bool :=
      decide (RotationMagMin * RotationMagMin ≤ MoveInput.dot MoveInput)
    let OrientationIntent :=
      if bHasAffirmativeMoveInput then
        if self.bOrientRotationToMovement then MoveInput.GetSafeNormal Ctx.InvSqrt
        else ControlRotation.Facing.GetSafeNormal Ctx.InvSqrt
      else if self.bMaintainLastInputOrientation then self.LastAffirmativeMoveInput
      else FVector.ZeroVector
    let SuggestedMovementMode : FName :=
      if self.bShouldToggleFlying then
        if !self.bIsFlyingActive then DefaultModeNames.Flying else DefaultModeNames.Falling
      else NAME_None
    let Based : Option FMovementBaseInfo :=
      if self.bUseBaseRelativeMovement then Ctx.MovementBase else none
    let Produced : FCharacterDefaultInputsBlock :=
      { CharacterInputs with
        ControlRotation := ControlRotation
        MoveInputType := MoveInputType
        MoveInput := MoveInput
        OrientationIntent := OrientationIntent
        bIsJumpPressed := self.bIsJumpPressed
        bIsJumpJustPressed := self.bIsJumpJustPressed
        SuggestedMovementMode := SuggestedMovementMode
        bUsingMovementBase := false }
    let Relative : FCharacterDefaultInputsBlock :=
      match Based with
      | some Base =>
        { Produced with
          MoveInput := Ctx.StoredMoveInput (Base.TransformWorldDirectionToBased MoveInput)
          OrientationIntent := Base.TransformWorldDirectionToBased OrientationIntent
          bUsingMovementBase := true
          MovementBase := some Base.MovementBase
          MovementBaseBoneName := Base.MovementBaseBoneName }
      | none => Produced
    ({ self with
        CachedMoveInputIntent :=
          if bRequestedNavMovement then FVector.ZeroVector else CachedMoveInputIntent
        CachedMoveInputVelocity :=
          if bRequestedNavMovement then FVector.ZeroVector else CachedMoveInputVelocity
        LastAffirmativeMoveInput :=
          if bHasAffirmativeMoveInput then MoveInput else self.LastAffirmativeMoveInput
        bIsFlyingActive :=
          if self.bShouldToggleFlying then !self.bIsFlyingActive else self.bIsFlyingActive
        bIsJumpJustPressed := false
        bShouldToggleFlying := false },
      Relative)

/-- What can happen to the character between two simulation frames, and the
production of the input of a frame. -/
inductive FCharacterEvent where
  | RequestMoveByIntent (DesiredIntent : FVector)
  | RequestMoveByVelocity (DesiredVelocity : FVector)
  | MoveTriggered (MovementVector : FVector)
  | MoveCompleted
  | JumpStarted
  | JumpReleased
  | FlyTriggered
  | ProduceInput (Ctx : FProduceInputContext) (OutInputCmd : Option FCharacterDefaultInputsBlock)

/-- The event is `OnJumpStarted` or `OnJumpReleased`. -/
def FCharacterEvent.IsJumpEvent : FCharacterEvent → Bool
  | JumpStarted => true
  | JumpReleased => true
  | _ => false

/-- The event is `OnFlyTriggered`. -/
def FCharacterEvent.IsFlyEvent : FCharacterEvent → Bool
  | FlyTriggered => true
  | _ => false

/-- The event is no input production by a character without a controller. -/
def FCharacterEvent.IsPossessed : FCharacterEvent → Bool
  | ProduceInput Ctx _ => Ctx.bHasController
  | _ => true

/-- The character after one event, and the block produced when the event is an
input production. -/
def AMoverExamplesCharacter.Handle (self : AMoverExamplesCharacter) :
    FCharacterEvent → AMoverExamplesCharacter × Option FCharacterDefaultInputsBlock
  | FCharacterEvent.RequestMoveByIntent v => (self.RequestMoveByIntent v, none)
  | FCharacterEvent.RequestMoveByVelocity v => (self.RequestMoveByVelocity v, none)
  | FCharacterEvent.MoveTriggered v => (self.OnMoveTriggered v, none)
  | FCharacterEvent.MoveCompleted => (self.OnMoveCompleted, none)
  | FCharacterEvent.JumpStarted => (self.OnJumpStarted, none)
  | FCharacterEvent.JumpReleased => (self.OnJumpReleased, none)
  | FCharacterEvent.FlyTriggered => (self.OnFlyTriggered, none)
  | FCharacterEvent.ProduceInput Ctx OutInputCmd =>
    ((self.OnProduceInput Ctx OutInputCmd).1, some (self.OnProduceInput Ctx OutInputCmd).2)

/-- The character after a sequence of events, and the blocks produced on the
way, in order. -/
def AMoverExamplesCharacter.Run (self : AMoverExamplesCharacter) :
    List FCharacterEvent → AMoverExamplesCharacter × List FCharacterDefaultInputsBlock
  | [] => (self, [])
  | e :: es =>
    (((self.Handle e).1.Run es).1,
      match (self.Handle e).2 with
      | some Block => Block :: ((self.Handle e).1.Run es).2
      | none => ((self.Handle e).1.Run es).2)

/-- The event is `OnJumpReleased`. -/
def FCharacterEvent.IsJumpReleased : FCharacterEvent → Bool
  | JumpReleased => true
  | _ => false

/-! ## The arithmetic of the step over an ordered field

The step of `SimulationTick` divides by the length of the line, which is a
square root. The definitions of this section are the vector operations and the
clamped step of the tick with the components taken from an ordered field `K`:
with `K = ℚ` they are the definitions above (`FVector.Cast`), with `K = ℝ`
every line has a length and a unit direction. -/

/-- Engine vector `FVector`, with components in the ordered field `K`. -/
structure FVectorOver (K : Type) where
  X : K
  Y : K
  Z : K

namespace FVectorOver

/-- `operator+` on vectors. -/
def add {K : Type} [LinearOrderedField K] (a b : FVectorOver K) : FVectorOver K :=
  ⟨a.X + b.X, a.Y + b.Y, a.Z + b.Z⟩

/-- `operator-` on vectors. -/
def sub {K : Type} [LinearOrderedField K] (a b : FVectorOver K) : FVectorOver K :=
  ⟨a.X - b.X, a.Y - b.Y, a.Z - b.Z⟩

/-- `operator*` of a vector with a scalar. -/
def scale {K : Type} [LinearOrderedField K] (a : FVectorOver K) (k : K) : FVectorOver K :=
  ⟨a.X * k, a.Y * k, a.Z * k⟩

/-- `operator|`, the dot product. -/
def dot {K : Type} [LinearOrderedField K] (a b : FVectorOver K) : K :=
  a.X * b.X + a.Y * b.Y + a.Z * b.Z

instance {K : Type} [LinearOrderedField K] : Add (FVectorOver K) := ⟨add⟩
instance {K : Type} [LinearOrderedField K] : Sub (FVectorOver K) := ⟨sub⟩

/-- `FVector::DistSquared(V1, V2)`: the sum of the squared component differences. -/
def DistSquared {K : Type} [LinearOrderedField K] (V1 V2 : FVectorOver K) : K :=
  (V2.X - V1.X) * (V2.X - V1.X) + (V2.Y - V1.Y) * (V2.Y - V1.Y) + (V2.Z - V1.Z) * (V2.Z - V1.Z)

/-- `UE_KINDA_SMALL_NUMBER`, the default tolerance of `IsNearlyZero`. -/
def KINDA_SMALL_NUMBER (K : Type) [LinearOrderedField K] : K := 1 / 10000

/-- `UE_SMALL_NUMBER`, the default tolerance of `GetSafeNormal`. -/
def SMALL_NUMBER (K : Type) [LinearOrderedField K] : K := 1 / 100000000

/-- Modelled from the spec: `FVector::IsNearlyZero` is engine code that is not
part of the sources; the spec calls it an "epsilon comparison" against zero. It
holds when every component is within `KINDA_SMALL_NUMBER` of zero. -/
def IsNearlyZero {K : Type} [LinearOrderedField K] (v : FVectorOver K) : Bool :=
  decide (|v.X| ≤ KINDA_SMALL_NUMBER K) && decide (|v.Y| ≤ KINDA_SMALL_NUMBER K)
    && decide (|v.Z| ≤ KINDA_SMALL_NUMBER K)

/-- Modelled from the spec: `FVector::GetSafeNormal` is engine code that is not
part of the sources; the spec calls its result the "normalized travel
direction". A vector of squared length one is returned as is, a vector of
squared length below `SMALL_NUMBER` gives the zero vector, every other vector
is scaled by the inverse square root of its squared length. The inverse square
root `InvSqrt` is a parameter. -/
def GetSafeNormal {K : Type} [LinearOrderedField K] (InvSqrt : K → K) (v : FVectorOver K) :
    FVectorOver K :=
  let SquareSum := v.X * v.X + v.Y * v.Y + v.Z * v.Z
  if SquareSum = 1 then v
  else if SquareSum < SMALL_NUMBER K then ⟨0, 0, 0⟩
  else v.scale (InvSqrt SquareSum)

/-- Modelled from the spec: `FMath::ClosestPointOnSegment` is engine code that
is not part of the sources; the spec says the desired end is clamped "to the
closed segment `[start, end]` (closest point on segment)". The point is
projected on the line through the two ends; a projection before the start gives
the start, one beyond the end gives the end. -/
def ClosestPointOnSegment {K : Type} [LinearOrderedField K]
    (Point StartPoint EndPoint : FVectorOver K) : FVectorOver K :=
  let Segment := EndPoint - StartPoint
  let VectToPoint := Point - StartPoint
  let Dot1 := VectToPoint.dot Segment
  if Dot1 ≤ 0 then StartPoint
  else
    let Dot2 := Segment.dot Segment
    if Dot2 ≤ Dot1 then EndPoint
    else StartPoint + Segment.scale (Dot1 / Dot2)

end FVectorOver

/-- The movement mode `UZipliningMode` (ZipliningMode.h), with `MaxSpeed` in the
ordered field `K`. -/
structure UZipliningModeOver (K : Type) where
  MaxSpeed : K

/-- The local `DesiredEndPos` of `SimulationTick`. -/
def UZipliningModeOver.DesiredEndPos {K : Type} [LinearOrderedField K]
    (Mode : UZipliningModeOver K) (StepStartPos ZipDirection : FVectorOver K)
    (DeltaSeconds : K) : FVectorOver K :=
  StepStartPos + (ZipDirection.scale Mode.MaxSpeed).scale DeltaSeconds

/-- The local `ActualEndPos` of `SimulationTick`: the desired end clamped to
the segment from `StartPoint` to `EndPoint`. -/
def UZipliningModeOver.ActualEndPos {K : Type} [LinearOrderedField K]
    (Mode : UZipliningModeOver K) (StepStartPos ZipDirection : FVectorOver K)
    (DeltaSeconds : K) (StartPoint EndPoint : FVectorOver K) : FVectorOver K :=
  FVectorOver.ClosestPointOnSegment (Mode.DesiredEndPos StepStartPos ZipDirection DeltaSeconds)
    StartPoint EndPoint

/-- The local `bWillReachEndPosition` of `SimulationTick`. -/
def UZipliningModeOver.bWillReachEndPosition {K : Type} [LinearOrderedField K]
    (Mode : UZipliningModeOver K) (StepStartPos ZipDirection : FVectorOver K)
    (DeltaSeconds : K) (StartPoint EndPoint : FVectorOver K) : Bool :=
  (Mode.ActualEndPos StepStartPos ZipDirection DeltaSeconds StartPoint EndPoint
    - EndPoint).IsNearlyZero

/-- A vector of the rational model, read in the ordered field `K`. -/
def FVector.Cast (K : Type) [LinearOrderedField K] (v : FVector) : FVectorOver K :=
  ⟨(v.X : K), (v.Y : K), (v.Z : K)⟩

/-- A mode configuration of the rational model, read in the ordered field `K`. -/
def UZipliningMode.Cast (K : Type) [LinearOrderedField K] (Mode : UZipliningMode) :
    UZipliningModeOver K :=
  ⟨(Mode.MaxSpeed : K)⟩

/-! ## A sample level

One zipline, actor `7`, from `(0,0,0)` to `(1000,0,0)`; actor `3` is no zipline.
The mover is 180 units tall, up is the Z axis, nothing blocks a move. -/

/-- A collision-aware move that nothing blocks: the whole delta is applied. -/
def Sample.UnblockedMove (Location : FVector) (_Rotation : FRotator) (MoveDelta : FVector)
    (NewRotation : FRotator) (DeltaSeconds : ℚ) : FSafeMoveResult :=
  ⟨Location + MoveDelta, NewRotation, MoveDelta.scale (1 / DeltaSeconds)⟩

/-- An inverse square root that is exact on the squared length of the sample line. -/
def Sample.InvSqrt (s : ℚ) : ℚ := if s = 1000000 then 1 / 1000 else 1

/-- The sample level with the given overlapping actors; the mover is airborne. -/
def Sample.Env (Overlapping : List AActor) : FMovingComponentSet where
  CharacterMoverComponent := some ⟨true⟩
  GetOverlappingActors := Overlapping
  DoesImplementInterface := fun a => a == 7
  GetStartComponent := fun a => if a == 7 then some ⟨0, 0, 0⟩ else none
  GetEndComponent := fun a => if a == 7 then some ⟨1000, 0, 0⟩ else none
  GetUpDirection := ⟨0, 0, 1⟩
  BoxExtent := ⟨40, 40, 90⟩
  FindSharedSettings := none
  InvSqrt := Sample.InvSqrt
  TrySafeMoveUpdatedComponent := Sample.UnblockedMove

/-- A mover at rest at the given place. -/
def Sample.Component (Location : FVector) : USceneComponent :=
  ⟨Location, ⟨⟨1, 0, 0⟩⟩, FVector.ZeroVector, []⟩

/-- Tick parameters with the given zipline block in the start state and the
given time step, and no input. -/
def Sample.Params (Zip : Option FZipliningState) (StepMs : ℚ) : FSimulationTickParams :=
  ⟨⟨⟨none, none⟩, ⟨ExtendedModeNames.Ziplining, none, Zip⟩⟩, StepMs⟩

/-- Tick parameters for a mover in the mode `Falling` with the given input
blocks. -/
def Sample.Input (Ability : Option FMoverExampleAbilityInputs)
    (Inputs : Option FCharacterDefaultInputs) : FSimulationTickParams :=
  ⟨⟨⟨Ability, Inputs⟩, ⟨DefaultModeNames.Falling, none, none⟩⟩, 16⟩

/-- An output state as the state machine hands it to a tick: no blocks yet, no
mode switch requested. -/
def Sample.Output : FMoverTickEndData :=
  ⟨⟨ExtendedModeNames.Ziplining, none, none⟩, ⟨0, NAME_None⟩⟩

/-- An output state handed to a tick with `RemainingMs = 7` left in it. -/
def Sample.OutputWithRemainder : FMoverTickEndData :=
  ⟨⟨ExtendedModeNames.Ziplining, none, none⟩, ⟨7, NAME_None⟩⟩

/-- The sample level with the mover standing on the ground. -/
def Sample.GroundedEnv (Overlapping : List AActor) : FMovingComponentSet :=
  { Sample.Env Overlapping with CharacterMoverComponent := some ⟨false⟩ }

/-- A sample wire format of object references: an id `k` is `k` one bits and a
zero bit; id `0` is the null reference, id `a + 1` is actor `a`. -/
def Sample.ReadGuid : List Bool → Nat × List Bool
  | [] => (0, [])
  | false :: rest => (0, rest)
  | true :: rest => ((Sample.ReadGuid rest).1 + 1, (Sample.ReadGuid rest).2)

/-- A sample package map: the receiving side resolves the ids of the actors in
`Known` and nothing else. -/
def Sample.Map (Known : List AActor) : UPackageMap where
  WriteObject := fun Obj =>
    match Obj with
    | none => [false]
    | some a => List.replicate (a + 1) true ++ [false]
  ReadObject := fun bits =>
    (match (Sample.ReadGuid bits).1 with
      | 0 => none
      | a + 1 => if Known.contains a then some a else none,
     (Sample.ReadGuid bits).2)

/-- A sample call context of `OnProduceInput`: a player controller that looks
along the X axis, no nav mover component, no movement base; vectors are stored
as they are. -/
def Sample.ProduceContext : FProduceInputContext where
  bHasController := true
  bIsUnpossessedOnAuthority := false
  PlayerControlRotation := some FRotator.ZeroRotator
  ConsumeNavMovementData := none
  RotateVector := fun _ v => v
  StoredMoveInput := fun v => v
  InvSqrt := Sample.InvSqrt
  MovementBase := none

/-- A sample sequence of events: three simulation frames, with a fly toggle
before the second. -/
def Sample.Events : List FCharacterEvent :=
  [FCharacterEvent.ProduceInput Sample.ProduceContext none,
   FCharacterEvent.FlyTriggered,
   FCharacterEvent.ProduceInput Sample.ProduceContext none,
   FCharacterEvent.ProduceInput Sample.ProduceContext none]

/-- A sample sequence of events without a fly toggle: two simulation frames
around a move input. -/
def Sample.FramesWithoutFly : List FCharacterEvent :=
  [FCharacterEvent.ProduceInput Sample.ProduceContext none,
   FCharacterEvent.MoveTriggered ⟨1, 0, 0⟩,
   FCharacterEvent.ProduceInput Sample.ProduceContext none]

/-- The sample level with the zipline `7` shrunk to the single point
`(5,6,7)`: both of its end components are there. -/
def Sample.PointEnv (Overlapping : List AActor) : FMovingComponentSet :=
  { Sample.Env Overlapping with
    GetStartComponent := fun a => if a == 7 then some ⟨5, 6, 7⟩ else none
    GetEndComponent := fun a => if a == 7 then some ⟨5, 6, 7⟩ else none }

/-- A sample sequence of events with a repeated jump start and no release: two
simulation frames around a second `OnJumpStarted`. -/
def Sample.RepeatedJump : List FCharacterEvent :=
  [FCharacterEvent.ProduceInput Sample.ProduceContext none,
   FCharacterEvent.JumpStarted,
   FCharacterEvent.ProduceInput Sample.ProduceContext none]

/-! ## Vector arithmetic -/

@[simp] theorem FVector.add_X (a b : FVector) : (a + b).X = a.X + b.X := rfl
@[simp] theorem FVector.add_Y (a b : FVector) : (a + b).Y = a.Y + b.Y := rfl
@[simp] theorem FVector.add_Z (a b : FVector) : (a + b).Z = a.Z + b.Z := rfl
@[simp] theorem FVector.sub_X (a b : FVector) : (a - b).X = a.X - b.X := rfl
@[simp] theorem FVector.sub_Y (a b : FVector) : (a - b).Y = a.Y - b.Y := rfl
@[simp] theorem FVector.sub_Z (a b : FVector) : (a - b).Z = a.Z - b.Z := rfl
@[simp] theorem FVector.scale_X (a : FVector) (k : ℚ) : (a.scale k).X = a.X * k := rfl
@[simp] theorem FVector.scale_Y (a : FVector) (k : ℚ) : (a.scale k).Y = a.Y * k := rfl
@[simp] theorem FVector.scale_Z (a : FVector) (k : ℚ) : (a.scale k).Z = a.Z * k := rfl

theorem FVector.eq_of_components {a b : FVector} (hx : a.X = b.X) (hy : a.Y = b.Y)
    (hz : a.Z = b.Z) : a = b := by
  cases a; cases b; simp_all

theorem FVector.sub_add_cancel_offset (a o : FVector) : a - o + o = a := by
  apply FVector.eq_of_components <;> simp

/-- The point returned by `ClosestPointOnSegment` lies on the segment. -/
theorem FVector.ClosestPointOnSegment_onSegment (P A B : FVector) :
    FVector.OnSegment (FVector.ClosestPointOnSegment P A B) A B := by
  unfold FVector.ClosestPointOnSegment
  simp only
  by_cases h1 : (P - A).dot (B - A) ≤ 0
  · rw [if_pos h1]
    exact ⟨0, le_refl 0, zero_le_one, by apply FVector.eq_of_components <;> simp⟩
  · rw [if_neg h1]
    by_cases h2 : (B - A).dot (B - A) ≤ (P - A).dot (B - A)
    · rw [if_pos h2]
      exact ⟨1, zero_le_one, le_refl 1, by apply FVector.eq_of_components <;> simp⟩
    · rw [if_neg h2]
      have h1p : 0 < (P - A).dot (B - A) := not_le.mp h1
      have h2p : (P - A).dot (B - A) < (B - A).dot (B - A) := not_le.mp h2
      have hpos : 0 < (B - A).dot (B - A) := lt_trans h1p h2p
      exact ⟨_, le_of_lt (div_pos h1p hpos), le_of_lt ((div_lt_one hpos).mpr h2p), rfl⟩

/-! ## Reconciliation -/

/-- C1: `ShouldReconcile` is false exactly when both the line reference and the
direction flag agree, it is true exactly when one of them differs, and its
value is a function of these two comparisons alone (the block carries no
position, rotation or velocity). -/
theorem ShouldReconcile_iff_fields (s a : FZipliningState) :
    (s.ShouldReconcile a = false ↔
        s.ZiplineActor = a.ZiplineActor ∧ s.bIsMovingAtoB = a.bIsMovingAtoB) ∧
      (s.ShouldReconcile a = true ↔
        s.ZiplineActor ≠ a.ZiplineActor ∨ s.bIsMovingAtoB ≠ a.bIsMovingAtoB) ∧
      s.ShouldReconcile a =
        !(decide (s.ZiplineActor = a.ZiplineActor) && decide (s.bIsMovingAtoB = a.bIsMovingAtoB)) := by
  unfold FZipliningState.ShouldReconcile
  refine ⟨?_, ?_, ?_⟩
  · simp [bne_iff_ne]
  · simp [bne_iff_ne]
  · by_cases h1 : s.ZiplineActor = a.ZiplineActor <;>
      by_cases h2 : s.bIsMovingAtoB = a.bIsMovingAtoB <;> simp [h1, h2, bne_iff_ne]

/-! ## The search loop -/

theorem FindZipline_eq_none_iff (f : AActor → Bool) (l : List AActor) :
    FindZipline f l = none ↔ ∀ a ∈ l, f a = false := by
  induction l with
  | nil => simp [FindZipline]
  | cons c rest ih =>
    unfold FindZipline
    by_cases h : f c = true
    · simp [h]
    · simp [h, ih]

theorem FindZipline_eq_some (f : AActor → Bool) (l : List AActor) (a : AActor)
    (h : FindZipline f l = some a) :
    f a = true ∧ ∃ pre post, l = pre ++ a :: post ∧ ∀ x ∈ pre, f x = false := by
  induction l with
  | nil => simp [FindZipline] at h
  | cons c rest ih =>
    unfold FindZipline at h
    by_cases hc : f c = true
    · rw [if_pos hc] at h
      cases h
      exact ⟨hc, [], rest, rfl, by simp⟩
    · rw [if_neg hc] at h
      obtain ⟨ha, pre, post, hl, hpre⟩ := ih h
      refine ⟨ha, c :: pre, post, by simp [hl], ?_⟩
      intro x hx
      rcases List.mem_cons.mp hx with rfl | hx
      · simpa using hc
      · exact hpre x hx

/-! ## The shared motion step -/

theorem SlideAlongZipline_ZipliningState (Mode : UZipliningMode) (Env : FMovingComponentSet)
    (StepMs : ℚ) (S E D F : FVector) (C : USceneComponent) (O : FMoverTickEndData) :
    (Mode.SlideAlongZipline Env StepMs S E D F C O).1.SyncState.ZipliningState
      = O.SyncState.ZipliningState := by
  unfold UZipliningMode.SlideAlongZipline
  simp only
  split_ifs <;> rfl

theorem SlideAlongZipline_MovementMode (Mode : UZipliningMode) (Env : FMovingComponentSet)
    (StepMs : ℚ) (S E D F : FVector) (C : USceneComponent) (O : FMoverTickEndData) :
    (Mode.SlideAlongZipline Env StepMs S E D F C O).1.SyncState.MovementMode
      = O.SyncState.MovementMode := by
  unfold UZipliningMode.SlideAlongZipline
  simp only
  split_ifs <;> rfl

theorem SlideAlongZipline_RemainingMs (Mode : UZipliningMode) (Env : FMovingComponentSet)
    (StepMs : ℚ) (S E D F : FVector) (C : USceneComponent) (O : FMoverTickEndData) :
    (Mode.SlideAlongZipline Env StepMs S E D F C O).1.MovementEndState.RemainingMs
      = O.MovementEndState.RemainingMs := by
  unfold UZipliningMode.SlideAlongZipline
  simp only
  split_ifs <;> rfl

theorem SlideAlongZipline_NextModeName (Mode : UZipliningMode) (Env : FMovingComponentSet)
    (StepMs : ℚ) (S E D F : FVector) (C : USceneComponent) (O : FMoverTickEndData) :
    (Mode.SlideAlongZipline Env StepMs S E D F C O).1.MovementEndState.NextModeName
      = if Mode.bWillReachEndPosition (C.Location + Env.ActorToZiplineOffset) D
            (StepMs * (1 / 1000)) S E
        then Env.DefaultAirMode else O.MovementEndState.NextModeName := by
  unfold UZipliningMode.SlideAlongZipline UZipliningMode.bWillReachEndPosition
  simp only
  split_ifs <;> rfl

theorem SlideAlongZipline_Events (Mode : UZipliningMode) (Env : FMovingComponentSet)
    (StepMs : ℚ) (S E D F : FVector) (C : USceneComponent) (O : FMoverTickEndData) :
    ∃ tail, (Mode.SlideAlongZipline Env StepMs S E D F C O).2.Events = C.Events ++ tail := by
  unfold UZipliningMode.SlideAlongZipline
  simp only
  split_ifs
  · exact ⟨_, rfl⟩
  · exact ⟨[], by simp⟩
  · exact ⟨_, rfl⟩
  · exact ⟨[], by simp⟩

theorem SlideAlongZipline_Location (Mode : UZipliningMode) (Env : FMovingComponentSet)
    (StepMs : ℚ) (S E D F : FVector) (C : USceneComponent) (O : FMoverTickEndData)
    (hmove : ((Mode.ActualEndPos (C.Location + Env.ActorToZiplineOffset) D (StepMs * (1 / 1000)) S E)
      - (C.Location + Env.ActorToZiplineOffset)).IsNearlyZero = false) :
    (Mode.SlideAlongZipline Env StepMs S E D F C O).2.Location
      = (Env.TrySafeMoveUpdatedComponent C.Location C.Rotation
          ((Mode.ActualEndPos (C.Location + Env.ActorToZiplineOffset) D (StepMs * (1 / 1000)) S E)
            - (C.Location + Env.ActorToZiplineOffset))
          F.ToOrientationRotator (StepMs * (1 / 1000))).Location := by
  unfold UZipliningMode.SlideAlongZipline
  simp only [hmove, Bool.not_false, if_true]
  split_ifs <;> rfl

theorem SlideAlongZipline_written_Location (Mode : UZipliningMode) (Env : FMovingComponentSet)
    (StepMs : ℚ) (S E D F : FVector) (C : USceneComponent) (O : FMoverTickEndData) :
    (Mode.SlideAlongZipline Env StepMs S E D F C O).1.SyncState.DefaultSyncState.map
        (fun b => b.Location)
      = some (Mode.SlideAlongZipline Env StepMs S E D F C O).2.Location := by
  unfold UZipliningMode.SlideAlongZipline FMoverDefaultSyncState.SetTransforms_WorldSpace
  simp only
  split_ifs <;> simp

/-! ## The branch on the start state -/

/-- A fresh entry that finds no line hands on the output state with the two
blocks added and nothing else changed. -/
theorem ResolveZipline_noTarget (Env : FMovingComponentSet) (Params : FSimulationTickParams)
    (C : USceneComponent) (O : FMoverTickEndData)
    (hfresh : Params.StartState.SyncState.ZipliningState = none)
    (hnone : FindZipline Env.DoesImplementInterface Env.GetOverlappingActors = none) :
    UZipliningMode.ResolveZipline Env Params C O
      = some (Sum.inl
          ⟨⟨O.SyncState.MovementMode,
              some (O.SyncState.DefaultSyncState.getD FMoverDefaultSyncState.Default),
              some (O.SyncState.ZipliningState.getD FZipliningState.Default)⟩,
            O.MovementEndState⟩) := by
  unfold UZipliningMode.ResolveZipline
  simp only [hfresh, hnone]

theorem ResolveZipline_fresh (Env : FMovingComponentSet) (Params : FSimulationTickParams)
    (C : USceneComponent) (O : FMoverTickEndData) (L : AActor) (A B : FVector)
    (hfresh : Params.StartState.SyncState.ZipliningState = none)
    (hL : FindZipline Env.DoesImplementInterface Env.GetOverlappingActors = some L)
    (hA : Env.GetStartComponent L = some A) (hB : Env.GetEndComponent L = some B) :
    ∃ T, UZipliningMode.ResolveZipline Env Params C O = some (Sum.inr T) ∧
      T.StartPoint
        = (if FVector.DistSquared A C.Location < FVector.DistSquared B C.Location then A else B) ∧
      T.EndPoint
        = (if FVector.DistSquared A C.Location < FVector.DistSquared B C.Location then B else A) ∧
      T.ZipDirection = (T.EndPoint - T.StartPoint).GetSafeNormal Env.InvSqrt ∧
      T.UpdatedComponent
        = C.TeleportTo (T.StartPoint - Env.ActorToZiplineOffset) T.FlatFacingDir.ToOrientationRotator ∧
      T.OutputState.SyncState.ZipliningState
        = some ⟨some L,
            decide (FVector.DistSquared A C.Location < FVector.DistSquared B C.Location)⟩ ∧
      T.OutputState.SyncState.MovementMode = O.SyncState.MovementMode ∧
      T.OutputState.SyncState.DefaultSyncState
        = some (O.SyncState.DefaultSyncState.getD FMoverDefaultSyncState.Default) ∧
      T.OutputState.MovementEndState = O.MovementEndState := by
  unfold UZipliningMode.ResolveZipline
  simp only [hfresh, hL, hA, hB]
  refine ⟨_, rfl, ?_, ?_, rfl, rfl, rfl, rfl, rfl, rfl⟩
  · by_cases h : FVector.DistSquared A C.Location < FVector.DistSquared B C.Location <;> simp [h]
  · by_cases h : FVector.DistSquared A C.Location < FVector.DistSquared B C.Location <;> simp [h]

theorem ResolveZipline_continuing (Env : FMovingComponentSet) (Params : FSimulationTickParams)
    (C : USceneComponent) (O : FMoverTickEndData) (Z : FZipliningState) (L : AActor)
    (A B : FVector)
    (hZ : Params.StartState.SyncState.ZipliningState = some Z)
    (hL : Z.ZiplineActor = some L)
    (hA : Env.StartLocation L = some A) (hB : Env.EndLocation L = some B) :
    ∃ T, UZipliningMode.ResolveZipline Env Params C O = some (Sum.inr T) ∧
      T.StartPoint = (if Z.bIsMovingAtoB then A else B) ∧
      T.EndPoint = (if Z.bIsMovingAtoB then B else A) ∧
      T.ZipDirection = (T.EndPoint - T.StartPoint).GetSafeNormal Env.InvSqrt ∧
      T.UpdatedComponent = C ∧
      T.OutputState.SyncState.ZipliningState = some Z ∧
      T.OutputState.SyncState.MovementMode = O.SyncState.MovementMode ∧
      T.OutputState.SyncState.DefaultSyncState
        = some (O.SyncState.DefaultSyncState.getD FMoverDefaultSyncState.Default) ∧
      T.OutputState.MovementEndState = O.MovementEndState := by
  unfold UZipliningMode.ResolveZipline
  simp only [hZ, hL, hA, hB]
  exact ⟨_, rfl, rfl, rfl, rfl, rfl, rfl, rfl, rfl, rfl⟩

/-- A block with a null line makes the tick fail the `check` on the line. -/
theorem ResolveZipline_null_actor (Env : FMovingComponentSet) (Params : FSimulationTickParams)
    (C : USceneComponent) (O : FMoverTickEndData) (Z : FZipliningState)
    (hZ : Params.StartState.SyncState.ZipliningState = some Z)
    (hL : Z.ZiplineActor = none) :
    UZipliningMode.ResolveZipline Env Params C O = none := by
  unfold UZipliningMode.ResolveZipline
  simp only [hZ, hL]

/-- A tick that finds its line runs the shared motion step. -/
theorem SimulationTick_of_target (Mode : UZipliningMode) (Env : FMovingComponentSet)
    (Params : FSimulationTickParams) (C : USceneComponent) (O : FMoverTickEndData)
    (T : FZiplineTarget) (hT : UZipliningMode.ResolveZipline Env Params C O = some (Sum.inr T)) :
    Mode.SimulationTick Env Params C O
      = some (Mode.SlideAlongZipline Env Params.StepMs T.StartPoint T.EndPoint T.ZipDirection
          T.FlatFacingDir T.UpdatedComponent T.OutputState) := by
  simp only [UZipliningMode.SimulationTick, hT]

/-- A tick that finds no line takes the no-target fallback. -/
theorem SimulationTick_of_noTarget (Mode : UZipliningMode) (Env : FMovingComponentSet)
    (Params : FSimulationTickParams) (C : USceneComponent) (O Output : FMoverTickEndData)
    (hT : UZipliningMode.ResolveZipline Env Params C O = some (Sum.inl Output)) :
    Mode.SimulationTick Env Params C O
      = some (⟨Output.SyncState, ⟨Params.StepMs, Env.DefaultAirMode⟩⟩, C) := by
  simp only [UZipliningMode.SimulationTick, hT]

/-- A tick that fails while it looks for its line fails. -/
theorem SimulationTick_of_fault (Mode : UZipliningMode) (Env : FMovingComponentSet)
    (Params : FSimulationTickParams) (C : USceneComponent) (O : FMoverTickEndData)
    (hT : UZipliningMode.ResolveZipline Env Params C O = none) :
    Mode.SimulationTick Env Params C O = none := by
  simp only [UZipliningMode.SimulationTick, hT]

/-! ## The sample level, evaluated -/

theorem Sample.offset (l : List AActor) :
    (Sample.Env l).ActorToZiplineOffset = ⟨0, 0, 90⟩ := by
  apply FVector.eq_of_components <;>
    norm_num [FMovingComponentSet.ActorToZiplineOffset, Sample.Env]

/-- A fresh entry of a mover at `(10,5,-90)` in the sample level finds the line
and starts at its first end. -/
theorem Sample.resolve_fresh (StepMs : ℚ) :
    ∃ T, UZipliningMode.ResolveZipline (Sample.Env [3, 7]) (Sample.Params none StepMs)
          (Sample.Component ⟨10, 5, -90⟩) Sample.Output = some (Sum.inr T) ∧
      T.StartPoint = ⟨0, 0, 0⟩ ∧ T.EndPoint = ⟨1000, 0, 0⟩ ∧ T.ZipDirection = ⟨1, 0, 0⟩ ∧
      T.UpdatedComponent.Location = ⟨0, 0, -90⟩ ∧
      T.OutputState.SyncState.ZipliningState = some ⟨some 7, true⟩ ∧
      T.OutputState.MovementEndState = ⟨0, NAME_None⟩ := by
  obtain ⟨T, hT, hS, hE, hD, hC, hZ, -, -, hM⟩ :=
    ResolveZipline_fresh (Sample.Env [3, 7]) (Sample.Params none StepMs)
      (Sample.Component ⟨10, 5, -90⟩) Sample.Output 7 ⟨0, 0, 0⟩ ⟨1000, 0, 0⟩ rfl rfl rfl rfl
  have hlt : FVector.DistSquared ⟨0, 0, 0⟩ (Sample.Component ⟨10, 5, -90⟩).Location
      < FVector.DistSquared ⟨1000, 0, 0⟩ (Sample.Component ⟨10, 5, -90⟩).Location := by
    norm_num [FVector.DistSquared, Sample.Component]
  rw [if_pos hlt] at hS hE
  have hD1 : T.ZipDirection = ⟨1, 0, 0⟩ := by
    rw [hD, hS, hE]
    apply FVector.eq_of_components <;>
      norm_num [FVector.GetSafeNormal, Sample.Env, Sample.InvSqrt, FVector.SMALL_NUMBER]
  refine ⟨T, hT, hS, hE, hD1, ?_, ?_, ?_⟩
  · rw [hC, hS, Sample.offset]
    apply FVector.eq_of_components <;> norm_num [USceneComponent.TeleportTo]
  · rw [hZ]; simp [hlt]
  · rw [hM]; rfl

theorem Sample.actualEndPos_half :
    UZipliningMode.Default.ActualEndPos ((⟨0, 0, -90⟩ : FVector) + ⟨0, 0, 90⟩) ⟨1, 0, 0⟩
      (500 * (1 / 1000)) ⟨0, 0, 0⟩ ⟨1000, 0, 0⟩ = ⟨500, 0, 0⟩ := by
  apply FVector.eq_of_components <;>
    norm_num [UZipliningMode.ActualEndPos, UZipliningMode.DesiredEndPos, UZipliningMode.Default,
      FVector.ClosestPointOnSegment, FVector.dot]

theorem Sample.actualEndPos_overshoot :
    UZipliningMode.Default.ActualEndPos ((⟨0, 0, -90⟩ : FVector) + ⟨0, 0, 90⟩) ⟨1, 0, 0⟩
      (2000 * (1 / 1000)) ⟨0, 0, 0⟩ ⟨1000, 0, 0⟩ = ⟨1000, 0, 0⟩ := by
  apply FVector.eq_of_components <;>
    norm_num [UZipliningMode.ActualEndPos, UZipliningMode.DesiredEndPos, UZipliningMode.Default,
      FVector.ClosestPointOnSegment, FVector.dot]

/-! ## The segment clamp -/

/-- C2: the clamped step end `ActualEndPos` of `SimulationTick` lies on the
closed segment from the traversal start to the traversal end, for every line,
every step start, every direction, every speed and every time step; and on a
tick that reaches the motion step and whose move is made and not blocked, the
new position of the mover plus the vertical offset is that clamped end, so it
lies on the segment too. -/
theorem ActualEndPos_on_closed_segment (Mode : UZipliningMode) (Env : FMovingComponentSet)
    (Params : FSimulationTickParams) (C : USceneComponent) (O : FMoverTickEndData) :
    (∀ (StepStartPos ZipDirection StartPoint EndPoint : FVector) (DeltaSeconds : ℚ),
      FVector.OnSegment
        (Mode.ActualEndPos StepStartPos ZipDirection DeltaSeconds StartPoint EndPoint)
        StartPoint EndPoint) ∧
    (∀ T, UZipliningMode.ResolveZipline Env Params C O = some (Sum.inr T) →
      ∀ ActualEndPos,
        ActualEndPos = Mode.ActualEndPos (T.UpdatedComponent.Location + Env.ActorToZiplineOffset)
          T.ZipDirection (Params.StepMs * (1 / 1000)) T.StartPoint T.EndPoint →
        (ActualEndPos - (T.UpdatedComponent.Location + Env.ActorToZiplineOffset)).IsNearlyZero
          = false →
        (Env.TrySafeMoveUpdatedComponent T.UpdatedComponent.Location T.UpdatedComponent.Rotation
            (ActualEndPos - (T.UpdatedComponent.Location + Env.ActorToZiplineOffset))
            T.FlatFacingDir.ToOrientationRotator (Params.StepMs * (1 / 1000))).Location
          = T.UpdatedComponent.Location
            + (ActualEndPos - (T.UpdatedComponent.Location + Env.ActorToZiplineOffset)) →
        ∃ r, Mode.SimulationTick Env Params C O = some r ∧
          r.2.Location + Env.ActorToZiplineOffset = ActualEndPos ∧
          FVector.OnSegment (r.2.Location + Env.ActorToZiplineOffset) T.StartPoint T.EndPoint) := by
  refine ⟨fun P D S E dt => FVector.ClosestPointOnSegment_onSegment _ S E, ?_⟩
  intro T hT AE hAE hmove hfree
  subst hAE
  have hloc := SlideAlongZipline_Location Mode Env Params.StepMs T.StartPoint T.EndPoint
    T.ZipDirection T.FlatFacingDir T.UpdatedComponent T.OutputState hmove
  have hsum : (Mode.SlideAlongZipline Env Params.StepMs T.StartPoint T.EndPoint
      T.ZipDirection T.FlatFacingDir T.UpdatedComponent T.OutputState).2.Location
        + Env.ActorToZiplineOffset
      = Mode.ActualEndPos (T.UpdatedComponent.Location + Env.ActorToZiplineOffset)
          T.ZipDirection (Params.StepMs * (1 / 1000)) T.StartPoint T.EndPoint := by
    rw [hloc, hfree]
    apply FVector.eq_of_components <;>
      simp only [FVector.add_X, FVector.add_Y, FVector.add_Z, FVector.sub_X, FVector.sub_Y,
        FVector.sub_Z] <;> ring
  refine ⟨_, SimulationTick_of_target Mode Env Params C O T hT, hsum, ?_⟩
  rw [hsum]
  exact FVector.ClosestPointOnSegment_onSegment _ _ _

/-- C2 in the sample level: a fresh entry with a step of 500 ms ends at
`(500,0,0)` on the line. -/
theorem ActualEndPos_on_closed_segment_witness :
    FVector.OnSegment
        (UZipliningMode.Default.ActualEndPos ⟨0, 0, 0⟩ ⟨1, 0, 0⟩ 5 ⟨0, 0, 0⟩ ⟨1000, 0, 0⟩)
        ⟨0, 0, 0⟩ ⟨1000, 0, 0⟩ ∧
      ∃ r, UZipliningMode.Default.SimulationTick (Sample.Env [3, 7]) (Sample.Params none 500)
          (Sample.Component ⟨10, 5, -90⟩) Sample.Output = some r ∧
        r.2.Location + (Sample.Env [3, 7]).ActorToZiplineOffset = ⟨500, 0, 0⟩ ∧
        FVector.OnSegment (r.2.Location + (Sample.Env [3, 7]).ActorToZiplineOffset)
          ⟨0, 0, 0⟩ ⟨1000, 0, 0⟩ := by
  obtain ⟨T, hT, hS, hE, hD, hC, -, -⟩ := Sample.resolve_fresh 500
  have h := ActualEndPos_on_closed_segment UZipliningMode.Default (Sample.Env [3, 7])
    (Sample.Params none 500) (Sample.Component ⟨10, 5, -90⟩) Sample.Output
  have hAE : (⟨500, 0, 0⟩ : FVector)
      = UZipliningMode.Default.ActualEndPos
          (T.UpdatedComponent.Location + (Sample.Env [3, 7]).ActorToZiplineOffset)
          T.ZipDirection ((Sample.Params none 500).StepMs * (1 / 1000)) T.StartPoint T.EndPoint := by
    rw [hS, hE, hD, hC, Sample.offset]
    exact Sample.actualEndPos_half.symm
  have hmove : ((⟨500, 0, 0⟩ : FVector)
      - (T.UpdatedComponent.Location + (Sample.Env [3, 7]).ActorToZiplineOffset)).IsNearlyZero
        = false := by
    rw [hC, Sample.offset]
    norm_num [FVector.IsNearlyZero, FVector.KINDA_SMALL_NUMBER]
  obtain ⟨r, hr, hloc, hon⟩ := h.2 T hT ⟨500, 0, 0⟩ hAE hmove rfl
  rw [hS, hE] at hon
  exact ⟨h.1 _ _ _ _ _, r, hr, hloc, hon⟩

/-- The branch on the start state leaves the mode-switch outcome alone. -/
theorem ResolveZipline_inr_MovementEndState (Env : FMovingComponentSet)
    (Params : FSimulationTickParams) (C : USceneComponent) (O : FMoverTickEndData)
    (T : FZiplineTarget) (hT : UZipliningMode.ResolveZipline Env Params C O = some (Sum.inr T)) :
    T.OutputState.MovementEndState = O.MovementEndState := by
  unfold UZipliningMode.ResolveZipline at hT
  simp only at hT
  split at hT
  · split at hT
    · cases hT
    · split at hT
      · simp only [Option.some.injEq, Sum.inr.injEq] at hT
        rw [← hT]
      · cases hT
  · split at hT
    · cases hT
    · split at hT
      · simp only [Option.some.injEq, Sum.inr.injEq] at hT
        rw [← hT]
      · cases hT

/-! ## Fresh entry -/

/-- C3: on a fresh-entry tick whose first qualifying line has the ends `A` and
`B`, the tick returns; when `A` is strictly nearer to the mover (squared
distance) the stored flag is `true` and the mover is teleported to `A` minus the
offset; when `B` is strictly nearer, and also when the two squared distances
are equal, the stored flag is `false` and the mover is teleported to `B` minus
the offset. -/
theorem fresh_entry_starts_at_nearer_end (Mode : UZipliningMode) (Env : FMovingComponentSet)
    (Params : FSimulationTickParams) (C : USceneComponent) (O : FMoverTickEndData)
    (L : AActor) (A B : FVector)
    (hfresh : Params.StartState.SyncState.ZipliningState = none)
    (hL : FindZipline Env.DoesImplementInterface Env.GetOverlappingActors = some L)
    (hA : Env.GetStartComponent L = some A) (hB : Env.GetEndComponent L = some B) :
    ∃ r, Mode.SimulationTick Env Params C O = some r ∧
      (FVector.DistSquared A C.Location < FVector.DistSquared B C.Location →
        r.1.SyncState.ZipliningState = some ⟨some L, true⟩ ∧
        ∃ rot tail, r.2.Events
          = C.Events ++ FMoveEvent.TeleportTo (A - Env.ActorToZiplineOffset) rot :: tail) ∧
      (FVector.DistSquared B C.Location < FVector.DistSquared A C.Location →
        r.1.SyncState.ZipliningState = some ⟨some L, false⟩ ∧
        ∃ rot tail, r.2.Events
          = C.Events ++ FMoveEvent.TeleportTo (B - Env.ActorToZiplineOffset) rot :: tail) ∧
      (FVector.DistSquared A C.Location = FVector.DistSquared B C.Location →
        r.1.SyncState.ZipliningState = some ⟨some L, false⟩ ∧
        ∃ rot tail, r.2.Events
          = C.Events ++ FMoveEvent.TeleportTo (B - Env.ActorToZiplineOffset) rot :: tail) := by
  obtain ⟨T, hT, hS, -, -, hC, hZ, -, -, -⟩ := ResolveZipline_fresh Env Params C O L A B hfresh hL hA hB
  obtain ⟨tail, htail⟩ := SlideAlongZipline_Events Mode Env Params.StepMs T.StartPoint T.EndPoint
    T.ZipDirection T.FlatFacingDir T.UpdatedComponent T.OutputState
  have hzip := SlideAlongZipline_ZipliningState Mode Env Params.StepMs T.StartPoint T.EndPoint
    T.ZipDirection T.FlatFacingDir T.UpdatedComponent T.OutputState
  have hev : ∀ P, T.StartPoint = P →
      ∃ rot tl, (Mode.SlideAlongZipline Env Params.StepMs T.StartPoint T.EndPoint
          T.ZipDirection T.FlatFacingDir T.UpdatedComponent T.OutputState).2.Events
        = C.Events ++ FMoveEvent.TeleportTo (P - Env.ActorToZiplineOffset) rot :: tl := by
    intro P hP
    refine ⟨T.FlatFacingDir.ToOrientationRotator, tail, ?_⟩
    rw [htail, hC, hP]
    simp [USceneComponent.TeleportTo]
  refine ⟨_, SimulationTick_of_target Mode Env Params C O T hT, ?_, ?_, ?_⟩
  · intro hlt
    refine ⟨?_, hev A (by rw [hS, if_pos hlt])⟩
    rw [hzip, hZ]; simp [hlt]
  · intro hlt
    have hn : ¬ FVector.DistSquared A C.Location < FVector.DistSquared B C.Location :=
      not_lt.mpr (le_of_lt hlt)
    refine ⟨?_, hev B (by rw [hS, if_neg hn])⟩
    rw [hzip, hZ]; simp [hn]
  · intro heq
    have hn : ¬ FVector.DistSquared A C.Location < FVector.DistSquared B C.Location :=
      not_lt.mpr (le_of_eq heq.symm)
    refine ⟨?_, hev B (by rw [hS, if_neg hn])⟩
    rw [hzip, hZ]; simp [hn]

/-- C3 in the sample level, for a mover at `(10,5,-90)`, nearer to the first end. -/
theorem fresh_entry_starts_at_nearer_end_witness :
    ∃ r, UZipliningMode.Default.SimulationTick (Sample.Env [3, 7]) (Sample.Params none 500)
        (Sample.Component ⟨10, 5, -90⟩) Sample.Output = some r ∧
      r.1.SyncState.ZipliningState = some ⟨some 7, true⟩ ∧
      ∃ rot tail, r.2.Events
        = FMoveEvent.TeleportTo ((⟨0, 0, 0⟩ : FVector) - ⟨0, 0, 90⟩) rot :: tail := by
  obtain ⟨r, hr, h1, -, -⟩ := fresh_entry_starts_at_nearer_end UZipliningMode.Default
    (Sample.Env [3, 7]) (Sample.Params none 500) (Sample.Component ⟨10, 5, -90⟩) Sample.Output
    7 ⟨0, 0, 0⟩ ⟨1000, 0, 0⟩ rfl rfl rfl rfl
  have hlt : FVector.DistSquared ⟨0, 0, 0⟩ (Sample.Component ⟨10, 5, -90⟩).Location
      < FVector.DistSquared ⟨1000, 0, 0⟩ (Sample.Component ⟨10, 5, -90⟩).Location := by
    norm_num [FVector.DistSquared, Sample.Component]
  obtain ⟨hz, rot, tail, hev⟩ := h1 hlt
  rw [Sample.offset] at hev
  exact ⟨r, hr, hz, rot, tail, by simpa [Sample.Component] using hev⟩

/-- C4: on a fresh-entry tick with no overlapping actor that implements the
zipline interface, the tick returns with `RemainingMs` equal to the whole
`StepMs` and `NextModeName` equal to the configured air mode (the shared
settings' `AirMovementModeName`, `Falling` without settings); the updated
component is untouched (no teleport, no move, same velocity) and the default
sync state block is the one passed in (a default constructed one when it had
to be added): no transform or velocity is written. -/
theorem fresh_entry_without_line_refunds_step (Mode : UZipliningMode) (Env : FMovingComponentSet)
    (Params : FSimulationTickParams) (C : USceneComponent) (O : FMoverTickEndData)
    (hfresh : Params.StartState.SyncState.ZipliningState = none)
    (hnone : ∀ a ∈ Env.GetOverlappingActors, Env.DoesImplementInterface a = false) :
    ∃ Out, Mode.SimulationTick Env Params C O = some (Out, C) ∧
      Out.MovementEndState.RemainingMs = Params.StepMs ∧
      Out.MovementEndState.NextModeName
        = (Env.FindSharedSettings.map (fun s => s.AirMovementModeName)).getD
            DefaultModeNames.Falling ∧
      Out.SyncState.DefaultSyncState
        = some (O.SyncState.DefaultSyncState.getD FMoverDefaultSyncState.Default) ∧
      Out.SyncState.MovementMode = O.SyncState.MovementMode := by
  have hfind := (FindZipline_eq_none_iff Env.DoesImplementInterface Env.GetOverlappingActors).mpr hnone
  have hres := ResolveZipline_noTarget Env Params C O hfresh hfind
  refine ⟨_, SimulationTick_of_noTarget Mode Env Params C O _ hres, rfl, ?_, rfl, rfl⟩
  simp only [FMovingComponentSet.DefaultAirMode]
  cases Env.FindSharedSettings <;> rfl

/-- C4 in the sample level with only actor `3` overlapping. -/
theorem fresh_entry_without_line_refunds_step_witness :
    ∃ Out, UZipliningMode.Default.SimulationTick (Sample.Env [3]) (Sample.Params none 500)
        (Sample.Component ⟨10, 5, -90⟩) Sample.Output = some (Out, Sample.Component ⟨10, 5, -90⟩) ∧
      Out.MovementEndState.RemainingMs = 500 ∧
      Out.MovementEndState.NextModeName = DefaultModeNames.Falling ∧
      Out.SyncState.DefaultSyncState = some FMoverDefaultSyncState.Default ∧
      Out.SyncState.MovementMode = ExtendedModeNames.Ziplining :=
  fresh_entry_without_line_refunds_step UZipliningMode.Default (Sample.Env [3])
    (Sample.Params none 500) (Sample.Component ⟨10, 5, -90⟩) Sample.Output rfl (by decide)

/-! ## Reaching the end of the line -/

/-- C5: on every tick whose clamped step end is within the tolerance of the
end of the line (`bWillReachEndPosition`), whatever the time step, the tick
returns with `NextModeName` equal to the configured air mode and `RemainingMs`
as it was passed in: nothing is refunded. The no-target fallback differs: it
sets `RemainingMs` to the whole `StepMs`. -/
theorem reached_end_switches_mode_without_refund (Mode : UZipliningMode)
    (Env : FMovingComponentSet) (Params : FSimulationTickParams) (C : USceneComponent)
    (O : FMoverTickEndData) :
    (∀ T, UZipliningMode.ResolveZipline Env Params C O = some (Sum.inr T) →
      Mode.bWillReachEndPosition (T.UpdatedComponent.Location + Env.ActorToZiplineOffset)
          T.ZipDirection (Params.StepMs * (1 / 1000)) T.StartPoint T.EndPoint = true →
      ∃ r, Mode.SimulationTick Env Params C O = some r ∧
        r.1.MovementEndState.NextModeName = Env.DefaultAirMode ∧
        r.1.MovementEndState.RemainingMs = O.MovementEndState.RemainingMs) ∧
    (∀ Output, UZipliningMode.ResolveZipline Env Params C O = some (Sum.inl Output) →
      ∃ r, Mode.SimulationTick Env Params C O = some r ∧
        r.1.MovementEndState.NextModeName = Env.DefaultAirMode ∧
        r.1.MovementEndState.RemainingMs = Params.StepMs) := by
  constructor
  · intro T hT hreach
    refine ⟨_, SimulationTick_of_target Mode Env Params C O T hT, ?_, ?_⟩
    · rw [SlideAlongZipline_NextModeName, if_pos hreach]
    · rw [SlideAlongZipline_RemainingMs, ResolveZipline_inr_MovementEndState Env Params C O T hT]
  · intro Output hT
    exact ⟨_, SimulationTick_of_noTarget Mode Env Params C O Output hT, rfl, rfl⟩

/-- C5 in the sample level: a step of 2000 ms, twice the time the line takes,
ends with the switch to `Falling` and no refund, while the same step with no
line in reach refunds all 2000 ms. -/
theorem reached_end_switches_mode_without_refund_witness :
    (∃ r, UZipliningMode.Default.SimulationTick (Sample.Env [3, 7]) (Sample.Params none 2000)
        (Sample.Component ⟨10, 5, -90⟩) Sample.Output = some r ∧
      r.1.MovementEndState.NextModeName = DefaultModeNames.Falling ∧
      r.1.MovementEndState.RemainingMs = 0) ∧
    (∃ r, UZipliningMode.Default.SimulationTick (Sample.Env [3]) (Sample.Params none 2000)
        (Sample.Component ⟨10, 5, -90⟩) Sample.Output = some r ∧
      r.1.MovementEndState.NextModeName = DefaultModeNames.Falling ∧
      r.1.MovementEndState.RemainingMs = 2000) := by
  obtain ⟨T, hT, hS, hE, hD, hC, -, -⟩ := Sample.resolve_fresh 2000
  have hreach : UZipliningMode.Default.bWillReachEndPosition
      (T.UpdatedComponent.Location + (Sample.Env [3, 7]).ActorToZiplineOffset) T.ZipDirection
      ((Sample.Params none 2000).StepMs * (1 / 1000)) T.StartPoint T.EndPoint = true := by
    rw [hS, hE, hD, hC, Sample.offset]
    unfold UZipliningMode.bWillReachEndPosition
    have h := Sample.actualEndPos_overshoot
    simp only [Sample.Params] at h ⊢
    rw [h]
    norm_num [FVector.IsNearlyZero, FVector.KINDA_SMALL_NUMBER]
  exact ⟨(reached_end_switches_mode_without_refund UZipliningMode.Default (Sample.Env [3, 7])
      (Sample.Params none 2000) (Sample.Component ⟨10, 5, -90⟩) Sample.Output).1 T hT hreach,
    (reached_end_switches_mode_without_refund UZipliningMode.Default (Sample.Env [3])
      (Sample.Params none 2000) (Sample.Component ⟨10, 5, -90⟩) Sample.Output).2 _
      (ResolveZipline_noTarget (Sample.Env [3]) (Sample.Params none 2000)
        (Sample.Component ⟨10, 5, -90⟩) Sample.Output rfl rfl)⟩

/-! ## Transitions -/

/-- The conditions under which `UZiplineStartTransition` matches: the mover is
airborne, the mode of the start state is not the ziplining mode, the input
carries `bWantsToStartZiplining`, and an overlapping actor implements the
zipline interface. -/
theorem ZiplineStart_Evaluate_cases (self : UZiplineStartTransition) (Env : FMovingComponentSet)
    (Params : FSimulationTickParams) :
    ((∃ MoverComp, Env.CharacterMoverComponent = some MoverComp ∧ MoverComp.IsAirborne = true) ∧
        Params.StartState.SyncState.MovementMode ≠ self.ZipliningModeName ∧
        (∃ Inputs, Params.StartState.InputCmd.AbilityInputs = some Inputs ∧
          Inputs.bWantsToStartZiplining = true) ∧
        (∃ a ∈ Env.GetOverlappingActors, Env.DoesImplementInterface a = true) →
      self.Evaluate Env Params = ⟨self.ZipliningModeName⟩) ∧
    (¬ ((∃ MoverComp, Env.CharacterMoverComponent = some MoverComp ∧ MoverComp.IsAirborne = true) ∧
        Params.StartState.SyncState.MovementMode ≠ self.ZipliningModeName ∧
        (∃ Inputs, Params.StartState.InputCmd.AbilityInputs = some Inputs ∧
          Inputs.bWantsToStartZiplining = true) ∧
        (∃ a ∈ Env.GetOverlappingActors, Env.DoesImplementInterface a = true)) →
      self.Evaluate Env Params = FTransitionEvalResult.NoTransition) := by
  have hfind : (∃ a ∈ Env.GetOverlappingActors, Env.DoesImplementInterface a = true) ↔
      FindZipline Env.DoesImplementInterface Env.GetOverlappingActors ≠ none := by
    rw [Ne, FindZipline_eq_none_iff]
    constructor
    · rintro ⟨a, ha, hz⟩ hall
      rw [hall a ha] at hz
      cases hz
    · intro h
      by_contra hcon
      apply h
      intro a ha
      by_contra hz
      exact hcon ⟨a, ha, by simpa using hz⟩
  rw [hfind]
  unfold UZiplineStartTransition.Evaluate
  constructor
  · rintro ⟨⟨M, hM, hair⟩, hmode, ⟨I, hI, hwant⟩, hz⟩
    simp only [hM, hair, hI, hwant]
    have hb : (Params.StartState.SyncState.MovementMode != self.ZipliningModeName) = true := by
      simpa [bne_iff_ne] using hmode
    simp only [hb, Bool.and_self, if_true]
    cases hfz : FindZipline Env.DoesImplementInterface Env.GetOverlappingActors with
    | none => exact absurd hfz hz
    | some a => rfl
  · intro hn
    cases hM : Env.CharacterMoverComponent with
    | none => rfl
    | some M =>
      simp only
      by_cases hc : (M.IsAirborne &&
          (Params.StartState.SyncState.MovementMode != self.ZipliningModeName)) = true
      · rw [if_pos hc]
        rw [Bool.and_eq_true, bne_iff_ne] at hc
        cases hI : Params.StartState.InputCmd.AbilityInputs with
        | none => rfl
        | some I =>
          simp only
          by_cases hw : I.bWantsToStartZiplining = true
          · rw [if_pos hw]
            cases hfz : FindZipline Env.DoesImplementInterface Env.GetOverlappingActors with
            | none => rfl
            | some a =>
              exfalso
              apply hn
              exact ⟨⟨M, hM, hc.1⟩, hc.2, ⟨I, hI, hw⟩, by rw [hfz]; simp⟩
          · rw [if_neg hw]
      · rw [if_neg hc]

/-- C6: `UZiplineStartTransition::Evaluate` returns the transition to
`ZipliningModeName` when the mover is airborne, the mode of the start state is
not `ZipliningModeName`, the input carries `bWantsToStartZiplining = true` and an
overlapping actor implements the zipline interface; in every other case it
returns `NoTransition`, in particular for a grounded mover. As `NoTransition`
is the result whose next mode is `NAME_None`, reading the result back
(`NextMode = ZipliningModeName` exactly under the four conditions) needs the
configured name to differ from `NAME_None`. -/
theorem ZiplineStart_Evaluate_iff (self : UZiplineStartTransition) (Env : FMovingComponentSet)
    (Params : FSimulationTickParams) :
    ((∃ MoverComp, Env.CharacterMoverComponent = some MoverComp ∧ MoverComp.IsAirborne = true) ∧
        Params.StartState.SyncState.MovementMode ≠ self.ZipliningModeName ∧
        (∃ Inputs, Params.StartState.InputCmd.AbilityInputs = some Inputs ∧
          Inputs.bWantsToStartZiplining = true) ∧
        (∃ a ∈ Env.GetOverlappingActors, Env.DoesImplementInterface a = true) →
      self.Evaluate Env Params = ⟨self.ZipliningModeName⟩) ∧
    (¬ ((∃ MoverComp, Env.CharacterMoverComponent = some MoverComp ∧ MoverComp.IsAirborne = true) ∧
        Params.StartState.SyncState.MovementMode ≠ self.ZipliningModeName ∧
        (∃ Inputs, Params.StartState.InputCmd.AbilityInputs = some Inputs ∧
          Inputs.bWantsToStartZiplining = true) ∧
        (∃ a ∈ Env.GetOverlappingActors, Env.DoesImplementInterface a = true)) →
      self.Evaluate Env Params = FTransitionEvalResult.NoTransition) ∧
    (self.ZipliningModeName ≠ NAME_None →
      ((self.Evaluate Env Params).NextMode = self.ZipliningModeName ↔
        (∃ MoverComp, Env.CharacterMoverComponent = some MoverComp ∧ MoverComp.IsAirborne = true) ∧
        Params.StartState.SyncState.MovementMode ≠ self.ZipliningModeName ∧
        (∃ Inputs, Params.StartState.InputCmd.AbilityInputs = some Inputs ∧
          Inputs.bWantsToStartZiplining = true) ∧
        (∃ a ∈ Env.GetOverlappingActors, Env.DoesImplementInterface a = true))) ∧
    (∀ MoverComp, Env.CharacterMoverComponent = some MoverComp → MoverComp.IsAirborne = false →
      self.Evaluate Env Params = FTransitionEvalResult.NoTransition) := by
  obtain ⟨hyes, hno⟩ := ZiplineStart_Evaluate_cases self Env Params
  refine ⟨hyes, hno, ?_, ?_⟩
  · intro hname
    constructor
    · intro hnext
      by_contra hcon
      rw [hno hcon] at hnext
      exact hname hnext.symm
    · intro hc
      rw [hyes hc]
  · intro M hM hground
    apply hno
    rintro ⟨⟨M2, hM2, hair⟩, -⟩
    rw [hM] at hM2
    cases hM2
    rw [hground] at hair
    cases hair

/-- C6 in the sample level: an airborne mover in `Falling` that overlaps the
line and asks to start ziplining gets the ziplining mode; the same mover on
the ground gets no transition. -/
theorem ZiplineStart_Evaluate_iff_witness :
    UZiplineStartTransition.Default.Evaluate (Sample.Env [3, 7])
        (Sample.Input (some ⟨true⟩) none) = ⟨ExtendedModeNames.Ziplining⟩ ∧
      UZiplineStartTransition.Default.Evaluate (Sample.GroundedEnv [3, 7])
        (Sample.Input (some ⟨true⟩) none) = FTransitionEvalResult.NoTransition ∧
      ((UZiplineStartTransition.Default.Evaluate (Sample.GroundedEnv [3, 7])
        (Sample.Input (some ⟨true⟩) none)).NextMode ≠ ExtendedModeNames.Ziplining) := by
  have h1 := ZiplineStart_Evaluate_iff UZiplineStartTransition.Default (Sample.Env [3, 7])
    (Sample.Input (some ⟨true⟩) none)
  have h2 := ZiplineStart_Evaluate_iff UZiplineStartTransition.Default (Sample.GroundedEnv [3, 7])
    (Sample.Input (some ⟨true⟩) none)
  have hg : UZiplineStartTransition.Default.Evaluate (Sample.GroundedEnv [3, 7])
      (Sample.Input (some ⟨true⟩) none) = FTransitionEvalResult.NoTransition :=
    h2.2.2.2 ⟨false⟩ rfl rfl
  refine ⟨h1.1 ⟨⟨⟨true⟩, rfl, rfl⟩, by decide, ⟨⟨true⟩, rfl, rfl⟩, 7, by decide, rfl⟩, hg, ?_⟩
  intro hnext
  have hcond := (h2.2.2.1 (by decide)).mp hnext
  obtain ⟨⟨M, hM, hair⟩, -⟩ := hcond
  cases hM
  cases hair

/-- C7: `UZiplineEndTransition::Evaluate` returns the transition to
`AutoExitToMode` when the input holds character default inputs with
`bIsJumpJustPressed = true`, and `NoTransition` otherwise; the level flag
`bIsJumpPressed` does not enter the result, so a held jump (`bIsJumpPressed`
without `bIsJumpJustPressed`) gives `NoTransition`. As `NoTransition` is the
result whose next mode is `NAME_None`, reading the result back
(`NextMode = AutoExitToMode` exactly when the jump was just pressed) needs the
configured name to differ from `NAME_None`. -/
theorem ZiplineEnd_Evaluate_iff (self : UZiplineEndTransition) (Params : FSimulationTickParams) :
    ((∃ Inputs, Params.StartState.InputCmd.DefaultInputs = some Inputs ∧
          Inputs.bIsJumpJustPressed = true) →
      self.Evaluate Params = ⟨self.AutoExitToMode⟩) ∧
    (¬ (∃ Inputs, Params.StartState.InputCmd.DefaultInputs = some Inputs ∧
          Inputs.bIsJumpJustPressed = true) →
      self.Evaluate Params = FTransitionEvalResult.NoTransition) ∧
    (self.AutoExitToMode ≠ NAME_None →
      ((self.Evaluate Params).NextMode = self.AutoExitToMode ↔
        ∃ Inputs, Params.StartState.InputCmd.DefaultInputs = some Inputs ∧
          Inputs.bIsJumpJustPressed = true)) ∧
    (∀ (Ability : Option FMoverExampleAbilityInputs) (Sync : FMoverSyncState) (StepMs : ℚ)
        (bJust bHeld bHeld2 : Bool),
      self.Evaluate ⟨⟨⟨Ability, some ⟨bJust, bHeld⟩⟩, Sync⟩, StepMs⟩
        = self.Evaluate ⟨⟨⟨Ability, some ⟨bJust, bHeld2⟩⟩, Sync⟩, StepMs⟩) ∧
    (∀ Inputs, Params.StartState.InputCmd.DefaultInputs = some Inputs →
      Inputs.bIsJumpPressed = true → Inputs.bIsJumpJustPressed = false →
      self.Evaluate Params = FTransitionEvalResult.NoTransition) := by
  have hyes : (∃ Inputs, Params.StartState.InputCmd.DefaultInputs = some Inputs ∧
      Inputs.bIsJumpJustPressed = true) → self.Evaluate Params = ⟨self.AutoExitToMode⟩ := by
    rintro ⟨I, hI, hj⟩
    unfold UZiplineEndTransition.Evaluate
    simp only [hI, hj, if_true]
  have hno : ¬ (∃ Inputs, Params.StartState.InputCmd.DefaultInputs = some Inputs ∧
      Inputs.bIsJumpJustPressed = true) →
      self.Evaluate Params = FTransitionEvalResult.NoTransition := by
    intro hn
    unfold UZiplineEndTransition.Evaluate
    cases hI : Params.StartState.InputCmd.DefaultInputs with
    | none => rfl
    | some I =>
      simp only
      by_cases hj : I.bIsJumpJustPressed = true
      · exact absurd ⟨I, hI, hj⟩ hn
      · rw [if_neg hj]
  refine ⟨hyes, hno, ?_, ?_, ?_⟩
  · intro hname
    constructor
    · intro hnext
      by_contra hcon
      rw [hno hcon] at hnext
      exact hname hnext.symm
    · intro hc
      rw [hyes hc]
  · intro Ability Sync StepMs bJust bHeld bHeld2
    rfl
  · intro I hI _ hj
    apply hno
    rintro ⟨I2, hI2, hj2⟩
    rw [hI] at hI2
    cases hI2
    rw [hj] at hj2
    cases hj2

/-- C7 on sample inputs: a jump that was just pressed leaves the line for
`Falling`, a jump that is only held gives no transition. -/
theorem ZiplineEnd_Evaluate_iff_witness :
    UZiplineEndTransition.Default.Evaluate (Sample.Input none (some ⟨true, true⟩))
        = ⟨DefaultModeNames.Falling⟩ ∧
      UZiplineEndTransition.Default.Evaluate (Sample.Input none (some ⟨false, true⟩))
        = FTransitionEvalResult.NoTransition ∧
      (UZiplineEndTransition.Default.Evaluate (Sample.Input none (some ⟨false, true⟩))).NextMode
        ≠ DefaultModeNames.Falling := by
  have h1 := ZiplineEnd_Evaluate_iff UZiplineEndTransition.Default
    (Sample.Input none (some ⟨true, true⟩))
  have h2 := ZiplineEnd_Evaluate_iff UZiplineEndTransition.Default
    (Sample.Input none (some ⟨false, true⟩))
  refine ⟨h1.1 ⟨⟨true, true⟩, rfl, rfl⟩, h2.2.2.2.2 ⟨false, true⟩ rfl rfl rfl, ?_⟩
  intro hnext
  obtain ⟨I, hI, hj⟩ := (h2.2.2.1 (by decide)).mp hnext
  cases hI
  cases hj

/-! ## Network serialization -/

/-- C8: for a state whose line is resolvable through the package map (reading
the bits of the reference gives the reference back and consumes exactly those
bits), `NetSerialize` on a saving archive writes the reference followed by one
bit, the direction flag, and `NetSerialize` on a loading archive that starts
with these bits gives a state with the same line and the same flag, for which
`ShouldReconcile` against the original is false. -/
theorem NetSerialize_roundtrip (Map : UPackageMap) (s s0 : FZipliningState) (rest : List Bool)
    (hres : ∀ tail, Map.ReadObject (Map.WriteObject s.ZiplineActor ++ tail)
      = (s.ZiplineActor, tail)) :
    (s.NetSerialize FArchive.Writer Map).Ar.Bits
        = Map.WriteObject s.ZiplineActor ++ [s.bIsMovingAtoB] ∧
      (s.NetSerialize FArchive.Writer Map).State = s ∧
      (s0.NetSerialize (FArchive.Reader ((s.NetSerialize FArchive.Writer Map).Ar.Bits ++ rest))
          Map).State = s ∧
      (s0.NetSerialize (FArchive.Reader ((s.NetSerialize FArchive.Writer Map).Ar.Bits ++ rest))
          Map).Ar.Bits = rest ∧
      (s0.NetSerialize (FArchive.Reader ((s.NetSerialize FArchive.Writer Map).Ar.Bits ++ rest))
          Map).bOutSuccess = true ∧
      ((s0.NetSerialize (FArchive.Reader ((s.NetSerialize FArchive.Writer Map).Ar.Bits ++ rest))
          Map).State.ShouldReconcile s) = false := by
  have hw : (s.NetSerialize FArchive.Writer Map).Ar.Bits
      = Map.WriteObject s.ZiplineActor ++ [s.bIsMovingAtoB] := by
    simp [FZipliningState.NetSerialize, FArchive.SerializeObject, FArchive.SerializeBits1,
      FArchive.Writer]
  have hr : (s0.NetSerialize (FArchive.Reader ((s.NetSerialize FArchive.Writer Map).Ar.Bits ++ rest))
      Map).State = s ∧
      (s0.NetSerialize (FArchive.Reader ((s.NetSerialize FArchive.Writer Map).Ar.Bits ++ rest))
      Map).Ar.Bits = rest := by
    rw [hw]
    simp [FZipliningState.NetSerialize, FArchive.SerializeObject, FArchive.SerializeBits1,
      FArchive.Reader, hres]
  refine ⟨hw, ?_, hr.1, hr.2, rfl, ?_⟩
  · simp [FZipliningState.NetSerialize, FArchive.SerializeObject, FArchive.SerializeBits1,
      FArchive.Writer]
  · rw [hr.1]
    simp [FZipliningState.ShouldReconcile]

/-- C8 for the line `7` with `bIsMovingAtoB = true` and a package map that
knows actor `7`: nine bits of reference, then the flag. -/
theorem NetSerialize_roundtrip_witness :
    (FZipliningState.NetSerialize ⟨some 7, true⟩ FArchive.Writer (Sample.Map [7])).Ar.Bits
        = [true, true, true, true, true, true, true, true, false] ++ [true] ∧
      (FZipliningState.Default.NetSerialize
        (FArchive.Reader ((FZipliningState.NetSerialize ⟨some 7, true⟩ FArchive.Writer
          (Sample.Map [7])).Ar.Bits ++ [])) (Sample.Map [7])).State = ⟨some 7, true⟩ := by
  have h := NetSerialize_roundtrip (Sample.Map [7]) ⟨some 7, true⟩ FZipliningState.Default []
    (fun tail => rfl)
  exact ⟨h.1, h.2.2.1⟩

/-- C9: a line reference that the receiving package map cannot resolve. The
sender stores line `9`; the receiver knows only actor `7`. `NetSerialize`
reports success and leaves a block with a null line, and the tick that starts
from this block fails the `check` on the line, while the tick that starts
without a block (the fresh entry) returns. The block is not handled as "no
state". -/
theorem NetSerialize_unresolvable_line_faults_tick :
    (FZipliningState.Default.NetSerialize
        (FArchive.Reader (FZipliningState.NetSerialize ⟨some 9, false⟩ FArchive.Writer
          (Sample.Map [7, 9])).Ar.Bits) (Sample.Map [7])).bOutSuccess = true ∧
      (FZipliningState.Default.NetSerialize
        (FArchive.Reader (FZipliningState.NetSerialize ⟨some 9, false⟩ FArchive.Writer
          (Sample.Map [7, 9])).Ar.Bits) (Sample.Map [7])).State = ⟨none, false⟩ ∧
      UZipliningMode.Default.SimulationTick (Sample.Env [3, 7])
        (Sample.Params (some (FZipliningState.Default.NetSerialize
          (FArchive.Reader (FZipliningState.NetSerialize ⟨some 9, false⟩ FArchive.Writer
            (Sample.Map [7, 9])).Ar.Bits) (Sample.Map [7])).State) 500)
        (Sample.Component ⟨10, 5, -90⟩) Sample.Output = none ∧
      ∃ r, UZipliningMode.Default.SimulationTick (Sample.Env [3, 7]) (Sample.Params none 500)
        (Sample.Component ⟨10, 5, -90⟩) Sample.Output = some r := by
  have hstate : (FZipliningState.Default.NetSerialize
      (FArchive.Reader (FZipliningState.NetSerialize ⟨some 9, false⟩ FArchive.Writer
        (Sample.Map [7, 9])).Ar.Bits) (Sample.Map [7])).State = ⟨none, false⟩ := by
    decide
  refine ⟨rfl, hstate, ?_, ?_⟩
  · rw [hstate]
    exact SimulationTick_of_fault _ _ _ _ _
      (ResolveZipline_null_actor _ _ _ _ ⟨none, false⟩ rfl rfl)
  · obtain ⟨T, hT, -⟩ := Sample.resolve_fresh 500
    exact ⟨_, SimulationTick_of_target _ _ _ _ _ T hT⟩

/-! ## Scenarios on the 1000 unit line -/

/-- C10: fresh entry onto the line from `A = (0,0,0)` to `B = (1000,0,0)` with
the mover strictly nearer to `A`, `MaxSpeed = 1000`, `StepMs = 500`, an inverse
square root that is exact on the squared length of the line and a move that is
not blocked. The tick returns, the mover ends at `(500,0,0)` minus the vertical
offset (and this is the location written to the sync state), the output block
holds the line with `bIsMovingAtoB = true`, and the mode-switch outcome is as
it was passed in: no mode switch is requested. -/
theorem scenario_half_second_step (Mode : UZipliningMode) (Env : FMovingComponentSet)
    (Params : FSimulationTickParams) (C : USceneComponent) (O : FMoverTickEndData) (L : AActor)
    (hspeed : Mode.MaxSpeed = 1000) (hstep : Params.StepMs = 500)
    (hfresh : Params.StartState.SyncState.ZipliningState = none)
    (hL : FindZipline Env.DoesImplementInterface Env.GetOverlappingActors = some L)
    (hA : Env.GetStartComponent L = some ⟨0, 0, 0⟩)
    (hB : Env.GetEndComponent L = some ⟨1000, 0, 0⟩)
    (hnear : FVector.DistSquared ⟨0, 0, 0⟩ C.Location < FVector.DistSquared ⟨1000, 0, 0⟩ C.Location)
    (hinv : Env.InvSqrt 1000000 = 1 / 1000)
    (hfree : ∀ loc rot delta newrot dt,
      (Env.TrySafeMoveUpdatedComponent loc rot delta newrot dt).Location = loc + delta) :
    ∃ r, Mode.SimulationTick Env Params C O = some r ∧
      r.2.Location = (⟨500, 0, 0⟩ : FVector) - Env.ActorToZiplineOffset ∧
      r.1.SyncState.DefaultSyncState.map (fun b => b.Location)
        = some ((⟨500, 0, 0⟩ : FVector) - Env.ActorToZiplineOffset) ∧
      r.1.SyncState.ZipliningState = some ⟨some L, true⟩ ∧
      r.1.MovementEndState.NextModeName = O.MovementEndState.NextModeName ∧
      r.1.MovementEndState.RemainingMs = O.MovementEndState.RemainingMs ∧
      r.1.SyncState.MovementMode = O.SyncState.MovementMode := by
  obtain ⟨T, hT, hS, hE, hD, hC, hZ, hMM, -, hM⟩ :=
    ResolveZipline_fresh Env Params C O L ⟨0, 0, 0⟩ ⟨1000, 0, 0⟩ hfresh hL hA hB
  rw [if_pos hnear] at hS hE
  have hD1 : T.ZipDirection = ⟨1, 0, 0⟩ := by
    rw [hD, hS, hE]
    apply FVector.eq_of_components <;>
      norm_num [FVector.GetSafeNormal, FVector.SMALL_NUMBER, hinv]
  have hLoc : T.UpdatedComponent.Location = (⟨0, 0, 0⟩ : FVector) - Env.ActorToZiplineOffset := by
    rw [hC, hS]; rfl
  have hStart : T.UpdatedComponent.Location + Env.ActorToZiplineOffset = ⟨0, 0, 0⟩ := by
    rw [hLoc, FVector.sub_add_cancel_offset]
  have hAE : Mode.ActualEndPos (T.UpdatedComponent.Location + Env.ActorToZiplineOffset)
      T.ZipDirection (Params.StepMs * (1 / 1000)) T.StartPoint T.EndPoint = ⟨500, 0, 0⟩ := by
    rw [hStart, hD1, hstep, hS, hE]
    apply FVector.eq_of_components <;>
      norm_num [UZipliningMode.ActualEndPos, UZipliningMode.DesiredEndPos, hspeed,
        FVector.ClosestPointOnSegment, FVector.dot]
  have hmove : ((Mode.ActualEndPos (T.UpdatedComponent.Location + Env.ActorToZiplineOffset)
      T.ZipDirection (Params.StepMs * (1 / 1000)) T.StartPoint T.EndPoint)
        - (T.UpdatedComponent.Location + Env.ActorToZiplineOffset)).IsNearlyZero = false := by
    rw [hAE, hStart]
    norm_num [FVector.IsNearlyZero, FVector.KINDA_SMALL_NUMBER]
  have hreach : Mode.bWillReachEndPosition (T.UpdatedComponent.Location + Env.ActorToZiplineOffset)
      T.ZipDirection (Params.StepMs * (1 / 1000)) T.StartPoint T.EndPoint = false := by
    unfold UZipliningMode.bWillReachEndPosition
    rw [hAE, hE]
    norm_num [FVector.IsNearlyZero, FVector.KINDA_SMALL_NUMBER]
  have hfinal : (Mode.SlideAlongZipline Env Params.StepMs T.StartPoint T.EndPoint T.ZipDirection
      T.FlatFacingDir T.UpdatedComponent T.OutputState).2.Location
        = (⟨500, 0, 0⟩ : FVector) - Env.ActorToZiplineOffset := by
    rw [SlideAlongZipline_Location Mode Env Params.StepMs T.StartPoint T.EndPoint T.ZipDirection
      T.FlatFacingDir T.UpdatedComponent T.OutputState hmove, hfree, hAE, hStart, hLoc]
    apply FVector.eq_of_components <;>
      simp only [FVector.add_X, FVector.add_Y, FVector.add_Z, FVector.sub_X, FVector.sub_Y,
        FVector.sub_Z] <;> ring
  refine ⟨_, SimulationTick_of_target Mode Env Params C O T hT, hfinal, ?_, ?_, ?_, ?_, ?_⟩
  · rw [SlideAlongZipline_written_Location, hfinal]
  · rw [SlideAlongZipline_ZipliningState, hZ]; simp [hnear]
  · rw [SlideAlongZipline_NextModeName, hreach, hM]; rfl
  · rw [SlideAlongZipline_RemainingMs, hM]
  · rw [SlideAlongZipline_MovementMode, hMM]

/-- C10 in the sample level for a mover at `(10,5,-90)`: the tick ends at
`(500,0,-90)`, which is `(500,0,0)` minus the offset `(0,0,90)`. -/
theorem scenario_half_second_step_witness :
    ∃ r, UZipliningMode.Default.SimulationTick (Sample.Env [3, 7]) (Sample.Params none 500)
        (Sample.Component ⟨10, 5, -90⟩) Sample.Output = some r ∧
      r.2.Location = (⟨500, 0, 0⟩ : FVector) - ⟨0, 0, 90⟩ ∧
      r.1.SyncState.ZipliningState = some ⟨some 7, true⟩ ∧
      r.1.MovementEndState.NextModeName = NAME_None := by
  obtain ⟨r, hr, hloc, -, hz, hn, -, -⟩ := scenario_half_second_step UZipliningMode.Default
    (Sample.Env [3, 7]) (Sample.Params none 500) (Sample.Component ⟨10, 5, -90⟩) Sample.Output 7
    rfl rfl rfl rfl rfl rfl (by norm_num [FVector.DistSquared, Sample.Component])
    (by norm_num [Sample.Env, Sample.InvSqrt]) (fun _ _ _ _ _ => rfl)
  rw [Sample.offset] at hloc
  exact ⟨r, hr, hloc, hz, hn⟩

/-- C11, amended: fresh entry onto the line from `A = (0,0,0)` to
`B = (1000,0,0)` with the mover strictly nearer to `A`, `MaxSpeed = 1000`,
`StepMs = 2000`, an inverse square root that is exact on the squared length of
the line and a move that is not blocked. The traversal runs from `A` to `B`,
the clamped step end is `B`, `bWillReachEndPosition` is true, and the tick
returns with the mover at `B` minus the vertical offset, `NextModeName` equal to
the configured air mode and `RemainingMs` left as it was passed in: the tick
does not write it. -/
theorem scenario_two_second_step (Mode : UZipliningMode) (Env : FMovingComponentSet)
    (Params : FSimulationTickParams) (C : USceneComponent) (O : FMoverTickEndData) (L : AActor)
    (hspeed : Mode.MaxSpeed = 1000) (hstep : Params.StepMs = 2000)
    (hfresh : Params.StartState.SyncState.ZipliningState = none)
    (hL : FindZipline Env.DoesImplementInterface Env.GetOverlappingActors = some L)
    (hA : Env.GetStartComponent L = some ⟨0, 0, 0⟩)
    (hB : Env.GetEndComponent L = some ⟨1000, 0, 0⟩)
    (hnear : FVector.DistSquared ⟨0, 0, 0⟩ C.Location < FVector.DistSquared ⟨1000, 0, 0⟩ C.Location)
    (hinv : Env.InvSqrt 1000000 = 1 / 1000)
    (hfree : ∀ loc rot delta newrot dt,
      (Env.TrySafeMoveUpdatedComponent loc rot delta newrot dt).Location = loc + delta) :
    ∃ T, UZipliningMode.ResolveZipline Env Params C O = some (Sum.inr T) ∧
      T.StartPoint = ⟨0, 0, 0⟩ ∧ T.EndPoint = ⟨1000, 0, 0⟩ ∧
      Mode.ActualEndPos (T.UpdatedComponent.Location + Env.ActorToZiplineOffset) T.ZipDirection
        (Params.StepMs * (1 / 1000)) T.StartPoint T.EndPoint = ⟨1000, 0, 0⟩ ∧
      Mode.bWillReachEndPosition (T.UpdatedComponent.Location + Env.ActorToZiplineOffset)
        T.ZipDirection (Params.StepMs * (1 / 1000)) T.StartPoint T.EndPoint = true ∧
      ∃ r, Mode.SimulationTick Env Params C O = some r ∧
        r.2.Location = (⟨1000, 0, 0⟩ : FVector) - Env.ActorToZiplineOffset ∧
        r.1.SyncState.DefaultSyncState.map (fun b => b.Location)
          = some ((⟨1000, 0, 0⟩ : FVector) - Env.ActorToZiplineOffset) ∧
        r.1.MovementEndState.NextModeName = Env.DefaultAirMode ∧
        r.1.MovementEndState.RemainingMs = O.MovementEndState.RemainingMs := by
  obtain ⟨T, hT, hS, hE, hD, hC, -, -, -, hM⟩ :=
    ResolveZipline_fresh Env Params C O L ⟨0, 0, 0⟩ ⟨1000, 0, 0⟩ hfresh hL hA hB
  rw [if_pos hnear] at hS hE
  have hD1 : T.ZipDirection = ⟨1, 0, 0⟩ := by
    rw [hD, hS, hE]
    apply FVector.eq_of_components <;>
      norm_num [FVector.GetSafeNormal, FVector.SMALL_NUMBER, hinv]
  have hLoc : T.UpdatedComponent.Location = (⟨0, 0, 0⟩ : FVector) - Env.ActorToZiplineOffset := by
    rw [hC, hS]; rfl
  have hStart : T.UpdatedComponent.Location + Env.ActorToZiplineOffset = ⟨0, 0, 0⟩ := by
    rw [hLoc, FVector.sub_add_cancel_offset]
  have hAE : Mode.ActualEndPos (T.UpdatedComponent.Location + Env.ActorToZiplineOffset)
      T.ZipDirection (Params.StepMs * (1 / 1000)) T.StartPoint T.EndPoint = ⟨1000, 0, 0⟩ := by
    rw [hStart, hD1, hstep, hS, hE]
    apply FVector.eq_of_components <;>
      norm_num [UZipliningMode.ActualEndPos, UZipliningMode.DesiredEndPos, hspeed,
        FVector.ClosestPointOnSegment, FVector.dot]
  have hmove : ((Mode.ActualEndPos (T.UpdatedComponent.Location + Env.ActorToZiplineOffset)
      T.ZipDirection (Params.StepMs * (1 / 1000)) T.StartPoint T.EndPoint)
        - (T.UpdatedComponent.Location + Env.ActorToZiplineOffset)).IsNearlyZero = false := by
    rw [hAE, hStart]
    norm_num [FVector.IsNearlyZero, FVector.KINDA_SMALL_NUMBER]
  have hreach : Mode.bWillReachEndPosition (T.UpdatedComponent.Location + Env.ActorToZiplineOffset)
      T.ZipDirection (Params.StepMs * (1 / 1000)) T.StartPoint T.EndPoint = true := by
    unfold UZipliningMode.bWillReachEndPosition
    rw [hAE, hE]
    norm_num [FVector.IsNearlyZero, FVector.KINDA_SMALL_NUMBER]
  have hfinal : (Mode.SlideAlongZipline Env Params.StepMs T.StartPoint T.EndPoint T.ZipDirection
      T.FlatFacingDir T.UpdatedComponent T.OutputState).2.Location
        = (⟨1000, 0, 0⟩ : FVector) - Env.ActorToZiplineOffset := by
    rw [SlideAlongZipline_Location Mode Env Params.StepMs T.StartPoint T.EndPoint T.ZipDirection
      T.FlatFacingDir T.UpdatedComponent T.OutputState hmove, hfree, hAE, hStart, hLoc]
    apply FVector.eq_of_components <;>
      simp only [FVector.add_X, FVector.add_Y, FVector.add_Z, FVector.sub_X, FVector.sub_Y,
        FVector.sub_Z] <;> ring
  refine ⟨T, hT, hS, hE, hAE, hreach, _, SimulationTick_of_target Mode Env Params C O T hT,
    hfinal, ?_, ?_, ?_⟩
  · rw [SlideAlongZipline_written_Location, hfinal]
  · rw [SlideAlongZipline_NextModeName, if_pos hreach]
  · rw [SlideAlongZipline_RemainingMs, hM]

/-- C11, amended, in the sample level for a mover at `(10,5,-90)` and an output
state handed over with `RemainingMs = 7`: the tick ends at `(1000,0,-90)`, which
is `B` minus the offset `(0,0,90)`, and asks for `Falling` with the `7` left in
place. -/
theorem scenario_two_second_step_witness :
    ∃ r, UZipliningMode.Default.SimulationTick (Sample.Env [3, 7]) (Sample.Params none 2000)
        (Sample.Component ⟨10, 5, -90⟩) Sample.OutputWithRemainder = some r ∧
      r.2.Location = (⟨1000, 0, 0⟩ : FVector) - ⟨0, 0, 90⟩ ∧
      r.1.MovementEndState.NextModeName = DefaultModeNames.Falling ∧
      r.1.MovementEndState.RemainingMs = 7 := by
  obtain ⟨T, -, -, -, -, -, r, hr, hloc, -, hn, hrem⟩ := scenario_two_second_step
    UZipliningMode.Default (Sample.Env [3, 7]) (Sample.Params none 2000)
    (Sample.Component ⟨10, 5, -90⟩) Sample.OutputWithRemainder 7
    rfl rfl rfl rfl rfl rfl (by norm_num [FVector.DistSquared, Sample.Component])
    (by norm_num [Sample.Env, Sample.InvSqrt]) (fun _ _ _ _ _ => rfl)
  rw [Sample.offset] at hloc
  exact ⟨r, hr, hloc, hn, hrem⟩

/-- C11, as stated, fails in the sample level: a fresh entry with
`StepMs = 2000` and an output state handed over with `RemainingMs = 7` returns
with `RemainingMs = 7`, not `0`. -/
theorem scenario_two_second_step_keeps_remainder :
    ∃ r, UZipliningMode.Default.SimulationTick (Sample.Env [3, 7]) (Sample.Params none 2000)
        (Sample.Component ⟨10, 5, -90⟩) Sample.OutputWithRemainder = some r ∧
      r.1.MovementEndState.RemainingMs = 7 ∧ r.1.MovementEndState.RemainingMs ≠ 0 := by
  obtain ⟨T, hT, -, -, -, -, -, -, -, hM⟩ := ResolveZipline_fresh (Sample.Env [3, 7])
    (Sample.Params none 2000) (Sample.Component ⟨10, 5, -90⟩) Sample.OutputWithRemainder 7
    ⟨0, 0, 0⟩ ⟨1000, 0, 0⟩ rfl rfl rfl rfl
  have hrem : (UZipliningMode.Default.SlideAlongZipline (Sample.Env [3, 7])
      (Sample.Params none 2000).StepMs T.StartPoint T.EndPoint T.ZipDirection T.FlatFacingDir
      T.UpdatedComponent T.OutputState).1.MovementEndState.RemainingMs = 7 := by
    rw [SlideAlongZipline_RemainingMs, hM]; rfl
  refine ⟨_, SimulationTick_of_target _ _ _ _ _ T hT, hrem, ?_⟩
  rw [hrem]
  norm_num

/-! ## A block whose line cannot be resolved -/

/-- C12: a continuing frame whose block holds a null line. For every mode
configuration, level, mover, output state, time step and direction flag the
tick fails the `check` on the line, so it returns no output and none that asks
for the air mode; the fresh-entry frame of the same tick that finds no line
(only actor `3`, which is no zipline, overlaps) returns with the mover where it
was and `NextModeName` equal to `Falling`. The fallback exists on the
fresh-entry path only. -/
theorem continuing_null_line_faults_without_mode_switch (Mode : UZipliningMode)
    (Env : FMovingComponentSet) (C : USceneComponent) (O : FMoverTickEndData) (StepMs : ℚ)
    (b : Bool) :
    Mode.SimulationTick Env (Sample.Params (some ⟨none, b⟩) StepMs) C O = none ∧
      (¬ ∃ r, Mode.SimulationTick Env (Sample.Params (some ⟨none, b⟩) StepMs) C O = some r ∧
        r.1.MovementEndState.NextModeName = Env.DefaultAirMode) ∧
      ∃ Out, UZipliningMode.Default.SimulationTick (Sample.Env [3]) (Sample.Params none 500)
          (Sample.Component ⟨10, 5, -90⟩) Sample.Output
            = some (Out, Sample.Component ⟨10, 5, -90⟩) ∧
        Out.MovementEndState.NextModeName = DefaultModeNames.Falling := by
  have hnone : Mode.SimulationTick Env (Sample.Params (some ⟨none, b⟩) StepMs) C O = none :=
    SimulationTick_of_fault _ _ _ _ _ (ResolveZipline_null_actor _ _ _ _ ⟨none, b⟩ rfl rfl)
  refine ⟨hnone, ?_, ?_⟩
  · rintro ⟨r, hr, -⟩
    rw [hnone] at hr
    cases hr
  · have hres := ResolveZipline_noTarget (Sample.Env [3]) (Sample.Params none 500)
      (Sample.Component ⟨10, 5, -90⟩) Sample.Output rfl rfl
    exact ⟨_, SimulationTick_of_noTarget UZipliningMode.Default (Sample.Env [3])
      (Sample.Params none 500) (Sample.Component ⟨10, 5, -90⟩) Sample.Output _ hres, rfl⟩

/-- C13: a start state with a null-line block against the same start state with
the block removed. For every mode configuration, output state, time step and
direction flag of the block, in the sample level where line `7` overlaps the
mover: the tick on the state with the block fails the `check` on the line and
returns no output, the tick on the state without the block returns with line
`7` stored, entered from its first end. The two outputs differ: the block is
not treated as empty. -/
theorem null_line_block_faults_unlike_removed_block (Mode : UZipliningMode)
    (O : FMoverTickEndData) (StepMs : ℚ) (b : Bool) :
    Mode.SimulationTick (Sample.Env [3, 7]) (Sample.Params (some ⟨none, b⟩) StepMs)
        (Sample.Component ⟨10, 5, -90⟩) O = none ∧
      (∃ r, Mode.SimulationTick (Sample.Env [3, 7])
          (Sample.Params (some ⟨none, b⟩) StepMs).RemoveZipliningState
          (Sample.Component ⟨10, 5, -90⟩) O = some r ∧
        r.1.SyncState.ZipliningState = some ⟨some 7, true⟩) ∧
      Mode.SimulationTick (Sample.Env [3, 7]) (Sample.Params (some ⟨none, b⟩) StepMs)
          (Sample.Component ⟨10, 5, -90⟩) O
        ≠ Mode.SimulationTick (Sample.Env [3, 7])
          (Sample.Params (some ⟨none, b⟩) StepMs).RemoveZipliningState
          (Sample.Component ⟨10, 5, -90⟩) O := by
  have hnone : Mode.SimulationTick (Sample.Env [3, 7]) (Sample.Params (some ⟨none, b⟩) StepMs)
      (Sample.Component ⟨10, 5, -90⟩) O = none :=
    SimulationTick_of_fault _ _ _ _ _ (ResolveZipline_null_actor _ _ _ _ ⟨none, b⟩ rfl rfl)
  obtain ⟨T, hT, -, -, -, -, hZip, -⟩ := ResolveZipline_fresh (Sample.Env [3, 7])
    (Sample.Params (some ⟨none, b⟩) StepMs).RemoveZipliningState
    (Sample.Component ⟨10, 5, -90⟩) O 7 ⟨0, 0, 0⟩ ⟨1000, 0, 0⟩ rfl rfl rfl rfl
  have hsome := SimulationTick_of_target Mode (Sample.Env [3, 7])
    (Sample.Params (some ⟨none, b⟩) StepMs).RemoveZipliningState
    (Sample.Component ⟨10, 5, -90⟩) O T hT
  have hlt : FVector.DistSquared ⟨0, 0, 0⟩ (Sample.Component ⟨10, 5, -90⟩).Location
      < FVector.DistSquared ⟨1000, 0, 0⟩ (Sample.Component ⟨10, 5, -90⟩).Location := by
    norm_num [FVector.DistSquared, Sample.Component]
  refine ⟨hnone, ⟨_, hsome, ?_⟩, ?_⟩
  · rw [SlideAlongZipline_ZipliningState, hZip]
    simp [hlt]
  · rw [hnone, hsome]
    intro h
    cases h

/-! ## GenerateMove -/

/-- C14: for every mode, every start state, every time step and every previous
value of the out-parameter, `GenerateMove` leaves the default (empty)
`FProposedMove` in `OutProposedMove`; the result is the same for any two sets
of inputs. The method is `const` and has no other output. -/
theorem GenerateMove_is_default (Mode Mode2 : UZipliningMode)
    (StartState StartState2 : FMoverTickStartData) (TimeStep TimeStep2 : FMoverTimeStep)
    (Out Out2 : FProposedMove) :
    Mode.GenerateMove StartState TimeStep Out = FProposedMove.Default ∧
      Mode.GenerateMove StartState TimeStep Out = Mode2.GenerateMove StartState2 TimeStep2 Out2 ∧
      (Mode.GenerateMove StartState TimeStep Out).PreferredMode = NAME_None ∧
      (Mode.GenerateMove StartState TimeStep Out).bHasDirIntent = false ∧
      (Mode.GenerateMove StartState TimeStep Out).LinearVelocity = FVector.ZeroVector :=
  ⟨rfl, rfl, rfl, rfl, rfl⟩

/-! ## The navigation request -/

/-- C16: after `RequestDirectMove(v)` with `v` not nearly zero, the first
`ConsumeNavMovementData` returns true, gives `v` as velocity and the safe
normal of `v` as intent, and resets the cache (zero vectors, no pending
input); a further call on the component it leaves returns false and leaves
both reference arguments and the component as they are, so every later call
before a new request does the same. A component with no pending request
returns false and changes nothing. -/
theorem ConsumeNavMovementData_hands_over_once (self : UMyNavMoverComponent) (InvSqrt : ℚ → ℚ)
    (v : FVector) (bForceMaxSpeed : Bool) (OutIntent OutVelocity : FVector)
    (hv : v.IsNearlyZero = false) :
    ((self.RequestDirectMove InvSqrt v bForceMaxSpeed).ConsumeNavMovementData
        OutIntent OutVelocity).Returned = true ∧
      ((self.RequestDirectMove InvSqrt v bForceMaxSpeed).ConsumeNavMovementData
        OutIntent OutVelocity).OutMoveVelocity = v ∧
      ((self.RequestDirectMove InvSqrt v bForceMaxSpeed).ConsumeNavMovementData
        OutIntent OutVelocity).OutMoveIntent = v.GetSafeNormal InvSqrt ∧
      ((self.RequestDirectMove InvSqrt v bForceMaxSpeed).ConsumeNavMovementData
        OutIntent OutVelocity).Component = ⟨FVector.ZeroVector, FVector.ZeroVector, false⟩ ∧
      (∀ Intent2 Velocity2 : FVector,
        (((self.RequestDirectMove InvSqrt v bForceMaxSpeed).ConsumeNavMovementData
            OutIntent OutVelocity).Component.ConsumeNavMovementData Intent2 Velocity2)
          = ⟨false, Intent2, Velocity2,
              ((self.RequestDirectMove InvSqrt v bForceMaxSpeed).ConsumeNavMovementData
                OutIntent OutVelocity).Component⟩) ∧
      (∀ (idle : UMyNavMoverComponent) (Intent2 Velocity2 : FVector), idle.bHasNavInput = false →
        idle.ConsumeNavMovementData Intent2 Velocity2 = ⟨false, Intent2, Velocity2, idle⟩) := by
  have hreq : self.RequestDirectMove InvSqrt v bForceMaxSpeed
      = ⟨v, v.GetSafeNormal InvSqrt, true⟩ := by
    simp [UMyNavMoverComponent.RequestDirectMove, hv]
  rw [hreq]
  refine ⟨rfl, rfl, rfl, rfl, fun _ _ => rfl, ?_⟩
  intro idle Intent2 Velocity2 hidle
  simp [UMyNavMoverComponent.ConsumeNavMovementData, hidle]

/-- C16 on a sample request: the velocity `(3,0,0)` is handed over once. -/
theorem ConsumeNavMovementData_hands_over_once_witness :
    ((UMyNavMoverComponent.Default.RequestDirectMove Sample.InvSqrt ⟨3, 0, 0⟩
        false).ConsumeNavMovementData ⟨0, 0, 0⟩ ⟨0, 0, 0⟩).Returned = true ∧
      ((UMyNavMoverComponent.Default.RequestDirectMove Sample.InvSqrt ⟨3, 0, 0⟩
        false).ConsumeNavMovementData ⟨0, 0, 0⟩ ⟨0, 0, 0⟩).OutMoveVelocity = ⟨3, 0, 0⟩ ∧
      (((UMyNavMoverComponent.Default.RequestDirectMove Sample.InvSqrt ⟨3, 0, 0⟩
        false).ConsumeNavMovementData ⟨0, 0, 0⟩ ⟨0, 0, 0⟩).Component.ConsumeNavMovementData
          ⟨1, 1, 1⟩ ⟨2, 2, 2⟩).Returned = false := by
  have h := ConsumeNavMovementData_hands_over_once UMyNavMoverComponent.Default Sample.InvSqrt
    ⟨3, 0, 0⟩ false ⟨0, 0, 0⟩ ⟨0, 0, 0⟩
    (by norm_num [FVector.IsNearlyZero, FVector.KINDA_SMALL_NUMBER])
  refine ⟨h.1, h.2.1, ?_⟩
  rw [h.2.2.2.2.1 ⟨1, 1, 1⟩ ⟨2, 2, 2⟩]

/-! ## Continuing frames -/

/-- C17: on a continuing tick (a block with a line that gives both of its ends
`A` and `B`), the traversal runs from `A` to `B` when `bIsMovingAtoB` is true
and from `B` to `A` otherwise, the mover is not teleported, the tick returns
and its output block is the input block; the two ends are the same for every
state of the updated component, so the place of the mover plays no part in
their assignment. -/
theorem continuing_tick_keeps_block_and_direction (Mode : UZipliningMode)
    (Env : FMovingComponentSet) (Params : FSimulationTickParams) (C : USceneComponent)
    (O : FMoverTickEndData) (Z : FZipliningState) (L : AActor) (A B : FVector)
    (hZ : Params.StartState.SyncState.ZipliningState = some Z)
    (hL : Z.ZiplineActor = some L)
    (hA : Env.StartLocation L = some A) (hB : Env.EndLocation L = some B) :
    ∃ T, UZipliningMode.ResolveZipline Env Params C O = some (Sum.inr T) ∧
      T.StartPoint = (if Z.bIsMovingAtoB then A else B) ∧
      T.EndPoint = (if Z.bIsMovingAtoB then B else A) ∧
      T.UpdatedComponent = C ∧
      (∃ r, Mode.SimulationTick Env Params C O = some r ∧
        r.1.SyncState.ZipliningState = some Z) ∧
      (∀ C2 : USceneComponent, ∃ T2,
        UZipliningMode.ResolveZipline Env Params C2 O = some (Sum.inr T2) ∧
        T2.StartPoint = T.StartPoint ∧ T2.EndPoint = T.EndPoint) := by
  obtain ⟨T, hT, hS, hE, -, hC, hZip, -⟩ :=
    ResolveZipline_continuing Env Params C O Z L A B hZ hL hA hB
  refine ⟨T, hT, hS, hE, hC, ⟨_, SimulationTick_of_target Mode Env Params C O T hT, ?_⟩, ?_⟩
  · rw [SlideAlongZipline_ZipliningState, hZip]
  · intro C2
    obtain ⟨T2, hT2, hS2, hE2, -⟩ :=
      ResolveZipline_continuing Env Params C2 O Z L A B hZ hL hA hB
    exact ⟨T2, hT2, by rw [hS2, hS], by rw [hE2, hE]⟩

/-- C17 in the sample level: a block for line `7` travelled from `B` to `A`
and a mover right next to `A`; the traversal still starts at `B`. -/
theorem continuing_tick_keeps_block_and_direction_witness :
    ∃ T, UZipliningMode.ResolveZipline (Sample.Env [3, 7])
        (Sample.Params (some ⟨some 7, false⟩) 500) (Sample.Component ⟨10, 5, -90⟩) Sample.Output
          = some (Sum.inr T) ∧
      T.StartPoint = ⟨1000, 0, 0⟩ ∧ T.EndPoint = ⟨0, 0, 0⟩ ∧
      ∃ r, UZipliningMode.Default.SimulationTick (Sample.Env [3, 7])
          (Sample.Params (some ⟨some 7, false⟩) 500) (Sample.Component ⟨10, 5, -90⟩)
          Sample.Output = some r ∧
        r.1.SyncState.ZipliningState = some ⟨some 7, false⟩ := by
  obtain ⟨T, hT, hS, hE, -, hr, -⟩ := continuing_tick_keeps_block_and_direction
    UZipliningMode.Default (Sample.Env [3, 7]) (Sample.Params (some ⟨some 7, false⟩) 500)
    (Sample.Component ⟨10, 5, -90⟩) Sample.Output ⟨some 7, false⟩ 7 ⟨0, 0, 0⟩ ⟨1000, 0, 0⟩
    rfl rfl rfl rfl
  exact ⟨T, hT, hS, hE, hr⟩

/-! ## The first qualifying line -/

theorem FindZipline_append (f : AActor → Bool) (pre post : List AActor) (L : AActor)
    (hpre : ∀ x ∈ pre, f x = false) (hL : f L = true) :
    FindZipline f (pre ++ L :: post) = some L := by
  induction pre with
  | nil => simp [FindZipline, hL]
  | cons c rest ih =>
    have hc : f c = false := hpre c (List.mem_cons_self c rest)
    have hrest : ∀ x ∈ rest, f x = false := fun x hx => hpre x (List.mem_cons_of_mem c hx)
    simp [FindZipline, hc, ih hrest]

/-- The tick reads the overlapping actors through the search loop only. -/
theorem SimulationTick_congr_overlapping (Mode : UZipliningMode) (Env : FMovingComponentSet)
    (Params : FSimulationTickParams) (C : USceneComponent) (O : FMoverTickEndData)
    (Overlapping : List AActor)
    (h : FindZipline Env.DoesImplementInterface Overlapping
      = FindZipline Env.DoesImplementInterface Env.GetOverlappingActors) :
    Mode.SimulationTick { Env with GetOverlappingActors := Overlapping } Params C O
      = Mode.SimulationTick Env Params C O := by
  unfold UZipliningMode.SimulationTick UZipliningMode.ResolveZipline
  simp only [h]
  rfl

/-- C18: on a fresh-entry tick whose overlapping actors are `pre ++ L :: post`,
with no zipline in `pre` and `L` a zipline with the ends `A` and `B`, the tick
returns with `L` and the chosen direction flag stored in the output block, the
mover is teleported to the selected end minus `UpDirection * BoxExtent.Z`, and
the result is the same for every other list `post2` of later candidates: they
are never looked at. -/
theorem fresh_entry_takes_first_zipline (Mode : UZipliningMode) (Env : FMovingComponentSet)
    (Params : FSimulationTickParams) (C : USceneComponent) (O : FMoverTickEndData)
    (pre post : List AActor) (L : AActor) (A B : FVector)
    (hfresh : Params.StartState.SyncState.ZipliningState = none)
    (hlist : Env.GetOverlappingActors = pre ++ L :: post)
    (hpre : ∀ x ∈ pre, Env.DoesImplementInterface x = false)
    (hLz : Env.DoesImplementInterface L = true)
    (hA : Env.GetStartComponent L = some A) (hB : Env.GetEndComponent L = some B) :
    ∃ r, Mode.SimulationTick Env Params C O = some r ∧
      r.1.SyncState.ZipliningState
        = some ⟨some L,
            decide (FVector.DistSquared A C.Location < FVector.DistSquared B C.Location)⟩ ∧
      (∃ rot tail, r.2.Events
        = C.Events ++ FMoveEvent.TeleportTo
            ((if FVector.DistSquared A C.Location < FVector.DistSquared B C.Location
                then A else B) - Env.GetUpDirection.scale Env.BoxExtent.Z) rot :: tail) ∧
      (∀ post2 : List AActor,
        Mode.SimulationTick { Env with GetOverlappingActors := pre ++ L :: post2 } Params C O
          = some r) := by
  have hfind : FindZipline Env.DoesImplementInterface Env.GetOverlappingActors = some L := by
    rw [hlist]
    exact FindZipline_append _ pre post L hpre hLz
  obtain ⟨T, hT, hS, -, -, hC, hZ, -⟩ := ResolveZipline_fresh Env Params C O L A B hfresh hfind hA hB
  obtain ⟨tail, htail⟩ := SlideAlongZipline_Events Mode Env Params.StepMs T.StartPoint T.EndPoint
    T.ZipDirection T.FlatFacingDir T.UpdatedComponent T.OutputState
  have htick := SimulationTick_of_target Mode Env Params C O T hT
  refine ⟨_, htick, ?_, ⟨T.FlatFacingDir.ToOrientationRotator, tail, ?_⟩, ?_⟩
  · rw [SlideAlongZipline_ZipliningState, hZ]
  · rw [htail, hC, hS]
    simp [USceneComponent.TeleportTo, FMovingComponentSet.ActorToZiplineOffset]
  · intro post2
    rw [SimulationTick_congr_overlapping Mode Env Params C O (pre ++ L :: post2), htick]
    rw [hfind]
    exact FindZipline_append _ pre post2 L hpre hLz

/-- C18 in the sample level: line `7` is met first and taken, whatever follows
it in the list (here actor `8`, or nothing). -/
theorem fresh_entry_takes_first_zipline_witness :
    ∃ r, UZipliningMode.Default.SimulationTick (Sample.Env [3, 7, 8]) (Sample.Params none 500)
        (Sample.Component ⟨10, 5, -90⟩) Sample.Output = some r ∧
      r.1.SyncState.ZipliningState = some ⟨some 7, true⟩ ∧
      UZipliningMode.Default.SimulationTick
        { Sample.Env [3, 7, 8] with GetOverlappingActors := [3] ++ 7 :: [] } (Sample.Params none 500)
        (Sample.Component ⟨10, 5, -90⟩) Sample.Output = some r := by
  obtain ⟨r, hr, hz, -, hpost⟩ := fresh_entry_takes_first_zipline UZipliningMode.Default
    (Sample.Env [3, 7, 8]) (Sample.Params none 500) (Sample.Component ⟨10, 5, -90⟩)
    Sample.Output [3] [8] 7 ⟨0, 0, 0⟩ ⟨1000, 0, 0⟩ rfl rfl (by decide) rfl rfl rfl
  refine ⟨r, hr, ?_, hpost []⟩
  rw [hz]
  have hlt : FVector.DistSquared ⟨0, 0, 0⟩ (Sample.Component ⟨10, 5, -90⟩).Location
      < FVector.DistSquared ⟨1000, 0, 0⟩ (Sample.Component ⟨10, 5, -90⟩).Location := by
    norm_num [FVector.DistSquared, Sample.Component]
  simp [hlt]

/-! ## The mode-switch outcome -/

/-- The branch on the start state ends without a target exactly on a fresh
entry that finds no zipline. -/
theorem ResolveZipline_inl_iff (Env : FMovingComponentSet) (Params : FSimulationTickParams)
    (C : USceneComponent) (O : FMoverTickEndData) :
    (∃ Output, UZipliningMode.ResolveZipline Env Params C O = some (Sum.inl Output)) ↔
      Params.StartState.SyncState.ZipliningState = none ∧
        FindZipline Env.DoesImplementInterface Env.GetOverlappingActors = none := by
  constructor
  · rintro ⟨Output, h⟩
    unfold UZipliningMode.ResolveZipline at h
    simp only at h
    split at h
    · rename_i hfresh
      split at h
      · rename_i hfind
        exact ⟨hfresh, hfind⟩
      · split at h <;> cases h
    · split at h
      · cases h
      · split at h <;> cases h
  · rintro ⟨hfresh, hfind⟩
    exact ⟨_, ResolveZipline_noTarget Env Params C O hfresh hfind⟩

/-- C20: the tick ends in one of three ways. On a fresh entry that finds no
zipline it returns with `NextModeName` set to the air mode and `RemainingMs`
set to `StepMs`. When it reaches the motion step (which excludes the first
case) it returns with `RemainingMs` as passed in, and with `NextModeName` set
to the air mode when the clamped step end is within the tolerance of the end
of the line and as passed in otherwise. When a check fails there is no output.
So `NextModeName` is written exactly in the first case and on reaching the end,
`RemainingMs` only in the first case. -/
theorem mode_switch_outcome_cases (Mode : UZipliningMode) (Env : FMovingComponentSet)
    (Params : FSimulationTickParams) (C : USceneComponent) (O : FMoverTickEndData) :
    (Params.StartState.SyncState.ZipliningState = none ∧
        FindZipline Env.DoesImplementInterface Env.GetOverlappingActors = none →
      ∃ r, Mode.SimulationTick Env Params C O = some r ∧
        r.1.MovementEndState = ⟨Params.StepMs, Env.DefaultAirMode⟩) ∧
    (∀ T, UZipliningMode.ResolveZipline Env Params C O = some (Sum.inr T) →
      ¬ (Params.StartState.SyncState.ZipliningState = none ∧
          FindZipline Env.DoesImplementInterface Env.GetOverlappingActors = none) ∧
      ∃ r, Mode.SimulationTick Env Params C O = some r ∧
        r.1.MovementEndState.RemainingMs = O.MovementEndState.RemainingMs ∧
        r.1.MovementEndState.NextModeName
          = (if Mode.bWillReachEndPosition
                (T.UpdatedComponent.Location + Env.ActorToZiplineOffset) T.ZipDirection
                (Params.StepMs * (1 / 1000)) T.StartPoint T.EndPoint
              then Env.DefaultAirMode else O.MovementEndState.NextModeName) ∧
        (Mode.bWillReachEndPosition
            (T.UpdatedComponent.Location + Env.ActorToZiplineOffset) T.ZipDirection
            (Params.StepMs * (1 / 1000)) T.StartPoint T.EndPoint = false →
          r.1.MovementEndState = O.MovementEndState)) ∧
    (UZipliningMode.ResolveZipline Env Params C O = none →
      Mode.SimulationTick Env Params C O = none) ∧
    ((Params.StartState.SyncState.ZipliningState = none ∧
        FindZipline Env.DoesImplementInterface Env.GetOverlappingActors = none) ∨
      (∃ T, UZipliningMode.ResolveZipline Env Params C O = some (Sum.inr T)) ∨
      UZipliningMode.ResolveZipline Env Params C O = none) := by
  refine ⟨?_, ?_, SimulationTick_of_fault Mode Env Params C O, ?_⟩
  · rintro ⟨hfresh, hfind⟩
    exact ⟨_, SimulationTick_of_noTarget Mode Env Params C O _
      (ResolveZipline_noTarget Env Params C O hfresh hfind), rfl⟩
  · intro T hT
    have hM := ResolveZipline_inr_MovementEndState Env Params C O T hT
    have hrem := SlideAlongZipline_RemainingMs Mode Env Params.StepMs T.StartPoint T.EndPoint
      T.ZipDirection T.FlatFacingDir T.UpdatedComponent T.OutputState
    have hnext := SlideAlongZipline_NextModeName Mode Env Params.StepMs T.StartPoint T.EndPoint
      T.ZipDirection T.FlatFacingDir T.UpdatedComponent T.OutputState
    rw [hM] at hrem hnext
    refine ⟨?_, _, SimulationTick_of_target Mode Env Params C O T hT, hrem, hnext, ?_⟩
    · intro hcase
      obtain ⟨Output, hOut⟩ := (ResolveZipline_inl_iff Env Params C O).mpr hcase
      rw [hOut] at hT
      cases hT
    · intro hreach
      rw [hreach] at hnext
      generalize (Mode.SlideAlongZipline Env Params.StepMs T.StartPoint T.EndPoint
        T.ZipDirection T.FlatFacingDir T.UpdatedComponent T.OutputState).1.MovementEndState = M
        at hrem hnext
      cases M
      cases hO : O.MovementEndState
      rw [hO] at hrem hnext
      simp only [Bool.false_eq_true, if_false] at hrem hnext
      rw [hrem, hnext]
  · cases hres : UZipliningMode.ResolveZipline Env Params C O with
    | none => exact Or.inr (Or.inr rfl)
    | some x =>
      cases x with
      | inl Output => exact Or.inl ((ResolveZipline_inl_iff Env Params C O).mp ⟨Output, hres⟩)
      | inr T => exact Or.inr (Or.inl ⟨T, rfl⟩)

/-- C20 in the sample level, with an output state handed over with
`RemainingMs = 0` and no next mode: a fresh entry without a line ends with
`(500, Falling)`, a step of 500 ms on the line ends with the outcome as passed
in. -/
theorem mode_switch_outcome_cases_witness :
    (∃ r, UZipliningMode.Default.SimulationTick (Sample.Env [3]) (Sample.Params none 500)
        (Sample.Component ⟨10, 5, -90⟩) Sample.Output = some r ∧
      r.1.MovementEndState = ⟨500, DefaultModeNames.Falling⟩) ∧
    (∃ r, UZipliningMode.Default.SimulationTick (Sample.Env [3, 7]) (Sample.Params none 500)
        (Sample.Component ⟨10, 5, -90⟩) Sample.Output = some r ∧
      r.1.MovementEndState = ⟨0, NAME_None⟩) := by
  constructor
  · exact (mode_switch_outcome_cases UZipliningMode.Default (Sample.Env [3])
      (Sample.Params none 500) (Sample.Component ⟨10, 5, -90⟩) Sample.Output).1 ⟨rfl, rfl⟩
  · obtain ⟨T, hT, hS, hE, hD, hC, -, -⟩ := Sample.resolve_fresh 500
    obtain ⟨-, r, hr, -, -, hkeep⟩ := (mode_switch_outcome_cases UZipliningMode.Default
      (Sample.Env [3, 7]) (Sample.Params none 500) (Sample.Component ⟨10, 5, -90⟩)
      Sample.Output).2.1 T hT
    refine ⟨r, hr, hkeep ?_⟩
    rw [hS, hE, hD, hC, Sample.offset]
    unfold UZipliningMode.bWillReachEndPosition
    have h := Sample.actualEndPos_half
    simp only [Sample.Params] at h ⊢
    rw [h]
    norm_num [FVector.IsNearlyZero, FVector.KINDA_SMALL_NUMBER]

/-! ## The closed form of the step -/

@[simp] theorem FVectorOver.X_add {K : Type} [LinearOrderedField K] (a b : FVectorOver K) :
    (a + b).X = a.X + b.X := rfl
@[simp] theorem FVectorOver.Y_add {K : Type} [LinearOrderedField K] (a b : FVectorOver K) :
    (a + b).Y = a.Y + b.Y := rfl
@[simp] theorem FVectorOver.Z_add {K : Type} [LinearOrderedField K] (a b : FVectorOver K) :
    (a + b).Z = a.Z + b.Z := rfl
@[simp] theorem FVectorOver.X_sub {K : Type} [LinearOrderedField K] (a b : FVectorOver K) :
    (a - b).X = a.X - b.X := rfl
@[simp] theorem FVectorOver.Y_sub {K : Type} [LinearOrderedField K] (a b : FVectorOver K) :
    (a - b).Y = a.Y - b.Y := rfl
@[simp] theorem FVectorOver.Z_sub {K : Type} [LinearOrderedField K] (a b : FVectorOver K) :
    (a - b).Z = a.Z - b.Z := rfl
@[simp] theorem FVectorOver.X_scale {K : Type} [LinearOrderedField K] (a : FVectorOver K)
    (k : K) : (a.scale k).X = a.X * k := rfl
@[simp] theorem FVectorOver.Y_scale {K : Type} [LinearOrderedField K] (a : FVectorOver K)
    (k : K) : (a.scale k).Y = a.Y * k := rfl
@[simp] theorem FVectorOver.Z_scale {K : Type} [LinearOrderedField K] (a : FVectorOver K)
    (k : K) : (a.scale k).Z = a.Z * k := rfl
@[simp] theorem FVector.Cast_X (K : Type) [LinearOrderedField K] (v : FVector) :
    (v.Cast K).X = (v.X : K) := rfl
@[simp] theorem FVector.Cast_Y (K : Type) [LinearOrderedField K] (v : FVector) :
    (v.Cast K).Y = (v.Y : K) := rfl
@[simp] theorem FVector.Cast_Z (K : Type) [LinearOrderedField K] (v : FVector) :
    (v.Cast K).Z = (v.Z : K) := rfl

theorem FVectorOver.ext_components {K : Type} {a b : FVectorOver K} (hx : a.X = b.X)
    (hy : a.Y = b.Y) (hz : a.Z = b.Z) : a = b := by
  cases a; cases b; simp_all

/-- Reading in `K` commutes with the vector operations. -/
theorem FVector.Cast_add (K : Type) [LinearOrderedField K] (a b : FVector) :
    (a + b).Cast K = a.Cast K + b.Cast K := by
  apply FVectorOver.ext_components <;> simp

theorem FVector.Cast_sub (K : Type) [LinearOrderedField K] (a b : FVector) :
    (a - b).Cast K = a.Cast K - b.Cast K := by
  apply FVectorOver.ext_components <;> simp

theorem FVector.Cast_scale (K : Type) [LinearOrderedField K] (a : FVector) (k : ℚ) :
    (a.scale k).Cast K = (a.Cast K).scale (k : K) := by
  apply FVectorOver.ext_components <;> simp

theorem FVector.Cast_dot (K : Type) [LinearOrderedField K] (a b : FVector) :
    ((a.dot b : ℚ) : K) = (a.Cast K).dot (b.Cast K) := by
  simp [FVector.dot, FVectorOver.dot]

theorem FVector.Cast_DistSquared (K : Type) [LinearOrderedField K] (a b : FVector) :
    ((FVector.DistSquared a b : ℚ) : K) = FVectorOver.DistSquared (a.Cast K) (b.Cast K) := by
  simp [FVector.DistSquared, FVectorOver.DistSquared]

/-- Reading in `K` loses nothing: vectors with the same reading are equal. -/
theorem FVector.Cast_injective (K : Type) [LinearOrderedField K] (a b : FVector)
    (h : a.Cast K = b.Cast K) : a = b := by
  apply FVector.eq_of_components
  · exact Rat.cast_injective (congrArg FVectorOver.X h)
  · exact Rat.cast_injective (congrArg FVectorOver.Y h)
  · exact Rat.cast_injective (congrArg FVectorOver.Z h)

/-- The segment clamp of the rational model, read in `K`, is the segment clamp
over `K` of the readings. -/
theorem FVector.Cast_ClosestPointOnSegment (K : Type) [LinearOrderedField K]
    (P A B : FVector) :
    (FVector.ClosestPointOnSegment P A B).Cast K
      = FVectorOver.ClosestPointOnSegment (P.Cast K) (A.Cast K) (B.Cast K) := by
  unfold FVector.ClosestPointOnSegment FVectorOver.ClosestPointOnSegment
  simp only [← FVector.Cast_sub, ← FVector.Cast_dot]
  by_cases h1 : (P - A).dot (B - A) ≤ 0
  · have h1c : (((P - A).dot (B - A) : ℚ) : K) ≤ 0 := by exact_mod_cast h1
    rw [if_pos h1, if_pos h1c]
  · have h1c : ¬ (((P - A).dot (B - A) : ℚ) : K) ≤ 0 := by exact_mod_cast h1
    rw [if_neg h1, if_neg h1c]
    by_cases h2 : (B - A).dot (B - A) ≤ (P - A).dot (B - A)
    · have h2c : (((B - A).dot (B - A) : ℚ) : K) ≤ (((P - A).dot (B - A) : ℚ) : K) := by
        exact_mod_cast h2
      rw [if_pos h2, if_pos h2c]
    · have h2c : ¬ (((B - A).dot (B - A) : ℚ) : K) ≤ (((P - A).dot (B - A) : ℚ) : K) := by
        exact_mod_cast h2
      rw [if_neg h2, if_neg h2c, FVector.Cast_add, FVector.Cast_scale, FVector.Cast_sub]
      push_cast
      rfl

/-- The clamped step end of the rational model, read in `K`, is the clamped step
end over `K` of the readings of its inputs. -/
theorem UZipliningMode.Cast_ActualEndPos (K : Type) [LinearOrderedField K]
    (Mode : UZipliningMode) (P D : FVector) (dt : ℚ) (S E : FVector) :
    (Mode.ActualEndPos P D dt S E).Cast K
      = (Mode.Cast K).ActualEndPos (P.Cast K) (D.Cast K) (dt : K) (S.Cast K) (E.Cast K) := by
  unfold UZipliningMode.ActualEndPos UZipliningModeOver.ActualEndPos
    UZipliningMode.DesiredEndPos UZipliningModeOver.DesiredEndPos
  rw [FVector.Cast_ClosestPointOnSegment, FVector.Cast_add, FVector.Cast_scale,
    FVector.Cast_scale]
  rfl

/-- The test on the reached end of the rational model is the test over `K` on
the readings of its inputs. -/
theorem UZipliningMode.Cast_bWillReachEndPosition (K : Type) [LinearOrderedField K]
    (Mode : UZipliningMode) (P D : FVector) (dt : ℚ) (S E : FVector) :
    Mode.bWillReachEndPosition P D dt S E
      = (Mode.Cast K).bWillReachEndPosition (P.Cast K) (D.Cast K) (dt : K) (S.Cast K)
          (E.Cast K) := by
  unfold UZipliningMode.bWillReachEndPosition UZipliningModeOver.bWillReachEndPosition
  rw [← UZipliningMode.Cast_ActualEndPos, ← FVector.Cast_sub]
  generalize Mode.ActualEndPos P D dt S E - E = v
  unfold FVector.IsNearlyZero FVectorOver.IsNearlyZero FVector.KINDA_SMALL_NUMBER
    FVectorOver.KINDA_SMALL_NUMBER
  have hc : ∀ q : ℚ, decide (|q| ≤ 1 / 10000) = decide (|(q : K)| ≤ 1 / 10000) := by
    intro q
    have : (|(q : K)| ≤ 1 / 10000) ↔ (|q| ≤ 1 / 10000) := by
      rw [← Rat.cast_abs]
      have h : ((1 / 10000 : ℚ) : K) = 1 / 10000 := by push_cast; rfl
      rw [← h, Rat.cast_le]
    simp only [this]
  simp only [FVector.Cast_X, FVector.Cast_Y, FVector.Cast_Z, hc]

/-- With an exact inverse square root, `GetSafeNormal` of a vector of length
`len` whose squared length is not below the tolerance is the vector scaled by
`1 / len`. -/
theorem FVectorOver.GetSafeNormal_of_length {K : Type} [LinearOrderedField K]
    (InvSqrt : K → K) (v : FVectorOver K) (len : K)
    (hlen : 0 < len) (hlen2 : len * len = v.X * v.X + v.Y * v.Y + v.Z * v.Z)
    (htol : FVectorOver.SMALL_NUMBER K ≤ len * len) (hinv : InvSqrt (len * len) = 1 / len) :
    v.GetSafeNormal InvSqrt = v.scale (1 / len) := by
  unfold FVectorOver.GetSafeNormal
  simp only [← hlen2]
  by_cases h1 : len * len = 1
  · have hl : len = 1 := by nlinarith
    rw [if_pos h1, hl]
    apply FVectorOver.ext_components <;> simp
  · rw [if_neg h1, if_neg (not_lt.mpr htol), hinv]

/-- The scalar form of the clamp: for a step start at the fraction `t` of the
line and a direction of unit length, the clamped end is at the fraction
`min (t + MaxSpeed * dt / len) 1`. -/
theorem UZipliningModeOver.ActualEndPos_fraction {K : Type} [LinearOrderedField K]
    (Mode : UZipliningModeOver K) (S E : FVectorOver K) (dt len t : K)
    (hlen : 0 < len) (hlen2 : len * len = FVectorOver.DistSquared S E)
    (ht0 : 0 ≤ t) (hspeed : 0 ≤ Mode.MaxSpeed) (hdt : 0 ≤ dt) :
    Mode.ActualEndPos (S + (E - S).scale t) ((E - S).scale (1 / len)) dt S E
      = S + (E - S).scale (min (t + Mode.MaxSpeed * dt / len) 1) := by
  have hq : len * len = (E.X - S.X) * (E.X - S.X) + (E.Y - S.Y) * (E.Y - S.Y)
      + (E.Z - S.Z) * (E.Z - S.Z) := hlen2
  have hlen0 : len ≠ 0 := ne_of_gt hlen
  have hk : 0 ≤ Mode.MaxSpeed * dt / len := div_nonneg (mul_nonneg hspeed hdt) (le_of_lt hlen)
  have hqpos : 0 < len * len := mul_pos hlen hlen
  have hDot1 : (((S + (E - S).scale t) + (((E - S).scale (1 / len)).scale Mode.MaxSpeed).scale dt)
      - S).dot (E - S) = len * len * (t + Mode.MaxSpeed * dt / len) := by
    simp only [FVectorOver.dot, FVectorOver.X_add, FVectorOver.Y_add, FVectorOver.Z_add,
      FVectorOver.X_sub, FVectorOver.Y_sub, FVectorOver.Z_sub, FVectorOver.X_scale,
      FVectorOver.Y_scale, FVectorOver.Z_scale]
    rw [hq]
    field_simp
    ring
  have hDot2 : (E - S).dot (E - S) = len * len := by
    simp only [FVectorOver.dot, FVectorOver.X_sub, FVectorOver.Y_sub, FVectorOver.Z_sub]
    rw [hq]
  unfold UZipliningModeOver.ActualEndPos UZipliningModeOver.DesiredEndPos
    FVectorOver.ClosestPointOnSegment
  simp only [hDot1, hDot2]
  by_cases h1 : len * len * (t + Mode.MaxSpeed * dt / len) ≤ 0
  · rw [if_pos h1]
    have hz : t + Mode.MaxSpeed * dt / len = 0 := by
      have : t + Mode.MaxSpeed * dt / len ≤ 0 := by
        by_contra hcon
        exact absurd h1 (not_le.mpr (mul_pos hqpos (not_le.mp hcon)))
      linarith
    rw [hz, min_eq_left (by norm_num : (0 : K) ≤ 1)]
    apply FVectorOver.ext_components <;> simp
  · rw [if_neg h1]
    by_cases h2 : len * len ≤ len * len * (t + Mode.MaxSpeed * dt / len)
    · rw [if_pos h2]
      have hge : 1 ≤ t + Mode.MaxSpeed * dt / len := by
        by_contra hcon
        have := mul_lt_mul_of_pos_left (not_le.mp hcon) hqpos
        linarith
      rw [min_eq_right hge]
      apply FVectorOver.ext_components <;> simp
    · rw [if_neg h2]
      have hlt : t + Mode.MaxSpeed * dt / len < 1 := by
        by_contra hcon
        apply h2
        have := mul_le_mul_of_nonneg_left (not_lt.mp hcon) (le_of_lt hqpos)
        linarith
      rw [min_eq_left (le_of_lt hlt)]
      have hfrac : len * len * (t + Mode.MaxSpeed * dt / len) / (len * len)
          = t + Mode.MaxSpeed * dt / len := by
        field_simp
        ring
      rw [hfrac]

/-- The closed form of the clamped step over an ordered field in which the line
from `S` to `E` has the length `len > 0` and the step start has the distance
`dist` to `E`: with the unit vector `D` from `S` to `E` and a step start on the
segment, the clamped step end is `StepStart + D * min (MaxSpeed * dt) dist`, it
is not farther from `E` than the step start, it is `E` exactly when
`dist ≤ MaxSpeed * dt`, and then `bWillReachEndPosition` holds. -/
theorem UZipliningModeOver.ActualEndPos_closed_form {K : Type} [LinearOrderedField K]
    (Mode : UZipliningModeOver K) (S E StepStart D : FVectorOver K) (dt len dist t : K)
    (hlen : 0 < len) (hlen2 : len * len = FVectorOver.DistSquared S E)
    (hD : D = (E - S).scale (1 / len))
    (ht0 : 0 ≤ t) (ht1 : t ≤ 1) (hStart : StepStart = S + (E - S).scale t)
    (hdist0 : 0 ≤ dist) (hdist2 : dist * dist = FVectorOver.DistSquared StepStart E)
    (hspeed : 0 ≤ Mode.MaxSpeed) (hdt : 0 ≤ dt) :
    Mode.ActualEndPos StepStart D dt S E
        = StepStart + D.scale (min (Mode.MaxSpeed * dt) dist) ∧
      FVectorOver.DistSquared (Mode.ActualEndPos StepStart D dt S E) E
        ≤ FVectorOver.DistSquared StepStart E ∧
      (Mode.ActualEndPos StepStart D dt S E = E ↔ dist ≤ Mode.MaxSpeed * dt) ∧
      (dist ≤ Mode.MaxSpeed * dt → Mode.bWillReachEndPosition StepStart D dt S E = true) := by
  have hq : len * len = (E.X - S.X) * (E.X - S.X) + (E.Y - S.Y) * (E.Y - S.Y)
      + (E.Z - S.Z) * (E.Z - S.Z) := hlen2
  have hlen0 : len ≠ 0 := ne_of_gt hlen
  have hqpos : 0 < len * len := mul_pos hlen hlen
  have hk : 0 ≤ Mode.MaxSpeed * dt / len := div_nonneg (mul_nonneg hspeed hdt) (le_of_lt hlen)
  -- the distance from the step start to the end
  have hdist : dist = (1 - t) * len := by
    have h1 : dist * dist = ((1 - t) * len) * ((1 - t) * len) := by
      rw [hdist2, hStart]
      simp only [FVectorOver.DistSquared, FVectorOver.X_add, FVectorOver.Y_add,
        FVectorOver.Z_add, FVectorOver.X_sub, FVectorOver.Y_sub, FVectorOver.Z_sub,
        FVectorOver.X_scale, FVectorOver.Y_scale, FVectorOver.Z_scale]
      linear_combination (-(1 - t) ^ 2) * hq
    have hx : 0 ≤ (1 - t) * len := mul_nonneg (by linarith) (le_of_lt hlen)
    rcases mul_self_eq_mul_self_iff.mp h1 with h | h
    · exact h
    · linarith
  have hA := UZipliningModeOver.ActualEndPos_fraction Mode S E dt len t hlen hlen2 ht0 hspeed hdt
  rw [← hStart, ← hD] at hA
  -- the fraction reached, in terms of the distance travelled
  have hmin : min (t + Mode.MaxSpeed * dt / len) 1
      = t + min (Mode.MaxSpeed * dt) dist / len := by
    rcases le_total (Mode.MaxSpeed * dt) dist with h | h
    · rw [min_eq_left h]
      apply min_eq_left
      rw [hdist] at h
      have : Mode.MaxSpeed * dt / len ≤ 1 - t := by
        rw [div_le_iff₀ hlen]; exact h
      linarith
    · rw [min_eq_right h, hdist]
      have h1 : (1 - t) * len / len = 1 - t := by field_simp
      rw [h1]
      have : 1 - t ≤ Mode.MaxSpeed * dt / len := by
        rw [le_div_iff₀ hlen]; rw [hdist] at h; exact h
      rw [min_eq_right (by linarith)]
      ring
  have hf0 : t ≤ min (t + Mode.MaxSpeed * dt / len) 1 := le_min (by linarith) ht1
  have hf1 : min (t + Mode.MaxSpeed * dt / len) 1 ≤ 1 := min_le_right _ _
  have hrem : FVectorOver.DistSquared (Mode.ActualEndPos StepStart D dt S E) E
      = (1 - min (t + Mode.MaxSpeed * dt / len) 1) ^ 2 * (len * len) := by
    rw [hA, hq]
    simp only [FVectorOver.DistSquared, FVectorOver.X_add, FVectorOver.Y_add,
      FVectorOver.Z_add, FVectorOver.X_sub, FVectorOver.Y_sub, FVectorOver.Z_sub,
      FVectorOver.X_scale, FVectorOver.Y_scale, FVectorOver.Z_scale]
    ring
  have hiff : Mode.ActualEndPos StepStart D dt S E = E ↔ dist ≤ Mode.MaxSpeed * dt := by
    constructor
    · intro hEq
      have h0 : FVectorOver.DistSquared (Mode.ActualEndPos StepStart D dt S E) E = 0 := by
        rw [hEq]; simp [FVectorOver.DistSquared]
      rw [hrem] at h0
      have hsq : (1 - min (t + Mode.MaxSpeed * dt / len) 1) ^ 2 = 0 := by
        rcases mul_eq_zero.mp h0 with h | h
        · exact h
        · exact absurd h (ne_of_gt hqpos)
      have hone : min (t + Mode.MaxSpeed * dt / len) 1 = 1 := by
        have := pow_eq_zero_iff (two_ne_zero) |>.mp hsq
        linarith
      have hge : 1 ≤ t + Mode.MaxSpeed * dt / len := by
        rw [← hone]; exact min_le_left _ _
      rw [hdist]
      have : 1 - t ≤ Mode.MaxSpeed * dt / len := by linarith
      rwa [le_div_iff₀ hlen] at this
    · intro hle
      have hge : 1 ≤ t + Mode.MaxSpeed * dt / len := by
        have : 1 - t ≤ Mode.MaxSpeed * dt / len := by
          rw [le_div_iff₀ hlen]; rw [hdist] at hle; exact hle
        linarith
      rw [hA, min_eq_right hge]
      apply FVectorOver.ext_components <;> simp
  refine ⟨?_, ?_, hiff, ?_⟩
  · rw [hA, hmin, hStart, hD]
    apply FVectorOver.ext_components <;>
      simp only [FVectorOver.X_add, FVectorOver.Y_add, FVectorOver.Z_add, FVectorOver.X_sub,
        FVectorOver.Y_sub, FVectorOver.Z_sub, FVectorOver.X_scale, FVectorOver.Y_scale,
        FVectorOver.Z_scale] <;>
      field_simp <;> ring
  · rw [hrem]
    have hstart2 : FVectorOver.DistSquared StepStart E = (1 - t) ^ 2 * (len * len) := by
      rw [hStart, hq]
      simp only [FVectorOver.DistSquared, FVectorOver.X_add, FVectorOver.Y_add,
        FVectorOver.Z_add, FVectorOver.X_sub, FVectorOver.Y_sub, FVectorOver.Z_sub,
        FVectorOver.X_scale, FVectorOver.Y_scale, FVectorOver.Z_scale]
      ring
    rw [hstart2]
    apply mul_le_mul_of_nonneg_right _ (le_of_lt hqpos)
    apply pow_le_pow_left₀ (by linarith) (by linarith)
  · intro hle
    unfold UZipliningModeOver.bWillReachEndPosition
    rw [hiff.mpr hle]
    norm_num [FVectorOver.IsNearlyZero, FVectorOver.KINDA_SMALL_NUMBER]

/-- Two different points have a positive squared distance. -/
theorem FVectorOver.DistSquared_pos {K : Type} [LinearOrderedField K] (S E : FVectorOver K)
    (hSE : S ≠ E) : 0 < FVectorOver.DistSquared S E := by
  have h0 : 0 ≤ FVectorOver.DistSquared S E := by
    unfold FVectorOver.DistSquared
    nlinarith [mul_self_nonneg (E.X - S.X), mul_self_nonneg (E.Y - S.Y),
      mul_self_nonneg (E.Z - S.Z)]
  rcases lt_or_eq_of_le h0 with h | h
  · exact h
  · exfalso
    apply hSE
    unfold FVectorOver.DistSquared at h
    have hx : (E.X - S.X) * (E.X - S.X) = 0 := by
      nlinarith [mul_self_nonneg (E.X - S.X), mul_self_nonneg (E.Y - S.Y),
        mul_self_nonneg (E.Z - S.Z)]
    have hy : (E.Y - S.Y) * (E.Y - S.Y) = 0 := by
      nlinarith [mul_self_nonneg (E.X - S.X), mul_self_nonneg (E.Y - S.Y),
        mul_self_nonneg (E.Z - S.Z)]
    have hz : (E.Z - S.Z) * (E.Z - S.Z) = 0 := by
      nlinarith [mul_self_nonneg (E.X - S.X), mul_self_nonneg (E.Y - S.Y),
        mul_self_nonneg (E.Z - S.Z)]
    apply FVectorOver.ext_components
    · have := mul_self_eq_zero.mp hx; linarith
    · have := mul_self_eq_zero.mp hy; linarith
    · have := mul_self_eq_zero.mp hz; linarith
/-- What `OnProduceInput` of a possessed character does with the jump flags and
the fly toggle: the block carries the two jump flags of the character and the
suggested mode of a pending toggle; afterwards the one-shot flags are cleared
and `bIsJumpPressed` is as before. -/
theorem OnProduceInput_flags (c : AMoverExamplesCharacter) (Ctx : FProduceInputContext)
    (In : Option FCharacterDefaultInputsBlock) (hctl : Ctx.bHasController = true) :
    (c.OnProduceInput Ctx In).2.bIsJumpJustPressed = c.bIsJumpJustPressed ∧
      (c.OnProduceInput Ctx In).2.bIsJumpPressed = c.bIsJumpPressed ∧
      (c.OnProduceInput Ctx In).2.SuggestedMovementMode
        = (if c.bShouldToggleFlying then
            if !c.bIsFlyingActive then DefaultModeNames.Flying else DefaultModeNames.Falling
          else NAME_None) ∧
      (c.OnProduceInput Ctx In).1.bIsJumpJustPressed = false ∧
      (c.OnProduceInput Ctx In).1.bIsJumpPressed = c.bIsJumpPressed ∧
      (c.OnProduceInput Ctx In).1.bShouldToggleFlying = false := by
  unfold AMoverExamplesCharacter.OnProduceInput
  simp only [hctl, Bool.not_true, Bool.false_eq_true, if_false]
  refine ⟨?_, ?_, ?_, ?_⟩
  all_goals first | trivial | rfl | (split <;> rfl)

/-- An event that is no jump event keeps the jump flags, except that an input
production clears `bIsJumpJustPressed`. -/
theorem Handle_keeps_bIsJumpPressed (c : AMoverExamplesCharacter) (e : FCharacterEvent)
    (he : e.IsJumpEvent = false) :
    (c.Handle e).1.bIsJumpPressed = c.bIsJumpPressed ∧
      ((c.Handle e).2 = none → (c.Handle e).1.bIsJumpJustPressed = c.bIsJumpJustPressed) := by
  cases e with
  | JumpStarted => cases he
  | JumpReleased => cases he
  | ProduceInput Ctx In =>
    refine ⟨?_, fun h => by cases h⟩
    unfold AMoverExamplesCharacter.Handle AMoverExamplesCharacter.OnProduceInput
    simp only
    split
    · split <;> rfl
    · rfl
  | _ => exact ⟨rfl, fun _ => rfl⟩

/-- An event that is no fly toggle keeps `bShouldToggleFlying`, except that an
input production clears it. -/
theorem Handle_keeps_bShouldToggleFlying (c : AMoverExamplesCharacter) (e : FCharacterEvent)
    (he : e.IsFlyEvent = false) (hnone : (c.Handle e).2 = none) :
    (c.Handle e).1.bShouldToggleFlying = c.bShouldToggleFlying := by
  cases e with
  | FlyTriggered => cases he
  | ProduceInput Ctx In => cases hnone
  | _ => rfl

/-- Without a jump event, the first block produced carries the jump flags of
the character and every later block carries `bIsJumpPressed` without
`bIsJumpJustPressed`. -/
theorem Run_jump_flags (es : List FCharacterEvent) :
    ∀ c : AMoverExamplesCharacter,
      (∀ e ∈ es, e.IsJumpEvent = false ∧ e.IsPossessed = true) →
      ∀ first rest, (c.Run es).2 = first :: rest →
        (first.bIsJumpJustPressed = c.bIsJumpJustPressed ∧
          first.bIsJumpPressed = c.bIsJumpPressed) ∧
        ∀ b ∈ rest, b.bIsJumpJustPressed = false ∧ b.bIsJumpPressed = c.bIsJumpPressed := by
  induction es with
  | nil =>
    intro c _ first rest h
    simp [AMoverExamplesCharacter.Run] at h
  | cons e es ih =>
    intro c hes first rest h
    have he := hes e (List.mem_cons_self e es)
    have hrest : ∀ x ∈ es, x.IsJumpEvent = false ∧ x.IsPossessed = true :=
      fun x hx => hes x (List.mem_cons_of_mem e hx)
    have hkeep := Handle_keeps_bIsJumpPressed c e he.1
    unfold AMoverExamplesCharacter.Run at h
    simp only at h
    cases hh : (c.Handle e).2 with
    | none =>
      rw [hh] at h
      simp only at h
      have := ih (c.Handle e).1 hrest first rest h
      rw [hkeep.1, hkeep.2 hh] at this
      exact this
    | some b =>
      rw [hh] at h
      simp only [List.cons.injEq] at h
      obtain ⟨hb, hrun⟩ := h
      -- the event is an input production
      cases e with
      | ProduceInput Ctx In =>
        have hctl : Ctx.bHasController = true := he.2
        have hf := OnProduceInput_flags c Ctx In hctl
        have hb2 : b = (c.OnProduceInput Ctx In).2 := by
          simp only [AMoverExamplesCharacter.Handle, Option.some.injEq] at hh
          exact hh.symm
        have hc1 : (c.Handle (FCharacterEvent.ProduceInput Ctx In)).1
            = (c.OnProduceInput Ctx In).1 := rfl
        refine ⟨?_, ?_⟩
        · rw [← hb, hb2]; exact ⟨hf.1, hf.2.1⟩
        · intro x hx
          rw [hc1] at hrun
          cases hr : ((c.OnProduceInput Ctx In).1.Run es).2 with
          | nil => rw [hr] at hrun; rw [← hrun] at hx; cases hx
          | cons f r =>
            have := ih (c.OnProduceInput Ctx In).1 hrest f r hr
            rw [hf.2.2.2.1, hf.2.2.2.2.1] at this
            rw [hr] at hrun
            rw [← hrun] at hx
            rcases List.mem_cons.mp hx with rfl | hx
            · exact this.1
            · exact this.2 x hx
      | _ => simp [AMoverExamplesCharacter.Handle] at hh

/-- Without a fly toggle, the first block produced carries the suggestion of a
pending toggle (none without one) and every later block carries no
suggestion. -/
theorem Run_fly_suggestion (es : List FCharacterEvent) :
    ∀ c : AMoverExamplesCharacter,
      (∀ e ∈ es, e.IsFlyEvent = false ∧ e.IsPossessed = true) →
      ∀ first rest, (c.Run es).2 = first :: rest →
        first.SuggestedMovementMode
          = (if c.bShouldToggleFlying then
              if !c.bIsFlyingActive then DefaultModeNames.Flying else DefaultModeNames.Falling
            else NAME_None) ∧
        ∀ b ∈ rest, b.SuggestedMovementMode = NAME_None := by
  induction es with
  | nil =>
    intro c _ first rest h
    simp [AMoverExamplesCharacter.Run] at h
  | cons e es ih =>
    intro c hes first rest h
    have he := hes e (List.mem_cons_self e es)
    have hrest : ∀ x ∈ es, x.IsFlyEvent = false ∧ x.IsPossessed = true :=
      fun x hx => hes x (List.mem_cons_of_mem e hx)
    unfold AMoverExamplesCharacter.Run at h
    simp only at h
    cases hh : (c.Handle e).2 with
    | none =>
      rw [hh] at h
      simp only at h
      have hflag := Handle_keeps_bShouldToggleFlying c e he.1 hh
      have hactive : (c.Handle e).1.bIsFlyingActive = c.bIsFlyingActive := by
        cases e with
        | ProduceInput Ctx In => cases hh
        | _ => rfl
      have := ih (c.Handle e).1 hrest first rest h
      rw [hflag, hactive] at this
      exact this
    | some b =>
      rw [hh] at h
      simp only [List.cons.injEq] at h
      obtain ⟨hb, hrun⟩ := h
      cases e with
      | ProduceInput Ctx In =>
        have hctl : Ctx.bHasController = true := he.2
        have hf := OnProduceInput_flags c Ctx In hctl
        have hb2 : b = (c.OnProduceInput Ctx In).2 := by
          simp only [AMoverExamplesCharacter.Handle, Option.some.injEq] at hh
          exact hh.symm
        have hc1 : (c.Handle (FCharacterEvent.ProduceInput Ctx In)).1
            = (c.OnProduceInput Ctx In).1 := rfl
        refine ⟨?_, ?_⟩
        · rw [← hb, hb2]; exact hf.2.2.1
        · intro x hx
          rw [hc1] at hrun
          cases hr : ((c.OnProduceInput Ctx In).1.Run es).2 with
          | nil => rw [hr] at hrun; rw [← hrun] at hx; cases hx
          | cons f r =>
            have := ih (c.OnProduceInput Ctx In).1 hrest f r hr
            rw [hf.2.2.2.2.2] at this
            simp only [Bool.false_eq_true, if_false] at this
            rw [hr] at hrun
            rw [← hrun] at hx
            rcases List.mem_cons.mp hx with rfl | hx
            · exact this.1
            · exact this.2 x hx
      | _ => simp [AMoverExamplesCharacter.Handle] at hh

/-- C15: for a possessed character. After `OnJumpStarted` from the released
state and any events other than jump events, the first input produced has
`bIsJumpJustPressed` and `bIsJumpPressed` both true, and every later one has
`bIsJumpJustPressed = false` and `bIsJumpPressed = true`; after the following
`OnJumpReleased` every input produced has both flags false. After
`OnFlyTriggered` and any events other than fly toggles, the first input
produced has a `SuggestedMovementMode` other than `NAME_None` and every later
one has `NAME_None`. -/
theorem one_shot_inputs_emitted_once (c : AMoverExamplesCharacter)
    (held released fly : List FCharacterEvent)
    (hreleased : c.bIsJumpPressed = false)
    (hheld : ∀ e ∈ held, e.IsJumpEvent = false ∧ e.IsPossessed = true)
    (hrel : ∀ e ∈ released, e.IsJumpEvent = false ∧ e.IsPossessed = true)
    (hfly : ∀ e ∈ fly, e.IsFlyEvent = false ∧ e.IsPossessed = true) :
    (∀ first rest, (c.OnJumpStarted.Run held).2 = first :: rest →
      (first.bIsJumpJustPressed = true ∧ first.bIsJumpPressed = true) ∧
      ∀ b ∈ rest, b.bIsJumpJustPressed = false ∧ b.bIsJumpPressed = true) ∧
    (∀ b ∈ ((c.OnJumpStarted.Run held).1.OnJumpReleased.Run released).2,
      b.bIsJumpJustPressed = false ∧ b.bIsJumpPressed = false) ∧
    (∀ first rest, (c.OnFlyTriggered.Run fly).2 = first :: rest →
      first.SuggestedMovementMode ≠ NAME_None ∧
      ∀ b ∈ rest, b.SuggestedMovementMode = NAME_None) := by
  refine ⟨?_, ?_, ?_⟩
  · intro first rest h
    have := Run_jump_flags held c.OnJumpStarted hheld first rest h
    simpa [AMoverExamplesCharacter.OnJumpStarted, hreleased] using this
  · intro b hb
    cases hr : ((c.OnJumpStarted.Run held).1.OnJumpReleased.Run released).2 with
    | nil => rw [hr] at hb; cases hb
    | cons f r =>
      have := Run_jump_flags released (c.OnJumpStarted.Run held).1.OnJumpReleased hrel f r hr
      rw [hr] at hb
      rcases List.mem_cons.mp hb with rfl | hb
      · exact this.1
      · exact this.2 b hb
  · intro first rest h
    have := Run_fly_suggestion fly c.OnFlyTriggered hfly first rest h
    refine ⟨?_, this.2⟩
    rw [this.1]
    simp only [AMoverExamplesCharacter.OnFlyTriggered, if_true]
    split <;> decide

/-- C15 for a fresh character: of three frames after a jump start the first
gets the edge and all get the held flag; of two frames after a fly toggle only
the first gets a suggested mode. -/
theorem one_shot_inputs_emitted_once_witness :
    (∃ b1 b2 b3, (AMoverExamplesCharacter.Default.OnJumpStarted.Run Sample.Events).2
        = [b1, b2, b3] ∧
      (b1.bIsJumpJustPressed = true ∧ b1.bIsJumpPressed = true) ∧
      (b2.bIsJumpJustPressed = false ∧ b2.bIsJumpPressed = true) ∧
      (b3.bIsJumpJustPressed = false ∧ b3.bIsJumpPressed = true)) ∧
    (∃ f1 f2, (AMoverExamplesCharacter.Default.OnFlyTriggered.Run Sample.FramesWithoutFly).2
        = [f1, f2] ∧
      f1.SuggestedMovementMode ≠ NAME_None ∧ f2.SuggestedMovementMode = NAME_None) := by
  have h := one_shot_inputs_emitted_once AMoverExamplesCharacter.Default Sample.Events []
    Sample.FramesWithoutFly rfl
    (by intro e he; simp only [Sample.Events, List.mem_cons, List.mem_singleton,
          List.mem_nil_iff, or_false] at he
        rcases he with rfl | rfl | rfl | rfl <;> exact ⟨rfl, rfl⟩)
    (by intro e he; cases he)
    (by intro e he; simp only [Sample.FramesWithoutFly, List.mem_cons, List.mem_singleton,
          List.mem_nil_iff, or_false] at he
        rcases he with rfl | rfl | rfl <;> exact ⟨rfl, rfl⟩)
  obtain ⟨hj, -, hf⟩ := h
  constructor
  · have hj1 := hj _ _ (rfl : (AMoverExamplesCharacter.Default.OnJumpStarted.Run Sample.Events).2
      = _ :: [_, _])
    exact ⟨_, _, _, rfl, hj1.1, hj1.2 _ (List.mem_cons_self _ _),
      hj1.2 _ (List.mem_cons_of_mem _ (List.mem_cons_self _ _))⟩
  · have hf1 := hf _ _ (rfl :
      (AMoverExamplesCharacter.Default.OnFlyTriggered.Run Sample.FramesWithoutFly).2 = _ :: [_])
    exact ⟨_, _, rfl, hf1.1, hf1.2 _ (List.mem_cons_self _ _)⟩

/-! ## The block left by the no-target fallback -/

/-- C21: on a fresh-entry tick with no overlapping zipline, the tick returns
with an `FZipliningState` block in the output sync state although the start
state has none: the block found in the output state passed in, or a default
constructed one when there was none. In the second case, where the block is
added by the tick, its `ZiplineActor` is null and its `bIsMovingAtoB` is the
default `true`. -/
theorem no_target_fallback_leaves_default_block (Mode : UZipliningMode)
    (Env : FMovingComponentSet) (Params : FSimulationTickParams) (C : USceneComponent)
    (O : FMoverTickEndData)
    (hfresh : Params.StartState.SyncState.ZipliningState = none)
    (hnone : ∀ a ∈ Env.GetOverlappingActors, Env.DoesImplementInterface a = false) :
    ∃ Out, Mode.SimulationTick Env Params C O = some (Out, C) ∧
      Out.SyncState.ZipliningState
        = some (O.SyncState.ZipliningState.getD FZipliningState.Default) ∧
      Out.SyncState.ZipliningState ≠ Params.StartState.SyncState.ZipliningState ∧
      (O.SyncState.ZipliningState = none →
        Out.SyncState.ZipliningState = some ⟨none, true⟩ ∧
        ∃ Block, Out.SyncState.ZipliningState = some Block ∧
          Block.ZiplineActor = none ∧ Block.bIsMovingAtoB = true) := by
  have hfind := (FindZipline_eq_none_iff Env.DoesImplementInterface Env.GetOverlappingActors).mpr hnone
  have hres := ResolveZipline_noTarget Env Params C O hfresh hfind
  refine ⟨_, SimulationTick_of_noTarget Mode Env Params C O _ hres, rfl, ?_, ?_⟩
  · rw [hfresh]
    intro h
    cases h
  · intro hO
    simp only [hO, Option.getD_none]
    exact ⟨rfl, _, rfl, rfl, rfl⟩

/-- C21 in the sample level with only actor `3` overlapping and an output state
without the block. -/
theorem no_target_fallback_leaves_default_block_witness :
    ∃ Out, UZipliningMode.Default.SimulationTick (Sample.Env [3]) (Sample.Params none 500)
        (Sample.Component ⟨10, 5, -90⟩) Sample.Output = some (Out, Sample.Component ⟨10, 5, -90⟩) ∧
      Out.SyncState.ZipliningState = some ⟨none, true⟩ := by
  obtain ⟨Out, hOut, -, -, hblock⟩ := no_target_fallback_leaves_default_block
    UZipliningMode.Default (Sample.Env [3]) (Sample.Params none 500)
    (Sample.Component ⟨10, 5, -90⟩) Sample.Output rfl (by decide)
  exact ⟨Out, hOut, (hblock rfl).1⟩

/-! ## Interpolation -/

/-- C22: `Interpolate` does not blend. For every state it is called on, every
`From`, every `To` and every `Pct`, the state after the call has the line and
the flag of `To`; it is the same for any other `From`, `Pct` and previous
state, also for `Pct = 0`; and `ShouldReconcile` of the result against `To` is
false. -/
theorem Interpolate_takes_To (self self2 From From2 To : FZipliningState) (Pct Pct2 : ℚ) :
    (self.Interpolate From To Pct).ZiplineActor = To.ZiplineActor ∧
      (self.Interpolate From To Pct).bIsMovingAtoB = To.bIsMovingAtoB ∧
      self.Interpolate From To Pct = To ∧
      self.Interpolate From To Pct = self2.Interpolate From2 To Pct2 ∧
      self.Interpolate From To 0 = To ∧
      (self.Interpolate From To Pct).ShouldReconcile To = false := by
  refine ⟨rfl, rfl, rfl, rfl, rfl, ?_⟩
  simp [FZipliningState.Interpolate, FZipliningState.ShouldReconcile]

/-! ## A line of length zero -/

theorem FVector.GetSafeNormal_sub_self (InvSqrt : ℚ → ℚ) (P : FVector) :
    (P - P).GetSafeNormal InvSqrt = FVector.ZeroVector := by
  unfold FVector.GetSafeNormal
  simp only [FVector.sub_X, FVector.sub_Y, FVector.sub_Z, sub_self, mul_zero, add_zero]
  rw [if_neg (by norm_num), if_pos (by norm_num [FVector.SMALL_NUMBER])]

theorem ActualEndPos_point (Mode : UZipliningMode) (StepStartPos ZipDirection P : FVector)
    (DeltaSeconds : ℚ) :
    Mode.ActualEndPos StepStartPos ZipDirection DeltaSeconds P P = P := by
  unfold UZipliningMode.ActualEndPos FVector.ClosestPointOnSegment
  simp only
  rw [if_pos]
  simp [FVector.dot]

theorem bWillReachEndPosition_point (Mode : UZipliningMode) (StepStartPos ZipDirection P : FVector)
    (DeltaSeconds : ℚ) :
    Mode.bWillReachEndPosition StepStartPos ZipDirection DeltaSeconds P P = true := by
  unfold UZipliningMode.bWillReachEndPosition
  rw [ActualEndPos_point]
  norm_num [FVector.IsNearlyZero, FVector.KINDA_SMALL_NUMBER]

/-- The motion step makes no move when the clamped end is where the hanging
point already is. -/
theorem SlideAlongZipline_no_move (Mode : UZipliningMode) (Env : FMovingComponentSet)
    (StepMs : ℚ) (S E D F : FVector) (C : USceneComponent) (O : FMoverTickEndData)
    (hstay : ((Mode.ActualEndPos (C.Location + Env.ActorToZiplineOffset) D (StepMs * (1 / 1000)) S E)
      - (C.Location + Env.ActorToZiplineOffset)).IsNearlyZero = true) :
    (Mode.SlideAlongZipline Env StepMs S E D F C O).2.Location = C.Location ∧
      (Mode.SlideAlongZipline Env StepMs S E D F C O).2.Events = C.Events := by
  unfold UZipliningMode.SlideAlongZipline
  simp only [hstay, Bool.not_true, Bool.false_eq_true, if_false]
  split_ifs <;> exact ⟨rfl, rfl⟩

/-- C23: a zipline whose two ends are at the same place `P`, for every
`MaxSpeed` and every time step. The travel direction `GetSafeNormal (P - P)` is
the zero vector; for every step start and direction the clamped step end is `P`
and `bWillReachEndPosition` is true. A fresh entry onto such a line returns
with the mover teleported to `P` minus the offset and not moved further, and
with `NextModeName` set to the air mode on that same tick; a continuing tick on
such a line returns with `NextModeName` set to the air mode as well. -/
theorem zero_length_line_exits_at_once (Mode : UZipliningMode) (Env : FMovingComponentSet)
    (Params : FSimulationTickParams) (C : USceneComponent) (O : FMoverTickEndData)
    (L : AActor) (P : FVector) :
    (P - P).GetSafeNormal Env.InvSqrt = FVector.ZeroVector ∧
    (∀ (StepStartPos ZipDirection : FVector) (DeltaSeconds : ℚ),
      Mode.ActualEndPos StepStartPos ZipDirection DeltaSeconds P P = P ∧
      Mode.bWillReachEndPosition StepStartPos ZipDirection DeltaSeconds P P = true) ∧
    (Params.StartState.SyncState.ZipliningState = none →
      FindZipline Env.DoesImplementInterface Env.GetOverlappingActors = some L →
      Env.GetStartComponent L = some P → Env.GetEndComponent L = some P →
      ∃ T r, UZipliningMode.ResolveZipline Env Params C O = some (Sum.inr T) ∧
        T.StartPoint = P ∧ T.EndPoint = P ∧ T.ZipDirection = FVector.ZeroVector ∧
        Mode.SimulationTick Env Params C O = some r ∧
        r.2.Location = P - Env.ActorToZiplineOffset ∧
        (∃ rot, r.2.Events
          = C.Events ++ [FMoveEvent.TeleportTo (P - Env.ActorToZiplineOffset) rot]) ∧
        r.1.MovementEndState.NextModeName = Env.DefaultAirMode) ∧
    (∀ Z, Params.StartState.SyncState.ZipliningState = some Z → Z.ZiplineActor = some L →
      Env.StartLocation L = some P → Env.EndLocation L = some P →
      ∃ T r, UZipliningMode.ResolveZipline Env Params C O = some (Sum.inr T) ∧
        T.StartPoint = P ∧ T.EndPoint = P ∧ T.ZipDirection = FVector.ZeroVector ∧
        Mode.SimulationTick Env Params C O = some r ∧
        r.1.MovementEndState.NextModeName = Env.DefaultAirMode) := by
  refine ⟨FVector.GetSafeNormal_sub_self _ P,
    fun X D dt => ⟨ActualEndPos_point Mode X D P dt, bWillReachEndPosition_point Mode X D P dt⟩,
    ?_, ?_⟩
  · intro hfresh hL hA hB
    obtain ⟨T, hT, hS, hE, hD, hC, -⟩ := ResolveZipline_fresh Env Params C O L P P hfresh hL hA hB
    rw [ite_self] at hS hE
    have hD0 : T.ZipDirection = FVector.ZeroVector := by
      rw [hD, hS, hE]; exact FVector.GetSafeNormal_sub_self _ P
    have hLoc : T.UpdatedComponent.Location = P - Env.ActorToZiplineOffset := by
      rw [hC, hS]; rfl
    have hEv : T.UpdatedComponent.Events
        = C.Events ++ [FMoveEvent.TeleportTo (P - Env.ActorToZiplineOffset)
            T.FlatFacingDir.ToOrientationRotator] := by
      rw [hC, hS]; rfl
    have hstay : ((Mode.ActualEndPos (T.UpdatedComponent.Location + Env.ActorToZiplineOffset)
        T.ZipDirection (Params.StepMs * (1 / 1000)) T.StartPoint T.EndPoint)
          - (T.UpdatedComponent.Location + Env.ActorToZiplineOffset)).IsNearlyZero = true := by
      rw [hS, hE, ActualEndPos_point, hLoc, FVector.sub_add_cancel_offset]
      norm_num [FVector.IsNearlyZero, FVector.KINDA_SMALL_NUMBER]
    obtain ⟨hl, he⟩ := SlideAlongZipline_no_move Mode Env Params.StepMs T.StartPoint T.EndPoint
      T.ZipDirection T.FlatFacingDir T.UpdatedComponent T.OutputState hstay
    refine ⟨T, _, hT, hS, hE, hD0, SimulationTick_of_target Mode Env Params C O T hT, ?_, ?_, ?_⟩
    · rw [hl, hLoc]
    · exact ⟨_, by rw [he, hEv]⟩
    · rw [SlideAlongZipline_NextModeName, hS, hE, bWillReachEndPosition_point, if_pos rfl]
  · intro Z hZ hLz hA hB
    obtain ⟨T, hT, hS, hE, hD, -⟩ := ResolveZipline_continuing Env Params C O Z L P P hZ hLz hA hB
    rw [ite_self] at hS hE
    have hD0 : T.ZipDirection = FVector.ZeroVector := by
      rw [hD, hS, hE]; exact FVector.GetSafeNormal_sub_self _ P
    refine ⟨T, _, hT, hS, hE, hD0, SimulationTick_of_target Mode Env Params C O T hT, ?_⟩
    rw [SlideAlongZipline_NextModeName, hS, hE, bWillReachEndPosition_point, if_pos rfl]

/-- C23 in the sample level with the line shrunk to the point `(5,6,7)`: the
fresh entry puts the mover at `(5,6,7)` minus the offset `(0,0,90)` and asks
for `Falling` on the same tick. -/
theorem zero_length_line_exits_at_once_witness :
    ∃ r, UZipliningMode.Default.SimulationTick (Sample.PointEnv [3, 7]) (Sample.Params none 500)
        (Sample.Component ⟨10, 5, -90⟩) Sample.Output = some r ∧
      r.2.Location = (⟨5, 6, 7⟩ : FVector) - ⟨0, 0, 90⟩ ∧
      r.1.MovementEndState.NextModeName = DefaultModeNames.Falling := by
  obtain ⟨T, r, -, -, -, -, hr, hloc, -, hn⟩ := (zero_length_line_exits_at_once
    UZipliningMode.Default (Sample.PointEnv [3, 7]) (Sample.Params none 500)
    (Sample.Component ⟨10, 5, -90⟩) Sample.Output 7 ⟨5, 6, 7⟩).2.2.1 rfl rfl rfl rfl
  have hoff : (Sample.PointEnv [3, 7]).ActorToZiplineOffset = ⟨0, 0, 90⟩ := by
    apply FVector.eq_of_components <;>
      norm_num [FMovingComponentSet.ActorToZiplineOffset, Sample.PointEnv, Sample.Env]
  rw [hoff] at hloc
  exact ⟨r, hr, hloc, hn⟩

/-! ## The jump flags of the character -/

/-- `OnProduceInput` keeps `bIsJumpPressed`, and leaves `bIsJumpJustPressed`
cleared or as it was. -/
theorem OnProduceInput_jump_state (c : AMoverExamplesCharacter) (Ctx : FProduceInputContext)
    (In : Option FCharacterDefaultInputsBlock) :
    (c.OnProduceInput Ctx In).1.bIsJumpPressed = c.bIsJumpPressed ∧
      ((c.OnProduceInput Ctx In).1.bIsJumpJustPressed = false ∨
        (c.OnProduceInput Ctx In).1.bIsJumpJustPressed = c.bIsJumpJustPressed) := by
  unfold AMoverExamplesCharacter.OnProduceInput
  simp only
  split
  · split <;> exact ⟨rfl, Or.inr rfl⟩
  · exact ⟨rfl, Or.inl rfl⟩

/-- Every event keeps the implication from `bIsJumpJustPressed` to
`bIsJumpPressed`. -/
theorem Handle_keeps_jump_implication (c : AMoverExamplesCharacter) (e : FCharacterEvent)
    (hinv : c.bIsJumpJustPressed = true → c.bIsJumpPressed = true) :
    (c.Handle e).1.bIsJumpJustPressed = true → (c.Handle e).1.bIsJumpPressed = true := by
  cases e with
  | JumpStarted => intro _; rfl
  | JumpReleased => intro h; cases h
  | ProduceInput Ctx In =>
    have hs := OnProduceInput_jump_state c Ctx In
    intro h
    have h1 : (c.OnProduceInput Ctx In).1.bIsJumpJustPressed = true := h
    have hgoal : (c.OnProduceInput Ctx In).1.bIsJumpPressed = true := by
      rw [hs.1]
      rcases hs.2 with h2 | h2
      · rw [h2] at h1; cases h1
      · rw [h2] at h1; exact hinv h1
    exact hgoal
  | _ => exact hinv

theorem Run_keeps_jump_implication (es : List FCharacterEvent) :
    ∀ c : AMoverExamplesCharacter,
      (c.bIsJumpJustPressed = true → c.bIsJumpPressed = true) →
      (c.Run es).1.bIsJumpJustPressed = true → (c.Run es).1.bIsJumpPressed = true := by
  induction es with
  | nil => intro c hinv; exact hinv
  | cons e es ih =>
    intro c hinv
    exact ih (c.Handle e).1 (Handle_keeps_jump_implication c e hinv)

/-- While the jump is held and no edge is pending, no event other than
`OnJumpReleased` brings an edge back. -/
theorem Handle_keeps_held_without_edge (c : AMoverExamplesCharacter) (e : FCharacterEvent)
    (he : e.IsJumpReleased = false)
    (hheld : c.bIsJumpPressed = true) (hedge : c.bIsJumpJustPressed = false) :
    (c.Handle e).1.bIsJumpPressed = true ∧ (c.Handle e).1.bIsJumpJustPressed = false := by
  cases e with
  | JumpReleased => cases he
  | JumpStarted =>
    exact ⟨rfl, by simp [AMoverExamplesCharacter.Handle, AMoverExamplesCharacter.OnJumpStarted,
      hheld]⟩
  | ProduceInput Ctx In =>
    have hs := OnProduceInput_jump_state c Ctx In
    refine ⟨by rw [← hheld]; exact hs.1, ?_⟩
    rcases hs.2 with h2 | h2
    · exact h2
    · rw [← hedge]; exact h2
  | _ => exact ⟨hheld, hedge⟩

/-- While the jump is held and no edge is pending, every input produced before
the next `OnJumpReleased` has `bIsJumpJustPressed = false`. -/
theorem Run_no_edge_while_held (es : List FCharacterEvent) :
    ∀ c : AMoverExamplesCharacter,
      c.bIsJumpPressed = true → c.bIsJumpJustPressed = false →
      (∀ e ∈ es, e.IsJumpReleased = false ∧ e.IsPossessed = true) →
      ∀ b ∈ (c.Run es).2, b.bIsJumpJustPressed = false ∧ b.bIsJumpPressed = true := by
  induction es with
  | nil =>
    intro c _ _ _ b hb
    simp [AMoverExamplesCharacter.Run] at hb
  | cons e es ih =>
    intro c hheld hedge hes b hb
    have he := hes e (List.mem_cons_self e es)
    have hrest : ∀ x ∈ es, x.IsJumpReleased = false ∧ x.IsPossessed = true :=
      fun x hx => hes x (List.mem_cons_of_mem e hx)
    obtain ⟨hh1, hh2⟩ := Handle_keeps_held_without_edge c e he.1 hheld hedge
    have hih := ih (c.Handle e).1 hh1 hh2 hrest
    unfold AMoverExamplesCharacter.Run at hb
    simp only at hb
    cases hh : (c.Handle e).2 with
    | none =>
      rw [hh] at hb
      exact hih b hb
    | some x =>
      rw [hh] at hb
      rcases List.mem_cons.mp hb with rfl | hb
      · cases e with
        | ProduceInput Ctx In =>
          have hctl : Ctx.bHasController = true := he.2
          have hf := OnProduceInput_flags c Ctx In hctl
          have hb2 : b = (c.OnProduceInput Ctx In).2 := by
            simp only [AMoverExamplesCharacter.Handle, Option.some.injEq] at hh
            exact hh.symm
          rw [hb2]
          exact ⟨by rw [hf.1, hedge], by rw [hf.2.1, hheld]⟩
        | _ => simp [AMoverExamplesCharacter.Handle] at hh
      · exact hih b hb

/-- C24: in `AMoverExamplesCharacter`, `bIsJumpJustPressed` implies
`bIsJumpPressed`. Both flags are false in the initial state; the implication
holds after `OnJumpStarted` and after `OnJumpReleased` from any state, and
`OnProduceInput` and every sequence of events keep it, so it holds in every
state reached from the initial one. `OnJumpStarted` while `bIsJumpPressed` is
already true leaves `bIsJumpJustPressed` false, and from then on every input
produced by the possessed character before the next `OnJumpReleased` has
`bIsJumpJustPressed = false`, also when further `OnJumpStarted` events arrive:
a repeated start without a release produces no second edge. -/
theorem jump_edge_implies_held (c : AMoverExamplesCharacter) (Ctx : FProduceInputContext)
    (In : Option FCharacterDefaultInputsBlock) (es held : List FCharacterEvent) :
    (AMoverExamplesCharacter.Default.bIsJumpJustPressed = false ∧
      AMoverExamplesCharacter.Default.bIsJumpPressed = false) ∧
    (AMoverExamplesCharacter.Default.bIsJumpJustPressed = true →
      AMoverExamplesCharacter.Default.bIsJumpPressed = true) ∧
    (c.OnJumpStarted.bIsJumpJustPressed = true → c.OnJumpStarted.bIsJumpPressed = true) ∧
    (c.OnJumpReleased.bIsJumpJustPressed = true → c.OnJumpReleased.bIsJumpPressed = true) ∧
    ((c.bIsJumpJustPressed = true → c.bIsJumpPressed = true) →
      (c.OnProduceInput Ctx In).1.bIsJumpJustPressed = true →
      (c.OnProduceInput Ctx In).1.bIsJumpPressed = true) ∧
    ((c.bIsJumpJustPressed = true → c.bIsJumpPressed = true) →
      (c.Run es).1.bIsJumpJustPressed = true → (c.Run es).1.bIsJumpPressed = true) ∧
    ((AMoverExamplesCharacter.Default.Run es).1.bIsJumpJustPressed = true →
      (AMoverExamplesCharacter.Default.Run es).1.bIsJumpPressed = true) ∧
    (c.bIsJumpPressed = true →
      c.OnJumpStarted.bIsJumpJustPressed = false ∧ c.OnJumpStarted.bIsJumpPressed = true) ∧
    (c.bIsJumpPressed = true →
      (∀ e ∈ held, e.IsJumpReleased = false ∧ e.IsPossessed = true) →
      ∀ b ∈ (c.OnJumpStarted.Run held).2,
        b.bIsJumpJustPressed = false ∧ b.bIsJumpPressed = true) := by
  have hstart : c.bIsJumpPressed = true →
      c.OnJumpStarted.bIsJumpJustPressed = false ∧ c.OnJumpStarted.bIsJumpPressed = true := by
    intro h
    exact ⟨by simp [AMoverExamplesCharacter.OnJumpStarted, h], rfl⟩
  refine ⟨⟨rfl, rfl⟩, ?_, fun _ => rfl, ?_, ?_, ?_, ?_, hstart, ?_⟩
  · intro h
    cases h
  · intro h
    cases h
  · intro hinv
    exact Handle_keeps_jump_implication c (FCharacterEvent.ProduceInput Ctx In) hinv
  · exact Run_keeps_jump_implication es c
  · exact Run_keeps_jump_implication es AMoverExamplesCharacter.Default (fun h => by cases h)
  · intro hheld hes
    obtain ⟨h1, h2⟩ := hstart hheld
    exact Run_no_edge_while_held held c.OnJumpStarted h2 h1 hes

/-- C24 for a fresh character whose jump is started twice without a release:
the second start clears the edge, and neither of the two frames that follow,
with a third start between them, reports one. -/
theorem jump_edge_implies_held_witness :
    AMoverExamplesCharacter.Default.OnJumpStarted.OnJumpStarted.bIsJumpJustPressed = false ∧
      AMoverExamplesCharacter.Default.OnJumpStarted.OnJumpStarted.bIsJumpPressed = true ∧
      ∃ b1 b2, (AMoverExamplesCharacter.Default.OnJumpStarted.OnJumpStarted.Run
          Sample.RepeatedJump).2 = [b1, b2] ∧
        b1.bIsJumpJustPressed = false ∧ b2.bIsJumpJustPressed = false := by
  have h := jump_edge_implies_held AMoverExamplesCharacter.Default.OnJumpStarted
    Sample.ProduceContext none [] Sample.RepeatedJump
  obtain ⟨-, -, -, -, -, -, -, hstart, hrun⟩ := h
  have hall := hrun rfl
    (by intro e he; simp only [Sample.RepeatedJump, List.mem_cons, List.mem_singleton,
          List.mem_nil_iff, or_false] at he
        rcases he with rfl | rfl | rfl <;> exact ⟨rfl, rfl⟩)
  have hlist : (AMoverExamplesCharacter.Default.OnJumpStarted.OnJumpStarted.Run
      Sample.RepeatedJump).2 = [_, _] := rfl
  refine ⟨(hstart rfl).1, (hstart rfl).2, _, _, hlist, ?_, ?_⟩
  · exact (hall _ (by rw [hlist]; exact List.mem_cons_self _ _)).1
  · exact (hall _ (by rw [hlist]; exact List.mem_cons_of_mem _ (List.mem_cons_self _ _))).1

end MoverExamples
